import Mathlib

/-!
Restaurant management system: order / table / payment lifecycle

A shallow embedding of the data-access layer `src/supabase.js` (`restaurantDB`)
and of the order-taking handler of `src/main.js`, with the properties of the
lifecycle specification stated over it.

Modelling conventions
* JavaScript numbers are the finite binary64 values, kept as the rationals they
  denote (`ℚ`); the arithmetic of the order total rounds every product and sum
  to the nearest binary64 value (`roundDouble`, `jsMul`, `jsAdd`).  `NaN` and
  `±Infinity` have no value in `ℚ`: prices are finite and the total stays below
  the overflow threshold.
* `Date.now()` / `new Date().toISOString()` are clock readings supplied as inputs
  (natural numbers, milliseconds).
* The hosted store is a record of three row lists.  A request to it either
  succeeds or reports an error object; which one happens is an input
  (`Outcome`).  A request that reports an error leaves the rows unchanged.
* An `async` method that throws is modelled by returning the store reached so
  far together with `Except.error`.
-/

namespace Restaurant

/-! ## Data model -/

/-- One selected line of an order (`config.selectedItems[itemId]`, main.js 221-226);
`price` and `quantity` are finite numbers. -/
structure LineItem where
  id : String
  name : String
  price : ℚ
  quantity : ℚ
  deriving DecidableEq, Repr

/-- The object literal passed to `restaurantDB.createOrder` (main.js 274-281). -/
structure OrderData where
  table_no : String
  customer_name : String
  items : List LineItem
  total_amount : ℚ
  status : String
  payment_status : String
  deriving DecidableEq, Repr

/-- A row of `orders`: the submitted data plus `order_id` and `timestamp`
(supabase.js 96-100) and the columns later updates write. -/
structure Order where
  table_no : String
  customer_name : String
  items : List LineItem
  total_amount : ℚ
  status : String
  payment_status : String
  order_id : String
  timestamp : Nat
  updated_at : Option Nat
  completed_at : Option Nat
  deriving DecidableEq, Repr

/-- A row of `restaurant_tables`. -/
structure Table where
  table_no : String
  capacity : ℚ
  status : String
  current_order_id : Option String
  updated_at : Option Nat
  deriving DecidableEq, Repr

/-- The object literal passed to `restaurantDB.processPayment` (main.js 638-643). -/
structure PaymentData where
  order_id : String
  amount : ℚ
  method : String
  cashier : String
  deriving DecidableEq, Repr

/-- A row of `payments`: the submitted data plus `payment_id` and `payment_time`
(supabase.js 135-139). -/
structure Payment where
  order_id : String
  amount : ℚ
  method : String
  cashier : String
  payment_id : String
  payment_time : Nat
  deriving DecidableEq, Repr

/-- The three row lists held by the hosted store. -/
structure Store where
  tables : List Table
  orders : List Order
  payments : List Payment
  deriving DecidableEq, Repr

/-- What a method of `restaurantDB` can throw: the error object reported by the
store (`if (error) throw error`), or the `TypeError` of reading a property of
`undefined` (`order[0].table_no` on an empty result). -/
inductive DbError where
  | upstream (message : String)
  | typeError
  deriving DecidableEq, Repr

deriving instance DecidableEq for Except

/-- Answer of the store to one request: `none` when it succeeds, `some msg`
when it reports the error object `msg`. -/
abbrev Outcome := Option String

/-! ## The order-taking handler (main.js) -/

/-- The part of `config` (main.js 4-13) read by `sendOrderToKitchen`.
`selectedItems` is the object keyed by item id, kept as its entries in
insertion order; `ownEntries` gives the order in which they are enumerated. -/
structure Config where
  selectedTable : String
  selectedItems : List (String × LineItem)
  deriving DecidableEq, Repr

/-- The number a list of decimal digit characters denotes. -/
def decodeDigits (digits : List Char) : Nat :=
  digits.foldl (fun acc c => 10 * acc + (c.toNat - 48)) 0

/-- The array index a property key denotes, if it is one: the key is the
canonical decimal numeral (digits only, no leading zero) of an integer below
2^32 - 1. -/
def arrayIndex (key : String) : Option Nat :=
  if key.data ≠ [] ∧ key.data.all Char.isDigit = true ∧
      (key.data.head? ≠ some '0' ∨ key.data.length = 1) ∧
      decodeDigits key.data < 4294967295 then
    some (decodeDigits key.data)
  else none

/-- The order in which `Object.keys`, `Object.values` and `Object.entries` list
the own properties of an object kept as its entries in insertion order: the
array-index keys first, in ascending numeric order, then the other keys in
insertion order. -/
def ownEntries {α : Type} (obj : List (String × α)) : List (String × α) :=
  (obj.filter (fun e => (arrayIndex e.1).isSome)).insertionSort
      (fun a b => (arrayIndex a.1).getD 0 ≤ (arrayIndex b.1).getD 0) ++
    obj.filter (fun e => (arrayIndex e.1).isNone)

/-- The array `Object.values(config.selectedItems)`. -/
def objectValues (selectedItems : List (String × LineItem)) : List LineItem :=
  (ownEntries selectedItems).map Prod.snd

/-- The integer nearest to `x`, a tie going to the even one. -/
def roundHalfEven (x : ℚ) : ℤ :=
  if x - ⌊x⌋ < 1 / 2 then ⌊x⌋
  else if 1 / 2 < x - ⌊x⌋ then ⌊x⌋ + 1
  else if ⌊x⌋ % 2 = 0 then ⌊x⌋ else ⌊x⌋ + 1

/-- The binary64 value nearest to `x`, a tie going to the even significand (the
rounding of every JavaScript arithmetic operation).  For `2 ^ k ≤ |x| < 2 ^ (k + 1)`
the values are the multiples of `2 ^ (k - 52)` (53 significant bits), and of
`2 ^ (-1074)` in the subnormal range.  The two zeros are one value.  From
magnitude `2 ^ 1024 - 2 ^ 970` on JavaScript yields `±Infinity`, which has no
value here: the function describes the results below that threshold. -/
def roundDouble (x : ℚ) : ℚ :=
  if x = 0 then 0
  else (roundHalfEven (x / 2 ^ max (Int.log 2 |x| - 52) (-1074)) : ℚ) *
    2 ^ max (Int.log 2 |x| - 52) (-1074)

/-- The JavaScript sum `a + b` of two finite numbers: the exact sum, rounded. -/
def jsAdd (a b : ℚ) : ℚ := roundDouble (a + b)

/-- The JavaScript product `a * b` of two finite numbers: the exact product,
rounded. -/
def jsMul (a b : ℚ) : ℚ := roundDouble (a * b)

/-- The reduction `items.reduce((sum, item) => sum + item.price * item.quantity, 0)`
(main.js 271). -/
def orderTotal (items : List LineItem) : ℚ :=
  items.foldl (fun sum item => jsAdd sum (jsMul item.price item.quantity)) 0

/-- Lines 264-281 of `sendOrderToKitchen`: `none` when no item is selected (the
handler notifies and returns), otherwise the argument it passes to
`restaurantDB.createOrder`. -/
def sendOrderToKitchen_request (config : Config) : Option OrderData :=
  let items := objectValues config.selectedItems
  if items.length = 0 then none
  else
    let total := orderTotal items
    some
      { table_no := config.selectedTable
        customer_name := "Customer"
        items := items
        total_amount := total
        status := "pending"
        payment_status := "pending" }

/-! ## The hosted store: single requests

Each definition is one request of the client library, as used by
`restaurantDB`: `insert([row]).select()` appends the row and returns it,
`update(fields).eq(column, value).select()` rewrites every matching row and
returns the rewritten rows (an empty array when nothing matches). -/

/-- The request `from('restaurant_tables').insert([row]).select()`. -/
def insertTable (s : Store) (row : Table) (outcome : Outcome) :
    Store × Except DbError (List Table) :=
  match outcome with
  | some msg => (s, .error (.upstream msg))
  | none => ({ s with tables := s.tables ++ [row] }, .ok [row])

/-- The request `from('orders').insert([row]).select()`. -/
def insertOrder (s : Store) (row : Order) (outcome : Outcome) :
    Store × Except DbError (List Order) :=
  match outcome with
  | some msg => (s, .error (.upstream msg))
  | none => ({ s with orders := s.orders ++ [row] }, .ok [row])

/-- The request `from('payments').insert([row]).select()`. -/
def insertPayment (s : Store) (row : Payment) (outcome : Outcome) :
    Store × Except DbError (List Payment) :=
  match outcome with
  | some msg => (s, .error (.upstream msg))
  | none => ({ s with payments := s.payments ++ [row] }, .ok [row])

/-- The fields object of `updateTableStatus` (supabase.js 32-36) applied to a row. -/
def setTableFields (status : String) (orderId : Option String) (now : Nat) (t : Table) :
    Table :=
  { t with status := status, current_order_id := orderId, updated_at := some now }

/-- The table rows after `update(fields).eq('table_no', tableNo)` took effect. -/
def tablesAfterUpdate (tables : List Table) (tableNo status : String)
    (orderId : Option String) (now : Nat) : List Table :=
  tables.map (fun t => if t.table_no = tableNo then setTableFields status orderId now t else t)

/-- The request `from('restaurant_tables').update(fields).eq('table_no', tableNo).select()`
with the fields object of `updateTableStatus`. -/
def updateTables (s : Store) (tableNo status : String) (orderId : Option String) (now : Nat)
    (outcome : Outcome) : Store × Except DbError (List Table) :=
  match outcome with
  | some msg => (s, .error (.upstream msg))
  | none =>
    ({ s with tables := tablesAfterUpdate s.tables tableNo status orderId now },
      .ok ((s.tables.filter (fun t => t.table_no = tableNo)).map
        (setTableFields status orderId now)))

/-- A fields object for `from('orders').update(...)`: `none` is a key that is
absent from the object. -/
structure OrderUpdates where
  status : Option String
  payment_status : Option String
  completed_at : Option Nat
  updated_at : Option Nat
  deriving DecidableEq, Repr

/-- A row of `orders` after the columns named in `u` are overwritten. -/
def applyOrderUpdates (u : OrderUpdates) (o : Order) : Order :=
  { o with
    status := u.status.getD o.status
    payment_status := u.payment_status.getD o.payment_status
    completed_at := (match u.completed_at with
      | some v => some v
      | none => o.completed_at)
    updated_at := (match u.updated_at with
      | some v => some v
      | none => o.updated_at) }

/-- The order rows after `update(updates).eq('order_id', orderId)` took effect. -/
def ordersAfterUpdate (orders : List Order) (orderId : String) (u : OrderUpdates) :
    List Order :=
  orders.map (fun o => if o.order_id = orderId then applyOrderUpdates u o else o)

/-- The request `from('orders').update(updates).eq('order_id', orderId).select()`. -/
def updateOrders (s : Store) (orderId : String) (u : OrderUpdates) (outcome : Outcome) :
    Store × Except DbError (List Order) :=
  match outcome with
  | some msg => (s, .error (.upstream msg))
  | none =>
    ({ s with orders := ordersAfterUpdate s.orders orderId u },
      .ok ((s.orders.filter (fun o => o.order_id = orderId)).map (applyOrderUpdates u)))

/-! ## `restaurantDB` (supabase.js) -/

/-- The method `restaurantDB.addTable` (supabase.js 19-27). -/
def addTable (s : Store) (tableData : Table) (outcome : Outcome) :
    Store × Except DbError (Option Table) :=
  match insertTable s tableData outcome with
  | (s1, .error e) => (s1, .error e)
  | (s1, .ok data) => (s1, .ok data.head?)

/-- The method `restaurantDB.updateTableStatus` (supabase.js 29-42); `now` is the
reading of `new Date()` on line 35. -/
def updateTableStatus (s : Store) (tableNo status : String) (orderId : Option String)
    (now : Nat) (outcome : Outcome) : Store × Except DbError (Option Table) :=
  match updateTables s tableNo status orderId now outcome with
  | (s1, .error e) => (s1, .error e)
  | (s1, .ok data) => (s1, .ok data.head?)

/-- Clock readings and store answers consumed by one `createOrder` call. -/
structure CreateOrderEnv where
  idNow : Nat
  timestampNow : Nat
  insertOutcome : Outcome
  tableNow : Nat
  tableOutcome : Outcome
  deriving DecidableEq, Repr

/-- The identifier built on supabase.js line 93. -/
def orderIdOf (now : Nat) : String := "ORD-" ++ toString now

/-- The row inserted by `createOrder` (supabase.js 96-100). -/
def newOrderRow (orderData : OrderData) (orderId : String) (timestamp : Nat) : Order :=
  { table_no := orderData.table_no
    customer_name := orderData.customer_name
    items := orderData.items
    total_amount := orderData.total_amount
    status := orderData.status
    payment_status := orderData.payment_status
    order_id := orderId
    timestamp := timestamp
    updated_at := none
    completed_at := none }

/-- The method `restaurantDB.createOrder` (supabase.js 92-108). -/
def createOrder (s : Store) (orderData : OrderData) (env : CreateOrderEnv) :
    Store × Except DbError (Option Order) :=
  let orderId := orderIdOf env.idNow
  match insertOrder s (newOrderRow orderData orderId env.timestampNow) env.insertOutcome with
  | (s1, .error e) => (s1, .error e)
  | (s1, .ok data) =>
    match updateTableStatus s1 orderData.table_no "occupied" (some orderId) env.tableNow
        env.tableOutcome with
    | (s2, .error e) => (s2, .error e)
    | (s2, .ok _) => (s2, .ok data.head?)

/-- Clock readings and store answer consumed by one `updateOrderStatus` call. -/
structure UpdateOrderEnv where
  updatedNow : Nat
  completedNow : Nat
  outcome : Outcome
  deriving DecidableEq, Repr

/-- The `updates` object built on supabase.js lines 111-118. -/
def statusUpdates (status : String) (env : UpdateOrderEnv) : OrderUpdates :=
  { status := some status
    payment_status := none
    completed_at := if status = "completed" then some env.completedNow else none
    updated_at := some env.updatedNow }

/-- The method `restaurantDB.updateOrderStatus` (supabase.js 110-128). -/
def updateOrderStatus (s : Store) (orderId status : String) (env : UpdateOrderEnv) :
    Store × Except DbError (Option Order) :=
  match updateOrders s orderId (statusUpdates status env) env.outcome with
  | (s1, .error e) => (s1, .error e)
  | (s1, .ok data) => (s1, .ok data.head?)

/-- Clock readings and store answers consumed by one `processPayment` call. -/
structure ProcessPaymentEnv where
  idNow : Nat
  paymentTime : Nat
  paymentOutcome : Outcome
  completedNow : Nat
  updatedNow : Nat
  orderOutcome : Outcome
  tableNow : Nat
  tableOutcome : Outcome
  deriving DecidableEq, Repr

/-- The identifier built on supabase.js line 131. -/
def paymentIdOf (now : Nat) : String := "PAY-" ++ toString now

/-- The row inserted by `processPayment` (supabase.js 135-139). -/
def newPaymentRow (paymentData : PaymentData) (paymentId : String) (paymentTime : Nat) :
    Payment :=
  { order_id := paymentData.order_id
    amount := paymentData.amount
    method := paymentData.method
    cashier := paymentData.cashier
    payment_id := paymentId
    payment_time := paymentTime }

/-- The fields object of supabase.js lines 146-151. -/
def settleUpdates (env : ProcessPaymentEnv) : OrderUpdates :=
  { status := some "completed"
    payment_status := some "paid"
    completed_at := some env.completedNow
    updated_at := some env.updatedNow }

/-- The method `restaurantDB.processPayment` (supabase.js 130-160).  Reading
`order[0].table_no` when the update matched no row throws a `TypeError`. -/
def processPayment (s : Store) (paymentData : PaymentData) (env : ProcessPaymentEnv) :
    Store × Except DbError (Option Payment) :=
  let paymentId := paymentIdOf env.idNow
  match insertPayment s (newPaymentRow paymentData paymentId env.paymentTime)
      env.paymentOutcome with
  | (s1, .error e) => (s1, .error e)
  | (s1, .ok payment) =>
    match updateOrders s1 paymentData.order_id (settleUpdates env) env.orderOutcome with
    | (s2, .error e) => (s2, .error e)
    | (s2, .ok order) =>
      match order.head? with
      | none => (s2, .error .typeError)
      | some order0 =>
        match updateTableStatus s2 order0.table_no "vacant" none env.tableNow
            env.tableOutcome with
        | (s3, .error e) => (s3, .error e)
        | (s3, .ok _) => (s3, .ok payment.head?)

/-! ## The handler `sendOrderToKitchen` (main.js) -/

/-- A call `showNotification(message, type)`. -/
structure Notification where
  message : String
  type : String
  deriving DecidableEq, Repr

/-- The handler `sendOrderToKitchen` (main.js 263-289) run against the store: the
store it leaves and the notification it shows.  The refresh `loadAllData()`
that follows a success only reads the store. -/
def sendOrderToKitchen (config : Config) (s : Store) (env : CreateOrderEnv) :
    Store × Notification :=
  match sendOrderToKitchen_request config with
  | none => (s, { message := "Please select at least one item", type := "error" })
  | some orderData =>
    match createOrder s orderData env with
    | (s1, .ok _) => (s1, { message := "Order sent to kitchen!", type := "success" })
    | (s1, .error _) => (s1, { message := "Failed to create order", type := "error" })

/-! ## Sequences of operations and the occupancy invariant -/

/-- One successful call (a call that returns instead of throwing) of a mutating
method of `restaurantDB`, with any arguments, clock readings and store answers. -/
inductive Step : Store → Store → Prop where
  | addTable (s : Store) (tableData : Table) (outcome : Outcome) :
      (addTable s tableData outcome).2.isOk = true →
      Step s (addTable s tableData outcome).1
  | updateTableStatus (s : Store) (tableNo status : String) (orderId : Option String)
      (now : Nat) (outcome : Outcome) :
      (updateTableStatus s tableNo status orderId now outcome).2.isOk = true →
      Step s (updateTableStatus s tableNo status orderId now outcome).1
  | createOrder (s : Store) (orderData : OrderData) (env : CreateOrderEnv) :
      (createOrder s orderData env).2.isOk = true →
      Step s (createOrder s orderData env).1
  | updateOrderStatus (s : Store) (orderId status : String) (env : UpdateOrderEnv) :
      (updateOrderStatus s orderId status env).2.isOk = true →
      Step s (updateOrderStatus s orderId status env).1
  | processPayment (s : Store) (paymentData : PaymentData) (env : ProcessPaymentEnv) :
      (processPayment s paymentData env).2.isOk = true →
      Step s (processPayment s paymentData env).1

/-- One call of a mutating method of `restaurantDB`, with any arguments, clock
readings and store answers, whether it returns or throws. -/
inductive Call : Store → Store → Prop where
  | addTable (s : Store) (tableData : Table) (outcome : Outcome) :
      Call s (addTable s tableData outcome).1
  | updateTableStatus (s : Store) (tableNo status : String) (orderId : Option String)
      (now : Nat) (outcome : Outcome) :
      Call s (updateTableStatus s tableNo status orderId now outcome).1
  | createOrder (s : Store) (orderData : OrderData) (env : CreateOrderEnv) :
      Call s (createOrder s orderData env).1
  | updateOrderStatus (s : Store) (orderId status : String) (env : UpdateOrderEnv) :
      Call s (updateOrderStatus s orderId status env).1
  | processPayment (s : Store) (paymentData : PaymentData) (env : ProcessPaymentEnv) :
      Call s (processPayment s paymentData env).1

/-- The successful calls issued along the flows of the order lifecycle: a new
unoccupied table under an unused table number, an order placed with a status
other than 'completed' under an unused order id, a status change to anything
but 'completed', a settlement, and an `updateTableStatus` that vacates (a status
other than 'occupied' with a null order id). -/
inductive LifecycleStep : Store → Store → Prop where
  | updateTableStatus (s : Store) (tableNo status : String) (now : Nat) (outcome : Outcome) :
      status ≠ "occupied" →
      (updateTableStatus s tableNo status none now outcome).2.isOk = true →
      LifecycleStep s (updateTableStatus s tableNo status none now outcome).1
  | addTable (s : Store) (tableData : Table) (outcome : Outcome) :
      tableData.status ≠ "occupied" → tableData.current_order_id = none →
      tableData.table_no ∉ s.tables.map (fun t => t.table_no) →
      (addTable s tableData outcome).2.isOk = true →
      LifecycleStep s (addTable s tableData outcome).1
  | createOrder (s : Store) (orderData : OrderData) (env : CreateOrderEnv) :
      orderData.status ≠ "completed" →
      orderIdOf env.idNow ∉ s.orders.map (fun o => o.order_id) →
      (createOrder s orderData env).2.isOk = true →
      LifecycleStep s (createOrder s orderData env).1
  | updateOrderStatus (s : Store) (orderId status : String) (env : UpdateOrderEnv) :
      status ≠ "completed" →
      (updateOrderStatus s orderId status env).2.isOk = true →
      LifecycleStep s (updateOrderStatus s orderId status env).1
  | processPayment (s : Store) (paymentData : PaymentData) (env : ProcessPaymentEnv) :
      (processPayment s paymentData env).2.isOk = true →
      LifecycleStep s (processPayment s paymentData env).1

/-- The table `t` references a live order of the store: its `current_order_id`
is non-null and is the id of an order whose status is not 'completed'. -/
def referencesLiveOrder (s : Store) (t : Table) : Prop :=
  ∃ o ∈ s.orders, t.current_order_id = some o.order_id ∧ o.status ≠ "completed"

instance (s : Store) (t : Table) : Decidable (referencesLiveOrder s t) := by
  unfold referencesLiveOrder
  infer_instance

/-- The occupancy invariant of the specification: a table is 'occupied' exactly
when it references a live order, and no two tables reference the same order. -/
def TableInvariant (s : Store) : Prop :=
  (∀ t ∈ s.tables, t.status = "occupied" ↔ referencesLiveOrder s t) ∧
  s.tables.Pairwise
    (fun t1 t2 => t1.current_order_id = none ∨ t1.current_order_id ≠ t2.current_order_id)

instance (s : Store) : Decidable (TableInvariant s) := by
  unfold TableInvariant
  infer_instance

/-- A consistent store: table numbers and order ids are unique, and every table
is either occupied by a live order placed on that very table, or is not
occupied and references nothing. -/
def Consistent (s : Store) : Prop :=
  (s.tables.map (fun t => t.table_no)).Nodup ∧
  (s.orders.map (fun o => o.order_id)).Nodup ∧
  ∀ t ∈ s.tables,
    (t.status = "occupied" ∧
      ∃ o ∈ s.orders, t.current_order_id = some o.order_id ∧ o.status ≠ "completed" ∧
        o.table_no = t.table_no) ∨
    (t.status ≠ "occupied" ∧ t.current_order_id = none)

instance (s : Store) : Decidable (Consistent s) := by
  unfold Consistent
  infer_instance

/-! ## The order form of the create-order modal (main.js) -/

/-- A row of `menu_items` as cached in `config.menu`; `available` is false only
for a row whose `available` column is `false` (`item.available !== false`), and
`price` is `parseFloat(item.price)`. -/
structure MenuItem where
  item_id : String
  item_name : String
  category : String
  price : ℚ
  description : String
  available : Bool
  deriving DecidableEq, Repr

/-- The assignment `obj[key] = value` on an object kept as its entries in
insertion order: an existing key keeps its place, a new key goes last (the
order of enumeration is `ownEntries`). -/
def objectSet (obj : List (String × LineItem)) (key : String) (value : LineItem) :
    List (String × LineItem) :=
  if obj.any (fun e => e.1 = key) then
    obj.map (fun e => if e.1 = key then (key, value) else e)
  else obj ++ [(key, value)]

/-- The statement `delete obj[key]`. -/
def objectDelete (obj : List (String × LineItem)) (key : String) : List (String × LineItem) :=
  obj.filter (fun e => e.1 ≠ key)

/-- The state the create-order modal works on: `config.selectedTable` and
`config.selectedItems`, the cached `config.menu`, and the read-only inputs
`qty-<item_id>` of the modal in document order, each with the integer its value
denotes. -/
structure OrderForm where
  config : Config
  menu : List MenuItem
  qtyInputs : List (String × ℤ)
  deriving DecidableEq, Repr

/-- The menu items `openCreateOrderModal` renders, in document order (main.js
173-202): the available items are collected in the object `categories`, one
property per category in order of first appearance, and `Object.entries`
lists the categories. -/
def renderedItems (menu : List MenuItem) : List MenuItem :=
  let available := menu.filter (fun item => item.available)
  let categories := (available.map (fun item => item.category)).eraseDups.map
    (fun category => (category, available.filter (fun item => item.category = category)))
  (ownEntries categories).flatMap Prod.snd

/-- The function `openCreateOrderModal` (main.js 166-209): the table is selected,
the selection is emptied and every rendered item gets an input with value 0. -/
def openCreateOrderModal (menu : List MenuItem) (tableNo : String) : OrderForm :=
  { config := { selectedTable := tableNo, selectedItems := [] }
    menu := menu
    qtyInputs := (renderedItems menu).map (fun item => (item.item_id, 0)) }

/-- The assignment `input.value = current` on the first input with that id. -/
def setQtyInput (inputs : List (String × ℤ)) (itemId : String) (value : ℤ) :
    List (String × ℤ) :=
  match inputs with
  | [] => []
  | e :: rest =>
    if e.1 = itemId then (itemId, value) :: rest else e :: setQtyInput rest itemId value

/-- The handler `updateItemQuantity` (main.js 211-232) for an integer `change`.
When no input `qty-<itemId>` exists, reading `input.value` throws and nothing
is written.  `updateOrderSummary()` only re-renders. -/
def updateItemQuantity (form : OrderForm) (itemId : String) (change : ℤ) : OrderForm :=
  match form.qtyInputs.lookup itemId with
  | none => form
  | some value =>
    let current := max 0 (value + change)
    let form1 := { form with qtyInputs := setQtyInput form.qtyInputs itemId current }
    match form.menu.find? (fun m => m.item_id = itemId) with
    | none => form1
    | some item =>
      if current > 0 then
        { form1 with
          config :=
            { form1.config with
              selectedItems := objectSet form1.config.selectedItems itemId
                { id := itemId, name := item.item_name, price := item.price,
                  quantity := (current : ℚ) } } }
      else
        { form1 with
          config :=
            { form1.config with
              selectedItems := objectDelete form1.config.selectedItems itemId } }

/-- What can happen while the modal is open: a click on a `+` / `-` button
(`updateItemQuantity(itemId, change)`), or the periodic `loadAllData` replacing
`config.menu` (main.js 78, 880). -/
inductive FormAction where
  | click (itemId : String) (change : ℤ)
  | refresh (menu : List MenuItem)
  deriving DecidableEq, Repr

/-- The effect of one action on the form. -/
def applyAction (form : OrderForm) : FormAction → OrderForm
  | .click itemId change => updateItemQuantity form itemId change
  | .refresh menu => { form with menu := menu }

/-- The effect of a sequence of actions, first to last. -/
def runActions (form : OrderForm) (actions : List FormAction) : OrderForm :=
  actions.foldl applyAction form

/-! ## Further handlers (main.js, script.js) -/

/-- The handler `markOrderReady` (main.js 476-485) run against the store; the
reloads that follow a success only read. -/
def markOrderReady (s : Store) (orderId : String) (env : UpdateOrderEnv) :
    Store × Notification :=
  match updateOrderStatus s orderId "ready" env with
  | (s1, .ok _) => (s1, { message := "Order marked as ready", type := "success" })
  | (s1, .error _) => (s1, { message := "Failed to update order", type := "error" })

/-- Lines 634-643 of `completePayment` (main.js): `none` when the order is not in
the cached `config.orders` (the handler returns), otherwise the argument it
passes to `restaurantDB.processPayment`. -/
def completePayment_request (orders : List Order) (orderId method : String) :
    Option PaymentData :=
  match orders.find? (fun o => o.order_id = orderId) with
  | none => none
  | some order =>
    some { order_id := orderId, amount := order.total_amount, method := method,
           cashier := "System" }

/-- The handler `completePayment` (main.js 633-653) run against the store: the
store it leaves and the notifications the handler itself shows, in order.
After a successful `processPayment` the handler notifies, reloads
(`loadAllData` catches its own errors) and calls `generateReceipt` inside the
same `try`; `receiptThrows` tells whether that call throws (main.js 716-717:
`window.open` returned `null` for an order found in the reloaded cache), in
which case the `catch` shows 'Payment failed' although the payment is stored. -/
def completePayment (orders : List Order) (s : Store) (orderId method : String)
    (env : ProcessPaymentEnv) (receiptThrows : Bool) : Store × List Notification :=
  match completePayment_request orders orderId method with
  | none => (s, [])
  | some paymentData =>
    match processPayment s paymentData env with
    | (s1, .ok _) =>
      (s1, { message := "Payment processed via " ++ method, type := "success" } ::
        (if receiptThrows then [{ message := "Payment failed", type := "error" }] else []))
    | (s1, .error _) => (s1, [{ message := "Payment failed", type := "error" }])

namespace Script

/-- The parameter object of the `processPayment` action (script.js 718-723). -/
structure PaymentParams where
  orderId : String
  amount : ℚ
  method : String
  cashier : String
  deriving DecidableEq, Repr

/-- Lines 715-723 of `completePayment` (script.js): `none` when the order is not
in the cached `config.orders`, otherwise the action name and the parameters
handed to `callAPI`. -/
def completePayment_request (orders : List Order) (orderId method : String) :
    Option (String × PaymentParams) :=
  match orders.find? (fun o => o.order_id = orderId) with
  | none => none
  | some order =>
    some ("processPayment",
      { orderId := orderId, amount := order.total_amount, method := method,
        cashier := "Staff" })

end Script

/-! ## Menu management (main.js, supabase.js) -/

/-- The object literal passed to `restaurantDB.addMenuItem` (main.js 398-406). -/
structure MenuItemData where
  item_name : String
  category : String
  price : ℚ
  description : String
  kitchen_station : String
  prep_time : ℚ
  available : Bool
  deriving DecidableEq, Repr

/-- A row of `menu_items`: the submitted data plus `item_id` (supabase.js 58). -/
structure MenuRow where
  item_id : String
  data : MenuItemData
  deriving DecidableEq, Repr

/-- The identifier built on supabase.js line 55. -/
def menuItemIdOf (now : Nat) : String := "ITEM-" ++ toString now

/-- The method `restaurantDB.addMenuItem` (supabase.js 54-63) on the rows of
`menu_items`. -/
def addMenuItem (menu : List MenuRow) (itemData : MenuItemData) (now : Nat)
    (outcome : Outcome) : List MenuRow × Except DbError (Option MenuRow) :=
  match outcome with
  | some msg => (menu, .error (.upstream msg))
  | none =>
    (menu ++ [{ item_id := menuItemIdOf now, data := itemData }],
      .ok (some { item_id := menuItemIdOf now, data := itemData }))

namespace Main

/-- Lines 387-406 of the handler `addMenuItem` (main.js).  `name`, `category` and
`description` are the trimmed field values and `price` is what `parseFloat`
returned for the price field, `none` standing for `NaN`.  The test
`!name || !category || !price` is true for an empty string, for `NaN` and for
0.  The result is `none` when the handler notifies and returns, otherwise the
argument it passes to `restaurantDB.addMenuItem`. -/
def addMenuItem_request (name category : String) (price : Option ℚ) (description : String) :
    Option MenuItemData :=
  match price with
  | none => none
  | some p =>
    if name = "" ∨ category = "" ∨ p = 0 then none
    else
      some
        { item_name := name
          category := category
          price := p
          description := description
          kitchen_station := "Main Kitchen"
          prep_time := 15
          available := true }

/-- The handler `addMenuItem` (main.js 386-414) run against the rows of
`menu_items`: the rows it leaves and the notification it shows. -/
def addMenuItem (menu : List MenuRow) (name category : String) (price : Option ℚ)
    (description : String) (now : Nat) (outcome : Outcome) : List MenuRow × Notification :=
  match addMenuItem_request name category price description with
  | none => (menu, { message := "Please fill all required fields", type := "error" })
  | some itemData =>
    match Restaurant.addMenuItem menu itemData now outcome with
    | (menu1, .ok _) => (menu1, { message := "Menu item added successfully", type := "success" })
    | (menu1, .error _) => (menu1, { message := "Failed to add menu item", type := "error" })

end Main

/-! ## Periodic refresh and the kitchen view (main.js) -/

/-- The function `displayKitchenOrders(orders = [])` (main.js 432-474): the orders
it renders.  `none` is a call without argument, for which the parameter takes
its default `[]`; an empty result renders 'No orders in kitchen'. -/
def displayKitchenOrders (orders : Option (List Order)) : List Order :=
  (orders.getD []).filter (fun order => order.status = "pending" ∨ order.status = "ready")

/-- The function `syncToGoogleSheets` of main.js (102-110): how it completes
(`.ok` when it returns, `.error` when it throws) and how many times it called
`restaurantDB.syncToGoogleSheets`, whose own completion is `mirror`.  An
error thrown inside the `try` is caught and logged. -/
def syncToGoogleSheets (webhook : String) (mirror : Except String Unit) :
    Except String Unit × Nat :=
  if webhook = "" then (.ok (), 0)
  else
    match mirror with
    | .ok _ => (.ok (), 1)
    | .error _ => (.ok (), 1)

/-- What one `loadAllData` run is given: the completions of the three reads, the
tabs that are active, the configured webhook and the completion of
`restaurantDB.syncToGoogleSheets`. -/
structure LoadInputs where
  tables : Except String (List Table)
  menu : Except String (List MenuItem)
  orders : Except String (List Order)
  menuActive : Bool
  kitchenActive : Bool
  checkoutActive : Bool
  webhook : String
  mirror : Except String Unit

/-- What one `loadAllData` run does: the lists it stores in `config`, the views
it re-renders (for the kitchen view, the orders rendered), the number of
mirror calls and the notification it shows, if any. -/
structure LoadEffects where
  cache : Option (List Table × List MenuItem × List Order)
  tablesShown : Bool
  menuShown : Bool
  kitchenShown : Option (List Order)
  checkoutShown : Bool
  mirrorCalls : Nat
  notification : Option Notification
  deriving DecidableEq, Repr

/-- The function `loadAllData` (main.js 69-100).  `displayKitchenOrders()` is
called without argument on line 87. -/
def loadAllData (inp : LoadInputs) : LoadEffects :=
  match inp.tables, inp.menu, inp.orders with
  | .ok tables, .ok menu, .ok orders =>
    let views : LoadEffects :=
      { cache := some (tables, menu, orders)
        tablesShown := true
        menuShown := inp.menuActive
        kitchenShown := if inp.kitchenActive then some (displayKitchenOrders none) else none
        checkoutShown := inp.checkoutActive
        mirrorCalls := 0
        notification := none }
    if inp.webhook = "" then views
    else
      match syncToGoogleSheets inp.webhook inp.mirror with
      | (.ok _, calls) => { views with mirrorCalls := calls }
      | (.error _, calls) =>
        { views with
          mirrorCalls := calls
          notification := some { message := "Error loading data", type := "error" } }
  | _, _, _ =>
    { cache := none
      tablesShown := false
      menuShown := false
      kitchenShown := none
      checkoutShown := false
      mirrorCalls := 0
      notification := some { message := "Error loading data", type := "error" } }

/-- The function `loadKitchenOrders` (main.js 421-430) once `getOrders` returned
`orders`: the orders the kitchen view renders. -/
def loadKitchenOrders (orders : List Order) : List Order :=
  displayKitchenOrders (some orders)

/-! ## Relative times and displayed order numbers (main.js) -/

/-- The function `getTimeAgo` (main.js 857-873).  `timestamp` is `none` when the
argument is falsy, otherwise the instant it denotes, and `now` is the reading
of `new Date()`, both in milliseconds.  `Math.floor` of a quotient by a
positive constant is `Int.fdiv`. -/
def getTimeAgo (timestamp : Option ℤ) (now : ℤ) : String :=
  match timestamp with
  | none => "just now"
  | some date =>
    let diffMs := now - date
    let diffMins := Int.fdiv diffMs 60000
    if diffMins < 1 then "just now"
    else if diffMins < 60 then toString diffMins ++ " min ago"
    else
      let diffHours := Int.fdiv diffMins 60
      if diffHours < 24 then
        toString diffHours ++ " hour" ++ (if diffHours > 1 then "s" else "") ++ " ago"
      else
        let diffDays := Int.fdiv diffHours 24
        toString diffDays ++ " day" ++ (if diffDays > 1 then "s" else "") ++ " ago"

/-- The method `s.substring(0, n)` on a string of one-unit characters. -/
def substring0 (s : String) (n : Nat) : String := ⟨s.data.take n⟩

/-- The order number shown in the table, kitchen, payment and receipt views:
`order_id.substring(0, 8)` (main.js 145, 453, 590, 609; script.js 448, 759). -/
def displayedOrderNumber (orderId : String) : String := substring0 orderId 8

namespace Script

/-- The parameter object of the `transferTable` action (script.js 811-815). -/
structure TransferParams where
  orderId : String
  fromTable : String
  toTable : String
  deriving DecidableEq, Repr

/-- How `transferTable` (script.js 801-823) ends before any reply: it returns
silently, it notifies and returns, or it hands an action to `callAPI`. -/
inductive TransferOutcome where
  | silent
  | rejected (notification : Notification)
  | command (action : String) (params : TransferParams)
  deriving DecidableEq, Repr

/-- Lines 802-815 of `transferTable` (script.js).  `newTable` is what `prompt`
returned, `none` for a cancelled dialog; `!newTable` and
`!table.current_order_id` are true for `null` and for the empty string. -/
def transferTable (tables : List Table) (tableNo : String) (newTable : Option String) :
    TransferOutcome :=
  match newTable with
  | none => .silent
  | some target =>
    if target = "" then .silent
    else
      match tables.find? (fun t => t.table_no = tableNo) with
      | none => .rejected { message := "No active order on this table", type := "error" }
      | some table =>
        match table.current_order_id with
        | none => .rejected { message := "No active order on this table", type := "error" }
        | some orderId =>
          if orderId = "" then
            .rejected { message := "No active order on this table", type := "error" }
          else
            .command "transferTable"
              { orderId := orderId, fromTable := tableNo, toTable := target }

end Script

/-! ## The spreadsheet mirror (GoogleAppsScript.js)

A sheet is the list of its rows of cell contents, row 1 first; formatting is
not modelled.  The spreadsheet service is used as documented: `getLastRow`
is the position of the last row that has content, `getRange(row, column,
numRows, numColumns)` throws when `numRows` is less than 1, `clearContent`
empties the cells of a range, `setValues` overwrites them, and writing `''`,
`null` or `undefined` leaves an empty cell. -/

/-- The content of a cell, or a scalar of the posted JSON (`blank` for `null`
or an absent key). -/
inductive Cell where
  | blank
  | text (s : String)
  | number (q : ℚ)
  | flag (b : Bool)
  deriving DecidableEq, Repr

/-- A row of cells, column 1 first; cells past the end are empty. -/
abbrev Row := List Cell

/-- A sheet of the spreadsheet. -/
structure Sheet where
  name : String
  rows : List Row
  deriving DecidableEq, Repr

/-- The active spreadsheet: its sheets. -/
abbrev Spreadsheet := List Sheet

/-- An empty cell: nothing in it, or the empty string. -/
def Cell.isEmpty : Cell → Bool
  | .blank => true
  | .text s => s = ""
  | _ => false

/-- The expression `value || ''` written into a cell: a falsy value (`null`,
`''`, `0`, `false`) leaves the cell empty. -/
def orEmpty : Cell → Cell
  | .blank => .blank
  | .text s => if s = "" then .blank else .text s
  | .number q => if q = 0 then .blank else .number q
  | .flag b => if b then .flag true else .blank

/-- Whether a row has content in some cell. -/
def rowHasContent (row : Row) : Bool := row.any (fun c => !c.isEmpty)

/-- The method `sheet.getLastRow()`: the position of the last row that has
content, 0 when there is none. -/
def getLastRow : List Row → Nat
  | [] => 0
  | row :: rest =>
    if getLastRow rest > 0 then getLastRow rest + 1
    else if rowHasContent row then 1 else 0

/-- The method `ss.getSheetByName(name)`. -/
def getSheetByName (ss : Spreadsheet) (name : String) : Option Sheet :=
  ss.find? (fun sheet => sheet.name = name)

/-- The spreadsheet after the sheet named like `sheet` took the rows of `sheet`. -/
def putSheet (ss : Spreadsheet) (sheet : Sheet) : Spreadsheet :=
  ss.map (fun old => if old.name = sheet.name then sheet else old)

/-- A row with its first `numColumns` cells emptied. -/
def clearCells (numColumns : Nat) (row : Row) : Row :=
  (row.take numColumns).map (fun _ => Cell.blank) ++ row.drop numColumns

/-- The call `getRange(firstRow, 1, numRows, numColumns).clearContent()`. -/
def clearContent (rows : List Row) (firstRow numRows numColumns : Nat) : List Row :=
  rows.enum.map (fun (i, row) =>
    if firstRow ≤ i + 1 ∧ i + 1 < firstRow + numRows then clearCells numColumns row else row)

/-- Rows overwritten from the top by `values`, each over the leading cells of
the old row; the sheet grows when `values` is longer. -/
def overwriteRows : List Row → List Row → List Row
  | olds, [] => olds
  | [], value :: values => value :: overwriteRows [] values
  | old :: olds, value :: values =>
    (value ++ old.drop value.length) :: overwriteRows olds values

/-- The call `getRange(firstRow, 1, values.length, numColumns).setValues(values)`. -/
def setValues (rows : List Row) (firstRow : Nat) (values : List Row) : List Row :=
  rows.take (firstRow - 1) ++ List.replicate (firstRow - 1 - rows.length) [] ++
    overwriteRows (rows.drop (firstRow - 1)) values

/-- The body shared by `syncTables`, `syncMenu`, `syncOrders` and `syncPayments`
(GoogleAppsScript.js 36-59, 61-88, 90-118, 120-144) for the sheet `name`, its
header row and the mapped rows `values`: the spreadsheet it leaves, and `.error`
when it throws.  The number of columns of the ranges is the header's length. -/
def syncSheet (ss : Spreadsheet) (name : String) (header : Row) (values : List Row) :
    Spreadsheet × Except String Unit :=
  let found : Spreadsheet × Sheet :=
    match getSheetByName ss name with
    | some sheet => (ss, sheet)
    | none => (ss ++ [{ name := name, rows := [header] }], { name := name, rows := [header] })
  let lastRow := getLastRow found.2.rows
  if lastRow < 2 then
    (found.1, .error "Exception: The number of rows in the range must be at least 1.")
  else
    let cleared := clearContent found.2.rows 2 (lastRow - 1) header.length
    let written := if values.length > 0 then setValues cleared 2 values else cleared
    (putSheet found.1 { name := name, rows := written }, .ok ())

/-- An element of `data.tables`. -/
structure MirrorTable where
  table_no : Cell
  capacity : Cell
  status : Cell
  current_order_id : Cell
  created_at : Cell
  updated_at : Cell
  deriving DecidableEq, Repr

/-- An element of `data.menu`. -/
structure MirrorMenuItem where
  item_id : Cell
  item_name : Cell
  category : Cell
  price : Cell
  description : Cell
  kitchen_station : Cell
  prep_time : Cell
  available : Cell
  created_at : Cell
  updated_at : Cell
  deriving DecidableEq, Repr

/-- An element of `data.orders`; `items` is the cell `JSON.stringify(order.items)`
yields. -/
structure MirrorOrder where
  order_id : Cell
  table_no : Cell
  customer_name : Cell
  items : Cell
  total_amount : Cell
  status : Cell
  payment_status : Cell
  timestamp : Cell
  completed_at : Cell
  created_at : Cell
  updated_at : Cell
  deriving DecidableEq, Repr

/-- An element of `data.payments`. -/
structure MirrorPayment where
  payment_id : Cell
  order_id : Cell
  amount : Cell
  method : Cell
  cashier : Cell
  payment_time : Cell
  created_at : Cell
  deriving DecidableEq, Repr

/-- The header row of the sheet 'Tables' (GoogleAppsScript.js 41). -/
def tablesHeader : Row :=
  [.text "Table No", .text "Capacity", .text "Status", .text "Current Order ID",
   .text "Created At", .text "Updated At"]

/-- The header row of the sheet 'Menu' (GoogleAppsScript.js 66). -/
def menuHeader : Row :=
  [.text "Item ID", .text "Item Name", .text "Category", .text "Price", .text "Description",
   .text "Kitchen Station", .text "Prep Time", .text "Available", .text "Created At",
   .text "Updated At"]

/-- The header row of the sheet 'Orders' (GoogleAppsScript.js 95). -/
def ordersHeader : Row :=
  [.text "Order ID", .text "Table No", .text "Customer Name", .text "Items",
   .text "Total Amount", .text "Status", .text "Payment Status", .text "Timestamp",
   .text "Completed At", .text "Created At", .text "Updated At"]

/-- The header row of the sheet 'Payments' (GoogleAppsScript.js 125). -/
def paymentsHeader : Row :=
  [.text "Payment ID", .text "Order ID", .text "Amount", .text "Method", .text "Cashier",
   .text "Payment Time", .text "Created At"]

/-- The row built for a table (GoogleAppsScript.js 48-55). -/
def tableRow (table : MirrorTable) : Row :=
  [table.table_no, table.capacity, table.status, orEmpty table.current_order_id,
   table.created_at, table.updated_at]

/-- The row built for a menu item (GoogleAppsScript.js 73-84). -/
def menuRow (item : MirrorMenuItem) : Row :=
  [item.item_id, item.item_name, item.category, item.price, orEmpty item.description,
   item.kitchen_station, item.prep_time, item.available, item.created_at, item.updated_at]

/-- The row built for an order (GoogleAppsScript.js 102-114). -/
def orderSheetRow (order : MirrorOrder) : Row :=
  [order.order_id, order.table_no, order.customer_name, order.items, order.total_amount,
   order.status, order.payment_status, order.timestamp, orEmpty order.completed_at,
   order.created_at, order.updated_at]

/-- The row built for a payment (GoogleAppsScript.js 132-140). -/
def paymentRow (payment : MirrorPayment) : Row :=
  [payment.payment_id, payment.order_id, payment.amount, payment.method, payment.cashier,
   payment.payment_time, payment.created_at]

/-- The function `syncTables` (GoogleAppsScript.js 36-59). -/
def syncTables (ss : Spreadsheet) (tables : List MirrorTable) :
    Spreadsheet × Except String Unit :=
  syncSheet ss "Tables" tablesHeader (tables.map tableRow)

/-- The function `syncMenu` (GoogleAppsScript.js 61-88). -/
def syncMenu (ss : Spreadsheet) (menu : List MirrorMenuItem) :
    Spreadsheet × Except String Unit :=
  syncSheet ss "Menu" menuHeader (menu.map menuRow)

/-- The function `syncOrders` (GoogleAppsScript.js 90-118). -/
def syncOrders (ss : Spreadsheet) (orders : List MirrorOrder) :
    Spreadsheet × Except String Unit :=
  syncSheet ss "Orders" ordersHeader (orders.map orderSheetRow)

/-- The function `syncPayments` (GoogleAppsScript.js 120-144). -/
def syncPayments (ss : Spreadsheet) (payments : List MirrorPayment) :
    Spreadsheet × Except String Unit :=
  syncSheet ss "Payments" paymentsHeader (payments.map paymentRow)

/-- The posted snapshot, each list defaulting to `[]` (`data.tables || []`). -/
structure SyncData where
  tables : List MirrorTable
  menu : List MirrorMenuItem
  orders : List MirrorOrder
  payments : List MirrorPayment
  deriving DecidableEq, Repr

/-- The function `syncAllData` (GoogleAppsScript.js 27-34): the four sheets in
turn; a throw ends it. -/
def syncAllData (ss : Spreadsheet) (data : SyncData) : Spreadsheet × Except String Unit :=
  match syncTables ss data.tables with
  | (ss1, .error e) => (ss1, .error e)
  | (ss1, .ok _) =>
    match syncMenu ss1 data.menu with
    | (ss2, .error e) => (ss2, .error e)
    | (ss2, .ok _) =>
      match syncOrders ss2 data.orders with
      | (ss3, .error e) => (ss3, .error e)
      | (ss3, .ok _) => syncPayments ss3 data.payments

/-- The reply of `doPost`: the `success` flag and the message. -/
structure PostReply where
  success : Bool
  message : String
  deriving DecidableEq, Repr

/-- The function `doPost` (GoogleAppsScript.js 1-25) for a parsed body with the
given `action`. -/
def doPost (ss : Spreadsheet) (action : String) (data : SyncData) : Spreadsheet × PostReply :=
  if action = "sync" then
    match syncAllData ss data with
    | (ss1, .ok _) => (ss1, { success := true, message := "Data synced successfully" })
    | (ss1, .error e) => (ss1, { success := false, message := e })
  else (ss, { success := false, message := "Unknown action" })

/-- The data rows of a sheet: rows 2 up to the last row with content. -/
def dataRows (rows : List Row) : List Row := (rows.take (getLastRow rows)).drop 1

/-! ## Comparison and decoding helpers -/

/-- The elapsed whole minutes floor(d / 60000) for d = now − timestamp. -/
def elapsedMinutes (date now : ℤ) : ℤ := ⌊((now - date : ℤ) : ℚ) / 60000⌋

/-- The elapsed whole hours floor(m / 60). -/
def elapsedHours (date now : ℤ) : ℤ := ⌊(elapsedMinutes date now : ℚ) / 60⌋

/-- The elapsed whole days floor(h / 24). -/
def elapsedDays (date now : ℤ) : ℤ := ⌊(elapsedHours date now : ℚ) / 24⌋

/-- The plural ending: "s" exactly when the number is greater than 1. -/
def pluralS (n : ℤ) : String := if n > 1 then "s" else ""

/-- Every entry of a selection has an integer quantity of at least 1. -/
def QuantitiesOk (selectedItems : List (String × LineItem)) : Prop :=
  ∀ e ∈ selectedItems, ∃ n : ℤ, 1 ≤ n ∧ e.2.quantity = (n : ℚ)


/-- The store with every order's `updated_at` blanked: two stores are equal
"modulo updated_at" when their images under this map are equal. -/
def forgetUpdatedAt (s : Store) : Store :=
  { s with orders := s.orders.map (fun o => { o with updated_at := none }) }

/-- The generated order ids of a store. -/
def orderIds (s : Store) : List String := s.orders.map (fun o => o.order_id)

/-! ## Scenario data -/

/-- A store with the single vacant table "5". -/
def storeVacant5 : Store :=
  { tables := [{ table_no := "5", capacity := 4, status := "vacant", current_order_id := none,
                 updated_at := none }]
    orders := []
    payments := [] }

/-- A selection of two lines, 2 × 100 and 1 × 50, for table "5". -/
def configTable5 : Config :=
  { selectedTable := "5"
    selectedItems :=
      [("ITEM-1", { id := "ITEM-1", name := "Dal", price := 100, quantity := 2 }),
       ("ITEM-2", { id := "ITEM-2", name := "Roti", price := 50, quantity := 1 })] }

/-- A selection of two lines of quantity 1 priced 0.1 and 0.2: the prices are
the binary64 values nearest to 1/10 and 2/10. -/
def configTenths : Config :=
  { selectedTable := "5"
    selectedItems :=
      [("ITEM-1", { id := "ITEM-1", name := "Dal",
                    price := 3602879701896397 / 36028797018963968, quantity := 1 }),
       ("ITEM-2", { id := "ITEM-2", name := "Roti",
                    price := 3602879701896397 / 18014398509481984, quantity := 1 })] }

/-- The order data `sendOrderToKitchen` builds from `configTable5`. -/
def orderDataTable5 : OrderData :=
  { table_no := "5"
    customer_name := "Customer"
    items := [{ id := "ITEM-1", name := "Dal", price := 100, quantity := 2 },
              { id := "ITEM-2", name := "Roti", price := 50, quantity := 1 }]
    total_amount := 250
    status := "pending"
    payment_status := "pending" }

/-- A `createOrder` run in which both requests succeed. -/
def envCreateOk : CreateOrderEnv :=
  { idNow := 1700000000000, timestampNow := 1700000000000, insertOutcome := none,
    tableNow := 1700000000001, tableOutcome := none }

/-- A `createOrder` run in which the insert succeeds and the table update fails. -/
def envCreateTableFails : CreateOrderEnv :=
  { idNow := 1700000000000, timestampNow := 1700000000000, insertOutcome := none,
    tableNow := 1700000000001, tableOutcome := some "network error" }

/-- An order row with the given id, table, total and status. -/
def orderRow (orderId tableNo : String) (total : ℚ) (status paymentStatus : String) : Order :=
  { table_no := tableNo
    customer_name := "Customer"
    items := []
    total_amount := total
    status := status
    payment_status := paymentStatus
    order_id := orderId
    timestamp := 1700000000000
    updated_at := none
    completed_at := none }

/-- Table "5" occupied by the pending order "ORD-1" whose total is `total`. -/
def storeOccupied5 (total : ℚ) : Store :=
  { tables := [{ table_no := "5", capacity := 4, status := "occupied",
                 current_order_id := some "ORD-1", updated_at := none }]
    orders := [orderRow "ORD-1" "5" total "pending" "pending"]
    payments := [] }

/-- A settlement request for order "ORD-1". -/
def paymentDataOrd1 (amount : ℚ) : PaymentData :=
  { order_id := "ORD-1", amount := amount, method := "cash", cashier := "System" }

/-- A `processPayment` run in which all three requests succeed. -/
def envPayOk : ProcessPaymentEnv :=
  { idNow := 1700000100000, paymentTime := 1700000100000, paymentOutcome := none,
    completedNow := 1700000100001, updatedNow := 1700000100001, orderOutcome := none,
    tableNow := 1700000100002, tableOutcome := none }

/-- A later `processPayment` run in which all three requests succeed. -/
def envPayOkLater : ProcessPaymentEnv :=
  { idNow := 1700000200000, paymentTime := 1700000200000, paymentOutcome := none,
    completedNow := 1700000200001, updatedNow := 1700000200001, orderOutcome := none,
    tableNow := 1700000200002, tableOutcome := none }

/-- A `processPayment` run in which the payment insert and the order update
succeed and the table update fails. -/
def envPayTableFails : ProcessPaymentEnv :=
  { idNow := 1700000100000, paymentTime := 1700000100000, paymentOutcome := none,
    completedNow := 1700000100001, updatedNow := 1700000100001, orderOutcome := none,
    tableNow := 1700000100002, tableOutcome := some "network error" }

/-- A store whose only order, "ORD-1" on table "5", is completed and paid. -/
def storeCompleted : Store :=
  { tables := [{ table_no := "5", capacity := 4, status := "vacant", current_order_id := none,
                 updated_at := none }]
    orders := [orderRow "ORD-1" "5" 250 "completed" "paid"]
    payments := [] }

/-- An `updateOrderStatus` run whose request succeeds. -/
def envUpdateOk : UpdateOrderEnv :=
  { updatedNow := 1700000300000, completedNow := 1700000300001, outcome := none }

/-- A store with the two vacant tables "5" and "7". -/
def storeTwoTables : Store :=
  { tables := [{ table_no := "5", capacity := 4, status := "vacant", current_order_id := none,
                 updated_at := none },
               { table_no := "7", capacity := 2, status := "vacant", current_order_id := none,
                 updated_at := none }]
    orders := []
    payments := [] }

/-- The order data of `orderDataTable5`, placed on table "7". -/
def orderDataTable7 : OrderData := { orderDataTable5 with table_no := "7" }

/-- A table row that is 'occupied' and references no order. -/
def tableOccupiedNoOrder : Table :=
  { table_no := "9", capacity := 4, status := "occupied", current_order_id := none,
    updated_at := none }

/-- A second row for table number "5". -/
def tableVacant5Again : Table :=
  { table_no := "5", capacity := 6, status := "vacant", current_order_id := none,
    updated_at := none }

/-- The order data of `orderDataTable5`, submitted as already 'completed'. -/
def orderDataCompleted : OrderData := { orderDataTable5 with status := "completed" }

/-- A new vacant table "9". -/
def tableVacant9 : Table :=
  { table_no := "9", capacity := 4, status := "vacant", current_order_id := none,
    updated_at := none }

/-- A later `updateOrderStatus` run whose request succeeds. -/
def envUpdateLater : UpdateOrderEnv :=
  { updatedNow := 1700000400000, completedNow := 1700000400001, outcome := none }

/-- The configuration right after `openCreateOrderModal("5")`: nothing selected. -/
def configEmpty : Config := { selectedTable := "5", selectedItems := [] }

/-- A cached menu of three items, one of them unavailable. -/
def menuThree : List MenuItem :=
  [{ item_id := "ITEM-1", item_name := "Dal", category := "Main", price := 100,
     description := "", available := true },
   { item_id := "ITEM-2", item_name := "Roti", category := "Bread", price := 50,
     description := "", available := true },
   { item_id := "ITEM-3", item_name := "Lassi", category := "Drinks", price := 40,
     description := "", available := false }]

/-- Clicks on the modal: "+" twice on ITEM-1, "+" then "-" on ITEM-2, "-" on
ITEM-2 again, and a menu refresh in between. -/
def clicksTable5 : List FormAction :=
  [.click "ITEM-1" 1, .click "ITEM-2" 1, .refresh menuThree, .click "ITEM-1" 1,
   .click "ITEM-2" (-1), .click "ITEM-2" (-1)]

/-- A cached order list holding the pending order "ORD-1" with total 250. -/
def cachedOrders : List Order := [orderRow "ORD-1" "5" 250 "pending" "pending"]

/-- A second order for table "5", placed while "ORD-1" occupies it. -/
def envCreateSecond : CreateOrderEnv :=
  { idNow := 1700000050000, timestampNow := 1700000050000, insertOutcome := none,
    tableNow := 1700000050001, tableOutcome := none }

/-- A refresh in which the three reads succeed, the kitchen tab is active, a
webhook is configured and the mirror call fails. -/
def loadInputsMirrorFails : LoadInputs :=
  { tables := .ok (storeOccupied5 250).tables
    menu := .ok menuThree
    orders := .ok cachedOrders
    menuActive := false
    kitchenActive := true
    checkoutActive := false
    webhook := "https://script.google.com/macros/s/mirror/exec"
    mirror := .error "Failed to fetch" }

/-- A form on which ITEM-1 was clicked twice: its input shows 2 and it is
selected with quantity 2. -/
def formItem1Twice : OrderForm :=
  runActions (openCreateOrderModal menuThree "5") [.click "ITEM-1" 1, .click "ITEM-1" 1]

/-- A settlement request for an order id that is not in the store. -/
def paymentDataUnknown : PaymentData :=
  { order_id := "ORD-404", amount := 250, method := "cash", cashier := "System" }

/-- A refresh in which the three reads succeed, the kitchen tab is active and
the loaded order list holds the pending order "ORD-1"; no webhook. -/
def loadInputsKitchen : LoadInputs :=
  { tables := .ok (storeOccupied5 250).tables
    menu := .ok menuThree
    orders := .ok cachedOrders
    menuActive := false
    kitchenActive := true
    checkoutActive := false
    webhook := ""
    mirror := .ok () }

/-- A snapshot holding the vacant table "5" and nothing else. -/
def snapshotOneTable : SyncData :=
  { tables := [{ table_no := .text "5", capacity := .number 4, status := .text "vacant",
                 current_order_id := .blank, created_at := .text "2023-11-14T22:13:20.000Z",
                 updated_at := .blank }]
    menu := []
    orders := []
    payments := [] }

/-- A spreadsheet whose sheet 'Tables' holds the header and nothing else. -/
def spreadsheetHeaderOnly : Spreadsheet := [{ name := "Tables", rows := [tablesHeader] }]

/-- A spreadsheet whose sheet 'Tables' holds the header and three table rows. -/
def spreadsheetThreeTables : Spreadsheet :=
  [{ name := "Tables"
     rows := [tablesHeader,
       [.text "1", .number 2, .text "occupied", .text "ORD-9", .blank, .blank],
       [.text "2", .number 4, .text "vacant", .blank, .blank, .blank],
       [.text "3", .number 6, .text "vacant", .blank, .blank, .blank]] }]

/-- Tables "5" and "7"; the pending order "ORD-1" was placed on table "5" and
occupies it. -/
def storeTwoTablesOccupied : Store :=
  { tables := [{ table_no := "5", capacity := 4, status := "occupied",
                 current_order_id := some "ORD-1", updated_at := none },
               { table_no := "7", capacity := 2, status := "vacant", current_order_id := none,
                 updated_at := none }]
    orders := [orderRow "ORD-1" "5" 250 "pending" "pending"]
    payments := [] }

/-- The same tables after the party moved: table "5" vacated and table "7"
occupied by "ORD-1", whose row still names table "5". -/
def storeMisplaced : Store :=
  { tables := [{ table_no := "5", capacity := 4, status := "vacant", current_order_id := none,
                 updated_at := some 1700000060000 },
               { table_no := "7", capacity := 2, status := "occupied",
                 current_order_id := some "ORD-1", updated_at := some 1700000070000 }]
    orders := [orderRow "ORD-1" "5" 250 "pending" "pending"]
    payments := [] }

/-! # Theorems -/

/-! ## Helper lemmas: what each method does for given store answers -/

theorem log2_eq {x : ℚ} (k : ℤ) (h1 : (2 : ℚ) ^ k ≤ x) (h2 : x < (2 : ℚ) ^ (k + 1)) :
    Int.log 2 x = k := by
  have hx : 0 < x := lt_of_lt_of_le (by positivity) h1
  have a : k ≤ Int.log 2 x := by
    rw [← Int.zpow_le_iff_le_log (by norm_num) hx]
    simpa using h1
  have b : Int.log 2 x < k + 1 := by
    rw [← Int.lt_zpow_iff_log_lt (by norm_num) hx]
    simpa using h2
  omega

theorem roundHalfEven_intCast (z : ℤ) : roundHalfEven (z : ℚ) = z := by
  simp [roundHalfEven]

/-- A number `m * 2 ^ e` with `|m| < 2 ^ 53` and `e ≥ -1074` is a binary64 value:
rounding leaves it unchanged. -/
theorem roundDouble_dyadic (m e : ℤ) (hm : |m| < 2 ^ 53) (he : -1074 ≤ e) :
    roundDouble ((m : ℚ) * 2 ^ e) = (m : ℚ) * 2 ^ e := by
  by_cases h0 : m = 0
  · subst h0
    simp [roundDouble]
  have h2e : (2 : ℚ) ^ e ≠ 0 := by positivity
  have hx : (m : ℚ) * 2 ^ e ≠ 0 := mul_ne_zero (by exact_mod_cast h0) h2e
  have hpos : 0 < |(m : ℚ) * 2 ^ e| := abs_pos.2 hx
  have hlt : |(m : ℚ) * 2 ^ e| < (2 : ℚ) ^ (53 + e) := by
    rw [abs_mul, abs_of_pos (show (0 : ℚ) < 2 ^ e by positivity), zpow_add₀ (by norm_num)]
    apply mul_lt_mul_of_pos_right _ (by positivity)
    have : ((|m| : ℤ) : ℚ) < ((2 ^ 53 : ℤ) : ℚ) := by exact_mod_cast hm
    rw [Int.cast_abs] at this
    exact_mod_cast this
  have hlog : Int.log 2 |(m : ℚ) * 2 ^ e| < 53 + e := by
    rw [← Int.lt_zpow_iff_log_lt (by norm_num) hpos]
    simpa using hlt
  have hle : max (Int.log 2 |(m : ℚ) * 2 ^ e| - 52) (-1074) ≤ e := by
    apply max_le <;> omega
  unfold roundDouble
  rw [if_neg hx]
  generalize max (Int.log 2 |(m : ℚ) * 2 ^ e| - 52) (-1074) = q at hle
  obtain ⟨d, hd⟩ := Int.le.dest hle
  have hpow : (2 : ℚ) ^ e = 2 ^ q * 2 ^ d := by
    rw [← zpow_natCast, ← zpow_add₀ (by norm_num), hd]
  have h2q : (2 : ℚ) ^ q ≠ 0 := by positivity
  have hdiv : (m : ℚ) * 2 ^ e / 2 ^ q = ((m * 2 ^ d : ℤ) : ℚ) := by
    rw [hpow]
    push_cast
    field_simp
    ring
  rw [hdiv, roundHalfEven_intCast, hpow]
  push_cast
  ring

theorem roundDouble_intCast (n : ℤ) (h : |n| < 2 ^ 53) : roundDouble (n : ℚ) = n := by
  simpa using roundDouble_dyadic n 0 h (by norm_num)

theorem roundDouble_eq (x : ℚ) (k z : ℤ) (hk : -1022 ≤ k) (h1 : (2 : ℚ) ^ k ≤ |x|)
    (h2 : |x| < (2 : ℚ) ^ (k + 1)) (hz : roundHalfEven (x / 2 ^ (k - 52)) = z) :
    roundDouble x = (z : ℚ) * 2 ^ (k - 52) := by
  have hx : x ≠ 0 := by
    intro h
    rw [h, abs_zero] at h1
    exact absurd h1 (not_le.2 (by positivity))
  have hmax : max (k - 52) (-1074) = k - 52 := max_eq_left (by omega)
  unfold roundDouble
  rw [if_neg hx, log2_eq k h1 h2, hmax, hz]

theorem abs_sum_nonneg (items : List LineItem) :
    0 ≤ (items.map (fun l => |l.price * l.quantity|)).sum :=
  List.sum_nonneg (by
    intro x hx
    rw [List.mem_map] at hx
    obtain ⟨l, _, rfl⟩ := hx
    exact abs_nonneg _)

theorem foldl_total_of_int (items : List LineItem) (a : ℤ)
    (hint : ∀ l ∈ items, ∃ p q : ℤ, l.price = p ∧ l.quantity = q)
    (hb : |(a : ℚ)| + (items.map (fun l => |l.price * l.quantity|)).sum < 2 ^ 53) :
    items.foldl (fun sum item => jsAdd sum (jsMul item.price item.quantity)) (a : ℚ) =
      a + (items.map (fun l => l.price * l.quantity)).sum := by
  induction items generalizing a with
  | nil => simp
  | cons l ls ih =>
    obtain ⟨p, q, hp, hq⟩ := hint l (List.mem_cons_self _ _)
    simp only [List.map_cons, List.sum_cons, List.foldl_cons] at hb ⊢
    have hrest := abs_sum_nonneg ls
    have ha := abs_nonneg (a : ℚ)
    have hpq0 := abs_nonneg (l.price * l.quantity)
    have hmul : jsMul l.price l.quantity = ((p * q : ℤ) : ℚ) := by
      rw [jsMul, hp, hq, ← Int.cast_mul]
      apply roundDouble_intCast
      have : |((p * q : ℤ) : ℚ)| < ((2 ^ 53 : ℤ) : ℚ) := by
        rw [hp, hq, ← Int.cast_mul] at hb hpq0
        push_cast at hb hpq0 ⊢
        linarith
      rw [← Int.cast_abs] at this
      exact_mod_cast this
    have hadd : jsAdd (a : ℚ) ((p * q : ℤ) : ℚ) = ((a + p * q : ℤ) : ℚ) := by
      rw [jsAdd, ← Int.cast_add]
      apply roundDouble_intCast
      have : |((a + p * q : ℤ) : ℚ)| < ((2 ^ 53 : ℤ) : ℚ) := by
        rw [hp, hq, ← Int.cast_mul] at hb
        have htri := abs_add (a : ℚ) ((p * q : ℤ) : ℚ)
        push_cast at hb htri ⊢
        linarith
      rw [← Int.cast_abs] at this
      exact_mod_cast this
    rw [hmul, hadd, ih (a + p * q) (fun l1 h1 => hint l1 (List.mem_cons_of_mem _ h1))]
    · rw [hp, hq]
      push_cast
      ring
    · rw [hp, hq, ← Int.cast_mul] at hb
      have htri := abs_add (a : ℚ) ((p * q : ℤ) : ℚ)
      push_cast at hb htri ⊢
      linarith

theorem orderTotal_of_int (items : List LineItem)
    (hint : ∀ l ∈ items, ∃ p q : ℤ, l.price = p ∧ l.quantity = q)
    (hb : (items.map (fun l => |l.price * l.quantity|)).sum < 2 ^ 53) :
    orderTotal items = (items.map (fun l => l.price * l.quantity)).sum := by
  have h := foldl_total_of_int items 0 hint (by simpa using hb)
  simpa [orderTotal] using h

theorem ownEntries_perm {α : Type} (obj : List (String × α)) :
    (ownEntries obj).Perm obj := by
  unfold ownEntries
  have h1 := List.perm_insertionSort
    (fun a b : String × α => (arrayIndex a.1).getD 0 ≤ (arrayIndex b.1).getD 0)
    (obj.filter (fun e => (arrayIndex e.1).isSome))
  have h2 : (obj.filter (fun e => (arrayIndex e.1).isNone)) =
      obj.filter (fun e => !(arrayIndex e.1).isSome) := by
    congr 1
    funext e
    cases arrayIndex e.1 <;> rfl
  rw [h2]
  exact (h1.append_right _).trans (List.filter_append_perm _ obj)

theorem mem_ownEntries {α : Type} {obj : List (String × α)} {e : String × α} :
    e ∈ ownEntries obj ↔ e ∈ obj :=
  (ownEntries_perm obj).mem_iff

theorem ownEntries_eq_nil {α : Type} {obj : List (String × α)} :
    ownEntries obj = [] ↔ obj = [] := by
  constructor
  · intro h
    have := ownEntries_perm obj
    rw [h] at this
    exact List.Perm.nil_eq this |>.symm
  · intro h
    subst h
    rfl

theorem objectValues_length (obj : List (String × LineItem)) :
    (objectValues obj).length = obj.length := by
  rw [objectValues, List.length_map, (ownEntries_perm obj).length_eq]

theorem mem_objectValues {obj : List (String × LineItem)} {l : LineItem} :
    l ∈ objectValues obj ↔ ∃ e ∈ obj, e.2 = l := by
  rw [objectValues, List.mem_map]
  constructor
  · rintro ⟨e, he, rfl⟩
    exact ⟨e, mem_ownEntries.1 he, rfl⟩
  · rintro ⟨e, he, rfl⟩
    exact ⟨e, mem_ownEntries.2 he, rfl⟩

theorem ownEntries_of_no_index {α : Type} (obj : List (String × α))
    (h : ∀ e ∈ obj, arrayIndex e.1 = none) : ownEntries obj = obj := by
  unfold ownEntries
  have h1 : obj.filter (fun e => (arrayIndex e.1).isSome) = [] := by
    rw [List.filter_eq_nil_iff]
    intro e he
    simp [h e he]
  have h2 : obj.filter (fun e => (arrayIndex e.1).isNone) = obj := by
    rw [List.filter_eq_self]
    intro e he
    simp [h e he]
  rw [h1, h2]
  rfl

theorem roundHalfEven_eq_of_tie (x : ℚ) (f : ℤ) (hx : x = f + 1 / 2) :
    roundHalfEven x = if f % 2 = 0 then f else f + 1 := by
  have hfl : ⌊x⌋ = f := by
    rw [Int.floor_eq_iff, hx]
    constructor <;> linarith
  unfold roundHalfEven
  rw [hfl, hx]
  norm_num

theorem roundHalfEven_eq_of_lt (x : ℚ) (f : ℤ) (h1 : (f : ℚ) ≤ x) (h2 : x < f + 1 / 2) :
    roundHalfEven x = f := by
  have hfl : ⌊x⌋ = f := by
    rw [Int.floor_eq_iff]
    constructor <;> linarith
  unfold roundHalfEven
  rw [hfl, if_pos (by linarith)]

theorem roundHalfEven_eq_of_gt (x : ℚ) (f : ℤ) (h1 : (f : ℚ) + 1 / 2 < x) (h2 : x < f + 1) :
    roundHalfEven x = f + 1 := by
  have hfl : ⌊x⌋ = f := by
    rw [Int.floor_eq_iff]
    constructor <;> linarith
  unfold roundHalfEven
  rw [hfl, if_neg (by linarith), if_pos (by linarith)]

theorem roundDouble_tenth :
    roundDouble (1 / 10) = 3602879701896397 / 36028797018963968 := by
  rw [roundDouble_eq _ (-4) 7205759403792794 (by norm_num) (by norm_num [abs_of_pos])
    (by norm_num [abs_of_pos])
    (roundHalfEven_eq_of_gt _ 7205759403792793 (by norm_num) (by norm_num))]
  norm_num

theorem roundDouble_fifth :
    roundDouble (2 / 10) = 3602879701896397 / 18014398509481984 := by
  rw [roundDouble_eq _ (-3) 7205759403792794 (by norm_num) (by norm_num [abs_of_pos])
    (by norm_num [abs_of_pos])
    (roundHalfEven_eq_of_gt _ 7205759403792793 (by norm_num) (by norm_num))]
  norm_num

theorem roundDouble_tenth_fixed :
    roundDouble (3602879701896397 / 36028797018963968) =
      3602879701896397 / 36028797018963968 := by
  have h := roundDouble_dyadic 3602879701896397 (-55) (by norm_num) (by norm_num)
  norm_num at h ⊢
  exact h

theorem roundDouble_fifth_fixed :
    roundDouble (3602879701896397 / 18014398509481984) =
      3602879701896397 / 18014398509481984 := by
  have h := roundDouble_dyadic 3602879701896397 (-54) (by norm_num) (by norm_num)
  norm_num at h ⊢
  exact h

theorem roundDouble_tenth_add_fifth :
    roundDouble (3602879701896397 / 36028797018963968 + 3602879701896397 / 18014398509481984) =
      1351079888211149 / 4503599627370496 := by
  rw [roundDouble_eq _ (-2) 5404319552844596 (by norm_num) (by norm_num [abs_of_pos])
    (by norm_num [abs_of_pos])
    ((roundHalfEven_eq_of_tie _ 5404319552844595 (by norm_num)).trans (by norm_num))]
  norm_num

theorem objectValues_tenths :
    objectValues configTenths.selectedItems =
      [{ id := "ITEM-1", name := "Dal", price := 3602879701896397 / 36028797018963968,
         quantity := 1 },
       { id := "ITEM-2", name := "Roti", price := 3602879701896397 / 18014398509481984,
         quantity := 1 }] := by
  rw [objectValues, ownEntries_of_no_index _ (by
    intro e he
    simp only [configTenths, List.mem_cons, List.mem_singleton, List.not_mem_nil,
      or_false] at he
    rcases he with rfl | rfl <;> decide)]
  rfl

theorem orderTotal_tenths :
    orderTotal (objectValues configTenths.selectedItems) =
      1351079888211149 / 4503599627370496 := by
  rw [objectValues_tenths]
  simp only [orderTotal, List.foldl_cons, List.foldl_nil, jsAdd, jsMul, mul_one, zero_add,
    roundDouble_tenth_fixed, roundDouble_fifth_fixed, roundDouble_tenth_add_fifth]

theorem objectValues_table5 :
    objectValues configTable5.selectedItems =
      [{ id := "ITEM-1", name := "Dal", price := 100, quantity := 2 },
       { id := "ITEM-2", name := "Roti", price := 50, quantity := 1 }] := by
  decide

theorem orderTotal_table5 : orderTotal (objectValues configTable5.selectedItems) = 250 := by
  rw [objectValues_table5, orderTotal_of_int]
  · norm_num
  · intro l hl
    simp only [List.mem_cons, List.mem_singleton, List.not_mem_nil, or_false] at hl
    rcases hl with rfl | rfl
    · exact ⟨100, 2, by norm_num, by norm_num⟩
    · exact ⟨50, 1, by norm_num, by norm_num⟩
  · norm_num [abs_of_pos]

theorem request_table5 : sendOrderToKitchen_request configTable5 = some orderDataTable5 := by
  have ht := orderTotal_table5
  rw [objectValues_table5] at ht
  simp only [sendOrderToKitchen_request, objectValues_table5, ht]
  rfl

theorem createOrder_of_ok (s : Store) (orderData : OrderData) (env : CreateOrderEnv)
    (hins : env.insertOutcome = none) (htab : env.tableOutcome = none) :
    createOrder s orderData env =
      ({ tables := tablesAfterUpdate s.tables orderData.table_no "occupied"
            (some (orderIdOf env.idNow)) env.tableNow
         orders := s.orders ++ [newOrderRow orderData (orderIdOf env.idNow) env.timestampNow]
         payments := s.payments },
        .ok (some (newOrderRow orderData (orderIdOf env.idNow) env.timestampNow))) := by
  simp [createOrder, insertOrder, updateTableStatus, updateTables, hins, htab,
    tablesAfterUpdate]

theorem createOrder_of_table_error (s : Store) (orderData : OrderData) (env : CreateOrderEnv)
    (msg : String) (hins : env.insertOutcome = none) (htab : env.tableOutcome = some msg) :
    createOrder s orderData env =
      ({ s with
          orders := s.orders ++ [newOrderRow orderData (orderIdOf env.idNow) env.timestampNow] },
        .error (.upstream msg)) := by
  simp [createOrder, insertOrder, updateTableStatus, updateTables, hins, htab]

theorem mem_tablesAfterUpdate {tables : List Table} {tableNo status : String}
    {orderId : Option String} {now : Nat} {t : Table}
    (h : t ∈ tablesAfterUpdate tables tableNo status orderId now) :
    ∃ t0 ∈ tables, t0.table_no = t.table_no ∧
      ((t0.table_no = tableNo ∧ t = setTableFields status orderId now t0) ∨
       (t0.table_no ≠ tableNo ∧ t = t0)) := by
  simp only [tablesAfterUpdate, List.mem_map] at h
  obtain ⟨t0, ht0, rfl⟩ := h
  refine ⟨t0, ht0, ?_, ?_⟩
  · by_cases hc : t0.table_no = tableNo <;> simp [hc, setTableFields]
  · by_cases hc : t0.table_no = tableNo <;> simp [hc]

theorem tablesAfterUpdate_table_no (tables : List Table) (tableNo status : String)
    (orderId : Option String) (now : Nat) :
    (tablesAfterUpdate tables tableNo status orderId now).map (fun t => t.table_no) =
      tables.map (fun t => t.table_no) := by
  simp only [tablesAfterUpdate, List.map_map]
  apply List.map_congr_left
  intro t _
  by_cases hc : t.table_no = tableNo <;> simp [hc, setTableFields]

/-! ## C1 -/

/-- C1 as stated fails: two lines of quantity 1 whose prices are the binary64
values of 0.1 and 0.2.  `sendOrderToKitchen` passes the total
0.3000000000000000444… (the JavaScript number 0.30000000000000004), which is
not the sum 0.3000000000000000166… of price × quantity over the two lines. -/
theorem sendOrderToKitchen_total_rounded :
    roundDouble (1 / 10) = 3602879701896397 / 36028797018963968 ∧
    roundDouble (2 / 10) = 3602879701896397 / 18014398509481984 ∧
    ∃ orderData, sendOrderToKitchen_request configTenths = some orderData ∧
      orderData.items.map (fun l => (l.price, l.quantity)) =
        [(3602879701896397 / 36028797018963968, 1),
         (3602879701896397 / 18014398509481984, 1)] ∧
      orderData.total_amount = 1351079888211149 / 4503599627370496 ∧
      (orderData.items.map (fun l => l.price * l.quantity)).sum =
        10808639105689191 / 36028797018963968 ∧
      orderData.total_amount ≠ (orderData.items.map (fun l => l.price * l.quantity)).sum := by
  have hlen : ¬ (objectValues configTenths.selectedItems).length = 0 := by
    rw [objectValues_length]
    decide
  have hreq : sendOrderToKitchen_request configTenths =
      some { table_no := configTenths.selectedTable, customer_name := "Customer",
             items := objectValues configTenths.selectedItems,
             total_amount := orderTotal (objectValues configTenths.selectedItems),
             status := "pending", payment_status := "pending" } := by
    simp only [sendOrderToKitchen_request, hlen, if_false]
  refine ⟨roundDouble_tenth, roundDouble_fifth, _, hreq, ?_, orderTotal_tenths, ?_, ?_⟩
  · simp only [objectValues_tenths, List.map_cons, List.map_nil]
  · simp only [objectValues_tenths, List.map_cons, List.map_nil, List.sum_cons, List.sum_nil]
    norm_num
  · show orderTotal (objectValues configTenths.selectedItems) ≠ _
    rw [orderTotal_tenths]
    simp only [objectValues_tenths, List.map_cons, List.map_nil, List.sum_cons, List.sum_nil]
    norm_num

/-- C1 amended: whenever at least one line item is selected, `sendOrderToKitchen`
calls `createOrder` (the store it leaves is the one `createOrder` leaves) with
the selected lines, in the order `Object.values` lists them, as `items`, and
with `total_amount` the left-to-right accumulation over those lines in which
every product price × quantity and every partial sum is rounded to the nearest
binary64 value.  That total equals the sum over the lines of price × quantity
whenever all prices and quantities are integers and the absolute values of
price × quantity add up to less than 2^53. -/
theorem sendOrderToKitchen_total_amount (config : Config) (h : config.selectedItems ≠ []) :
    ∃ orderData, sendOrderToKitchen_request config = some orderData ∧
      (∀ s env, (sendOrderToKitchen config s env).1 = (createOrder s orderData env).1) ∧
      orderData.items = objectValues config.selectedItems ∧
      orderData.total_amount =
        orderData.items.foldl (fun sum item => jsAdd sum (jsMul item.price item.quantity)) 0 ∧
      ((∀ l ∈ orderData.items, ∃ p q : ℤ, l.price = p ∧ l.quantity = q) →
        (orderData.items.map (fun l => |l.price * l.quantity|)).sum < 2 ^ 53 →
        orderData.total_amount = (orderData.items.map (fun l => l.price * l.quantity)).sum) := by
  have hlen : ¬ (objectValues config.selectedItems).length = 0 := by
    rw [objectValues_length]
    simpa using h
  have hreq : sendOrderToKitchen_request config =
      some { table_no := config.selectedTable, customer_name := "Customer",
             items := objectValues config.selectedItems,
             total_amount := orderTotal (objectValues config.selectedItems),
             status := "pending", payment_status := "pending" } := by
    simp only [sendOrderToKitchen_request, hlen, if_false]
  refine ⟨_, hreq, ?_, rfl, rfl, fun hint hb => orderTotal_of_int _ hint hb⟩
  intro s env
  simp only [sendOrderToKitchen, hreq]
  split <;> simp_all

/-- Witness for C1 amended: the two-line selection for table "5", 2 × 100 and
1 × 50; prices and quantities are integers and the total is the exact sum 250. -/
theorem sendOrderToKitchen_total_amount_witness :
    configTable5.selectedItems ≠ [] ∧
    ∃ orderData, sendOrderToKitchen_request configTable5 = some orderData ∧
      orderData.items = objectValues configTable5.selectedItems ∧
      orderData.total_amount = (orderData.items.map (fun l => l.price * l.quantity)).sum ∧
      orderData.total_amount = 250 := by
  obtain ⟨orderData, hreq, _, hitems, _, hexact⟩ :=
    sendOrderToKitchen_total_amount configTable5 (by decide)
  have hod : orderData = orderDataTable5 :=
    Option.some.inj (hreq.symm.trans request_table5)
  refine ⟨by decide, orderData, hreq, hitems, hexact ?_ ?_, by rw [hod]; rfl⟩
  · intro l hl
    rw [hitems, objectValues_table5] at hl
    simp only [List.mem_cons, List.mem_singleton, List.not_mem_nil, or_false] at hl
    rcases hl with rfl | rfl
    · exact ⟨100, 2, by norm_num, by norm_num⟩
    · exact ⟨50, 1, by norm_num, by norm_num⟩
  · rw [hitems, objectValues_table5]
    norm_num [abs_of_pos]

/-! ## C2 -/

/-- C2: when both store writes of `createOrder` succeed, the call returns the
inserted order, whose `order_id` is the generated one, that order is in the
store, the set of table numbers is unchanged, and every table whose `table_no`
equals `orderData.table_no` ends 'occupied' with `current_order_id` equal to
the returned order's `order_id`. -/
theorem createOrder_occupies_table (s : Store) (orderData : OrderData) (env : CreateOrderEnv)
    (hins : env.insertOutcome = none) (htab : env.tableOutcome = none) :
    ∃ order, (createOrder s orderData env).2 = .ok (some order) ∧
      order ∈ (createOrder s orderData env).1.orders ∧
      order.order_id = orderIdOf env.idNow ∧
      order.total_amount = orderData.total_amount ∧
      (createOrder s orderData env).1.tables.map (fun t => t.table_no) =
        s.tables.map (fun t => t.table_no) ∧
      ∀ t ∈ (createOrder s orderData env).1.tables, t.table_no = orderData.table_no →
        t.status = "occupied" ∧ t.current_order_id = some order.order_id := by
  rw [createOrder_of_ok s orderData env hins htab]
  refine ⟨_, rfl, by simp, rfl, rfl, tablesAfterUpdate_table_no _ _ _ _ _, ?_⟩
  intro t ht hno
  obtain ⟨t0, _, h0, hcase⟩ := mem_tablesAfterUpdate ht
  rcases hcase with ⟨_, rfl⟩ | ⟨hne, rfl⟩
  · simp [setTableFields, newOrderRow]
  · exact absurd hno hne

/-- Witness for C2, the scenario of the specification: table "5" vacant, lines
2 × 100 and 1 × 50.  The submitted total is 250 and table "5" ends occupied by
the new order. -/
theorem createOrder_occupies_table_witness :
    sendOrderToKitchen_request configTable5 = some orderDataTable5 ∧
    orderDataTable5.total_amount = 250 ∧
    (createOrder storeVacant5 orderDataTable5 envCreateOk).1.tables =
      [{ table_no := "5", capacity := 4, status := "occupied",
         current_order_id := some "ORD-1700000000000", updated_at := some 1700000000001 }] ∧
    ∃ order, (createOrder storeVacant5 orderDataTable5 envCreateOk).2 = .ok (some order) ∧
      order ∈ (createOrder storeVacant5 orderDataTable5 envCreateOk).1.orders ∧
      order.order_id = orderIdOf envCreateOk.idNow ∧
      order.total_amount = orderDataTable5.total_amount ∧
      (createOrder storeVacant5 orderDataTable5 envCreateOk).1.tables.map (fun t => t.table_no) =
        storeVacant5.tables.map (fun t => t.table_no) ∧
      ∀ t ∈ (createOrder storeVacant5 orderDataTable5 envCreateOk).1.tables,
        t.table_no = orderDataTable5.table_no →
        t.status = "occupied" ∧ t.current_order_id = some order.order_id := by
  exact ⟨request_table5, rfl, by decide,
    createOrder_occupies_table storeVacant5 orderDataTable5 envCreateOk rfl rfl⟩

theorem applyOrderUpdates_table_no (u : OrderUpdates) (o : Order) :
    (applyOrderUpdates u o).table_no = o.table_no := rfl

theorem applyOrderUpdates_order_id (u : OrderUpdates) (o : Order) :
    (applyOrderUpdates u o).order_id = o.order_id := rfl

theorem head?_updated (orders : List Order) (orderId : String) (u : OrderUpdates) :
    ((orders.filter (fun o => o.order_id = orderId)).map (applyOrderUpdates u)).head? =
      (orders.find? (fun o => o.order_id = orderId)).map (applyOrderUpdates u) := by
  rw [List.head?_map, List.filter_head?]

theorem processPayment_of_ok (s : Store) (paymentData : PaymentData) (env : ProcessPaymentEnv)
    (o : Order) (hfind : s.orders.find? (fun o => o.order_id = paymentData.order_id) = some o)
    (hpay : env.paymentOutcome = none) (hord : env.orderOutcome = none)
    (htab : env.tableOutcome = none) :
    processPayment s paymentData env =
      ({ tables := tablesAfterUpdate s.tables o.table_no "vacant" none env.tableNow
         orders := ordersAfterUpdate s.orders paymentData.order_id (settleUpdates env)
         payments := s.payments ++
            [newPaymentRow paymentData (paymentIdOf env.idNow) env.paymentTime] },
        .ok (some (newPaymentRow paymentData (paymentIdOf env.idNow) env.paymentTime))) := by
  simp only [processPayment, insertPayment, updateOrders, hpay, hord, head?_updated, hfind,
    Option.map_some', updateTableStatus, updateTables, htab, applyOrderUpdates_table_no,
    tablesAfterUpdate, ordersAfterUpdate, List.head?_cons]

theorem mem_ordersAfterUpdate {orders : List Order} {orderId : String} {u : OrderUpdates}
    {o : Order} (h : o ∈ ordersAfterUpdate orders orderId u) :
    ∃ o0 ∈ orders, o0.order_id = o.order_id ∧ o0.table_no = o.table_no ∧
      ((o0.order_id = orderId ∧ o = applyOrderUpdates u o0) ∨
       (o0.order_id ≠ orderId ∧ o = o0)) := by
  simp only [ordersAfterUpdate, List.mem_map] at h
  obtain ⟨o0, ho0, rfl⟩ := h
  refine ⟨o0, ho0, ?_, ?_, ?_⟩
  · by_cases hc : o0.order_id = orderId <;> simp [hc, applyOrderUpdates]
  · by_cases hc : o0.order_id = orderId <;> simp [hc, applyOrderUpdates]
  · by_cases hc : o0.order_id = orderId <;> simp [hc]

theorem ordersAfterUpdate_order_id (orders : List Order) (orderId : String) (u : OrderUpdates) :
    (ordersAfterUpdate orders orderId u).map (fun o => o.order_id) =
      orders.map (fun o => o.order_id) := by
  simp only [ordersAfterUpdate, List.map_map]
  apply List.map_congr_left
  intro o _
  by_cases hc : o.order_id = orderId <;> simp [hc, applyOrderUpdates]

theorem mem_ordersAfterUpdate_of_mem {orders : List Order} (orderId : String)
    (u : OrderUpdates) {o : Order} (h : o ∈ orders) :
    (if o.order_id = orderId then applyOrderUpdates u o else o) ∈
      ordersAfterUpdate orders orderId u := by
  simp only [ordersAfterUpdate, List.mem_map]
  exact ⟨o, h, rfl⟩

/-! ## C3 -/

/-- C3 as stated fails: order "ORD-1" was placed on table "5" and table "7" is the
one occupied by it (a state two `updateTableStatus` calls reach).  With all
three store writes succeeding `processPayment` vacates table "5", the table the
order row names, and table "7", the table occupied by the order, stays
'occupied' with `current_order_id` "ORD-1" although the order is now completed. -/
theorem processPayment_leaves_referencing_table :
    storeMisplaced =
      (updateTableStatus
        (updateTableStatus storeTwoTablesOccupied "5" "vacant" none 1700000060000 none).1
        "7" "occupied" (some "ORD-1") 1700000070000 none).1 ∧
    storeMisplaced.orders.map (fun o => (o.order_id, o.table_no, o.payment_status)) =
      [("ORD-1", "5", "pending")] ∧
    storeMisplaced.tables.map (fun t => (t.table_no, t.status, t.current_order_id)) =
      [("5", "vacant", none), ("7", "occupied", some "ORD-1")] ∧
    (processPayment storeMisplaced (paymentDataOrd1 250) envPayOk).2.isOk = true ∧
    (processPayment storeMisplaced (paymentDataOrd1 250) envPayOk).1.orders.map
      (fun o => (o.order_id, o.status, o.payment_status)) = [("ORD-1", "completed", "paid")] ∧
    (processPayment storeMisplaced (paymentDataOrd1 250) envPayOk).1.tables.map
      (fun t => (t.table_no, t.status, t.current_order_id)) =
      [("5", "vacant", none), ("7", "occupied", some "ORD-1")] := by
  decide

/-- C3 amended: when `processPayment` is called for an existing order and all
three store writes succeed, it returns a Payment carrying the submitted amount
and order id and that Payment is in the store; the order is still in the store
and every order with that id has status 'completed', payment_status 'paid' and
`completed_at` set; every table whose `table_no` is the one recorded in the
order row has status 'vacant' and `current_order_id` null, and every other table
row is left as it was; so no table references the order any more provided the
tables that referenced it carried the order's table number. -/
theorem processPayment_settles (s : Store) (paymentData : PaymentData)
    (env : ProcessPaymentEnv) (o : Order)
    (hfind : s.orders.find? (fun o => o.order_id = paymentData.order_id) = some o)
    (hpay : env.paymentOutcome = none) (hord : env.orderOutcome = none)
    (htab : env.tableOutcome = none) :
    ∃ payment, (processPayment s paymentData env).2 = .ok (some payment) ∧
      payment ∈ (processPayment s paymentData env).1.payments ∧
      payment.amount = paymentData.amount ∧ payment.order_id = paymentData.order_id ∧
      (∃ o1 ∈ (processPayment s paymentData env).1.orders,
        o1.order_id = paymentData.order_id) ∧
      (∀ o1 ∈ (processPayment s paymentData env).1.orders,
        o1.order_id = paymentData.order_id →
          o1.status = "completed" ∧ o1.payment_status = "paid" ∧
          o1.completed_at = some env.completedNow) ∧
      (processPayment s paymentData env).1.tables.map (fun t => t.table_no) =
        s.tables.map (fun t => t.table_no) ∧
      (∀ t ∈ (processPayment s paymentData env).1.tables, t.table_no = o.table_no →
        t.status = "vacant" ∧ t.current_order_id = none) ∧
      (∀ t ∈ s.tables, t.table_no ≠ o.table_no →
        t ∈ (processPayment s paymentData env).1.tables) ∧
      ((∀ t ∈ s.tables, t.current_order_id = some paymentData.order_id →
          t.table_no = o.table_no) →
        ∀ t ∈ (processPayment s paymentData env).1.tables,
          t.current_order_id ≠ some paymentData.order_id) := by
  have hmem : o ∈ s.orders := List.mem_of_find?_eq_some hfind
  have hid : o.order_id = paymentData.order_id := by
    simpa using List.find?_some hfind
  rw [processPayment_of_ok s paymentData env o hfind hpay hord htab]
  refine ⟨_, rfl, by simp, rfl, rfl, ?_, ?_, tablesAfterUpdate_table_no _ _ _ _ _, ?_, ?_, ?_⟩
  · refine ⟨_, mem_ordersAfterUpdate_of_mem paymentData.order_id (settleUpdates env) hmem, ?_⟩
    simp [hid, applyOrderUpdates]
  · intro o1 ho1 hid1
    obtain ⟨o0, _, h0, _, hcase⟩ := mem_ordersAfterUpdate ho1
    rcases hcase with ⟨_, rfl⟩ | ⟨hne, rfl⟩
    · simp [applyOrderUpdates, settleUpdates]
    · exact absurd hid1 hne
  · intro t ht hno
    obtain ⟨t0, _, h0, hcase⟩ := mem_tablesAfterUpdate ht
    rcases hcase with ⟨_, rfl⟩ | ⟨hne, rfl⟩
    · simp [setTableFields]
    · exact absurd hno hne
  · intro t ht hne
    simp only [tablesAfterUpdate, List.mem_map]
    exact ⟨t, ht, by rw [if_neg hne]⟩
  · intro hlink t ht hcur
    obtain ⟨t0, ht0, h0, hcase⟩ := mem_tablesAfterUpdate ht
    rcases hcase with ⟨_, rfl⟩ | ⟨hne, rfl⟩
    · simp [setTableFields] at hcur
    · exact hne (hlink _ ht0 hcur)

/-- Witness for C3 amended, the scenario of the specification: order "ORD-1"
(total 250, payment pending) on table "5", settled with amount 250 in cash. -/
theorem processPayment_settles_witness :
    (processPayment (storeOccupied5 250) (paymentDataOrd1 250) envPayOk).1.tables =
      [{ table_no := "5", capacity := 4, status := "vacant", current_order_id := none,
         updated_at := some 1700000100002 }] ∧
    ∃ payment,
      (processPayment (storeOccupied5 250) (paymentDataOrd1 250) envPayOk).2 =
        .ok (some payment) ∧
      payment ∈ (processPayment (storeOccupied5 250) (paymentDataOrd1 250) envPayOk).1.payments ∧
      payment.amount = 250 ∧ payment.order_id = "ORD-1" :=
  ⟨by decide,
    (processPayment_settles (storeOccupied5 250) (paymentDataOrd1 250) envPayOk
      (orderRow "ORD-1" "5" 250 "pending" "pending") (by decide) rfl rfl rfl).imp
      (fun _ h => ⟨h.1, h.2.1, h.2.2.1, h.2.2.2.1⟩)⟩

/-! ## C5 -/

/-- C5 as stated fails: for order "ORD-1" with total 450 and a submitted amount
of 400, `processPayment` returns normally, inserts a Payment of 400 and changes
the order to 'completed' / 'paid'. -/
theorem processPayment_amount_mismatch_accepted :
    (paymentDataOrd1 400).amount ≠ (orderRow "ORD-1" "5" 450 "pending" "pending").total_amount ∧
    (storeOccupied5 450).orders = [orderRow "ORD-1" "5" 450 "pending" "pending"] ∧
    (processPayment (storeOccupied5 450) (paymentDataOrd1 400) envPayOk).2 =
      .ok (some { order_id := "ORD-1", amount := 400, method := "cash", cashier := "System",
                  payment_id := "PAY-1700000100000", payment_time := 1700000100000 }) ∧
    (processPayment (storeOccupied5 450) (paymentDataOrd1 400) envPayOk).1.payments =
      [{ order_id := "ORD-1", amount := 400, method := "cash", cashier := "System",
         payment_id := "PAY-1700000100000", payment_time := 1700000100000 }] ∧
    (processPayment (storeOccupied5 450) (paymentDataOrd1 400) envPayOk).1.orders.map
      (fun o => (o.order_id, o.status, o.payment_status)) = [("ORD-1", "completed", "paid")] := by
  decide

/-- C5 amended: `processPayment` never compares the submitted amount with the
order's total.  For an existing order and an amount different from its
`total_amount`, when the three store writes succeed the call returns normally,
appends a Payment carrying the submitted amount, and rewrites the order rows
with that id to 'completed' / 'paid'. -/
theorem processPayment_ignores_amount (s : Store) (paymentData : PaymentData)
    (env : ProcessPaymentEnv) (o : Order)
    (hfind : s.orders.find? (fun o => o.order_id = paymentData.order_id) = some o)
    (hne : paymentData.amount ≠ o.total_amount)
    (hpay : env.paymentOutcome = none) (hord : env.orderOutcome = none)
    (htab : env.tableOutcome = none) :
    (processPayment s paymentData env).2 =
      .ok (some (newPaymentRow paymentData (paymentIdOf env.idNow) env.paymentTime)) ∧
    (newPaymentRow paymentData (paymentIdOf env.idNow) env.paymentTime).amount ≠
      o.total_amount ∧
    (processPayment s paymentData env).1.payments =
      s.payments ++ [newPaymentRow paymentData (paymentIdOf env.idNow) env.paymentTime] ∧
    (processPayment s paymentData env).1.orders =
      s.orders.map (fun o1 =>
        if o1.order_id = paymentData.order_id then
          { o1 with status := "completed", payment_status := "paid",
                    completed_at := some env.completedNow,
                    updated_at := some env.updatedNow }
        else o1) := by
  rw [processPayment_of_ok s paymentData env o hfind hpay hord htab]
  exact ⟨rfl, hne, rfl, rfl⟩

/-- Witness for C5 amended: total 450, submitted amount 400. -/
theorem processPayment_ignores_amount_witness :
    (processPayment (storeOccupied5 450) (paymentDataOrd1 400) envPayOk).2 =
      .ok (some (newPaymentRow (paymentDataOrd1 400) (paymentIdOf envPayOk.idNow)
        envPayOk.paymentTime)) :=
  (processPayment_ignores_amount (storeOccupied5 450) (paymentDataOrd1 400) envPayOk
    (orderRow "ORD-1" "5" 450 "pending" "pending") (by decide) (by decide) rfl rfl rfl).1

theorem find?_ordersAfterUpdate (orders : List Order) (orderId : String) (u : OrderUpdates) :
    (ordersAfterUpdate orders orderId u).find? (fun o => o.order_id = orderId) =
      (orders.find? (fun o => o.order_id = orderId)).map (applyOrderUpdates u) := by
  induction orders with
  | nil => rfl
  | cons x xs ih =>
    have ih1 : List.find? (fun o => decide (o.order_id = orderId))
        (List.map (fun o => if o.order_id = orderId then applyOrderUpdates u o else o) xs) =
        Option.map (applyOrderUpdates u)
          (List.find? (fun o => decide (o.order_id = orderId)) xs) := ih
    by_cases hc : x.order_id = orderId
    · simp [ordersAfterUpdate, List.find?_cons, hc, applyOrderUpdates_order_id]
    · simp [ordersAfterUpdate, List.find?_cons, hc, ih1]

theorem updateOrderStatus_of_ok (s : Store) (orderId status : String) (env : UpdateOrderEnv)
    (hok : env.outcome = none) :
    updateOrderStatus s orderId status env =
      ({ s with orders := ordersAfterUpdate s.orders orderId (statusUpdates status env) },
        .ok ((s.orders.find? (fun o => o.order_id = orderId)).map
          (applyOrderUpdates (statusUpdates status env)))) := by
  simp only [updateOrderStatus, updateOrders, hok, head?_updated, ordersAfterUpdate]

theorem updateOrderStatus_of_error (s : Store) (orderId status : String) (env : UpdateOrderEnv)
    (msg : String) (herr : env.outcome = some msg) :
    updateOrderStatus s orderId status env = (s, .error (.upstream msg)) := by
  simp only [updateOrderStatus, updateOrders, herr]

/-! ## C6 -/

/-- C6 as stated fails: settling order "ORD-1" twice, both calls return normally
although the order is already 'paid' before the second call, and the store
ends with two Payment records for the order. -/
theorem processPayment_twice_two_payments :
    (processPayment (storeOccupied5 250) (paymentDataOrd1 250) envPayOk).2.isOk = true ∧
    (processPayment (storeOccupied5 250) (paymentDataOrd1 250) envPayOk).1.orders.map
      (fun o => (o.order_id, o.payment_status)) = [("ORD-1", "paid")] ∧
    (processPayment (processPayment (storeOccupied5 250) (paymentDataOrd1 250) envPayOk).1
      (paymentDataOrd1 250) envPayOkLater).2.isOk = true ∧
    (processPayment (processPayment (storeOccupied5 250) (paymentDataOrd1 250) envPayOk).1
      (paymentDataOrd1 250) envPayOkLater).1.payments.map
      (fun p => (p.order_id, p.payment_id)) =
        [("ORD-1", "PAY-1700000100000"), ("ORD-1", "PAY-1700000200000")] := by
  decide

/-- C6 amended: `processPayment` does not look at `payment_status`.  For an
existing order, when the store writes of two consecutive calls on the same
`order_id` all succeed, the first call leaves the order 'paid', the second call
nevertheless returns its new Payment, and each call appends exactly one Payment
record for that order: the store ends with two more than it started with. -/
theorem processPayment_repeat_succeeds (s : Store) (paymentData : PaymentData)
    (env1 env2 : ProcessPaymentEnv) (o : Order)
    (hfind : s.orders.find? (fun o => o.order_id = paymentData.order_id) = some o)
    (hpay1 : env1.paymentOutcome = none) (hord1 : env1.orderOutcome = none)
    (htab1 : env1.tableOutcome = none)
    (hpay2 : env2.paymentOutcome = none) (hord2 : env2.orderOutcome = none)
    (htab2 : env2.tableOutcome = none) :
    (processPayment s paymentData env1).2 =
      .ok (some (newPaymentRow paymentData (paymentIdOf env1.idNow) env1.paymentTime)) ∧
    (∀ o1 ∈ (processPayment s paymentData env1).1.orders,
      o1.order_id = paymentData.order_id → o1.payment_status = "paid") ∧
    (processPayment (processPayment s paymentData env1).1 paymentData env2).2 =
      .ok (some (newPaymentRow paymentData (paymentIdOf env2.idNow) env2.paymentTime)) ∧
    ((processPayment s paymentData env1).1.payments.filter
      (fun p => p.order_id = paymentData.order_id)).length =
      (s.payments.filter (fun p => p.order_id = paymentData.order_id)).length + 1 ∧
    ((processPayment (processPayment s paymentData env1).1 paymentData env2).1.payments.filter
      (fun p => p.order_id = paymentData.order_id)).length =
      (s.payments.filter (fun p => p.order_id = paymentData.order_id)).length + 2 := by
  have h1 := processPayment_of_ok s paymentData env1 o hfind hpay1 hord1 htab1
  have hfind2 : (processPayment s paymentData env1).1.orders.find?
      (fun o => o.order_id = paymentData.order_id) =
      some (applyOrderUpdates (settleUpdates env1) o) := by
    rw [h1]
    simp only [find?_ordersAfterUpdate, hfind, Option.map_some']
  have h2 := processPayment_of_ok (processPayment s paymentData env1).1 paymentData env2 _
    hfind2 hpay2 hord2 htab2
  rw [h2]
  rw [h1]
  refine ⟨rfl, ?_, rfl, ?_, ?_⟩
  · intro o1 ho1 hid1
    obtain ⟨o0, _, _, _, hcase⟩ := mem_ordersAfterUpdate ho1
    rcases hcase with ⟨_, rfl⟩ | ⟨hne, rfl⟩
    · simp [applyOrderUpdates, settleUpdates]
    · exact absurd hid1 hne
  · simp [List.filter_append, newPaymentRow]
  · simp [List.filter_append, newPaymentRow]

/-- Witness for C6 amended: order "ORD-1" settled twice. -/
theorem processPayment_repeat_succeeds_witness :
    (processPayment (processPayment (storeOccupied5 250) (paymentDataOrd1 250) envPayOk).1
      (paymentDataOrd1 250) envPayOkLater).2 =
      .ok (some (newPaymentRow (paymentDataOrd1 250) (paymentIdOf envPayOkLater.idNow)
        envPayOkLater.paymentTime)) :=
  (processPayment_repeat_succeeds (storeOccupied5 250) (paymentDataOrd1 250) envPayOk
    envPayOkLater (orderRow "ORD-1" "5" 250 "pending" "pending") (by decide)
    rfl rfl rfl rfl rfl rfl).2.2.1

/-! ## C7 -/

/-- C7 as stated fails: on the completed order "ORD-1", `updateOrderStatus` with
'ready' returns normally and the order's status becomes 'ready'; likewise with
'pending'. -/
theorem updateOrderStatus_reopens_completed :
    storeCompleted.orders.map (fun o => (o.order_id, o.status)) = [("ORD-1", "completed")] ∧
    (updateOrderStatus storeCompleted "ORD-1" "ready" envUpdateOk).2.isOk = true ∧
    (updateOrderStatus storeCompleted "ORD-1" "ready" envUpdateOk).1.orders.map
      (fun o => (o.order_id, o.status)) = [("ORD-1", "ready")] ∧
    (updateOrderStatus storeCompleted "ORD-1" "pending" envUpdateOk).2.isOk = true ∧
    (updateOrderStatus storeCompleted "ORD-1" "pending" envUpdateOk).1.orders.map
      (fun o => (o.order_id, o.status)) = [("ORD-1", "pending")] := by
  decide

/-- C7 amended: `updateOrderStatus` checks no transition.  For an order whose
status is 'completed' and any requested status (in particular 'ready' or
'pending'), when the store write succeeds the call returns the rewritten order
and every order with that id carries the requested status. -/
theorem updateOrderStatus_no_transition_check (s : Store) (orderId status : String)
    (env : UpdateOrderEnv) (o : Order)
    (hfind : s.orders.find? (fun o => o.order_id = orderId) = some o)
    (_hdone : o.status = "completed") (hok : env.outcome = none) :
    (∃ o1, (updateOrderStatus s orderId status env).2 = .ok (some o1) ∧
      o1.order_id = orderId ∧ o1.status = status) ∧
    (∃ o1 ∈ (updateOrderStatus s orderId status env).1.orders, o1.order_id = orderId) ∧
    ∀ o1 ∈ (updateOrderStatus s orderId status env).1.orders,
      o1.order_id = orderId → o1.status = status := by
  have hmem : o ∈ s.orders := List.mem_of_find?_eq_some hfind
  have hid : o.order_id = orderId := by simpa using List.find?_some hfind
  rw [updateOrderStatus_of_ok s orderId status env hok, hfind]
  refine ⟨⟨_, rfl, hid, rfl⟩, ?_, ?_⟩
  · refine ⟨_, mem_ordersAfterUpdate_of_mem orderId (statusUpdates status env) hmem, ?_⟩
    simp [hid, applyOrderUpdates]
  · intro o1 ho1 hid1
    obtain ⟨o0, _, _, _, hcase⟩ := mem_ordersAfterUpdate ho1
    rcases hcase with ⟨_, rfl⟩ | ⟨hne, rfl⟩
    · simp [applyOrderUpdates, statusUpdates]
    · exact absurd hid1 hne

/-- Witness for C7 amended: the completed order "ORD-1" set back to 'ready'. -/
theorem updateOrderStatus_no_transition_check_witness :
    ∃ o1, (updateOrderStatus storeCompleted "ORD-1" "ready" envUpdateOk).2 = .ok (some o1) ∧
      o1.order_id = "ORD-1" ∧ o1.status = "ready" :=
  (updateOrderStatus_no_transition_check storeCompleted "ORD-1" "ready" envUpdateOk
    (orderRow "ORD-1" "5" 250 "completed" "paid") (by decide) rfl rfl).1

theorem processPayment_of_payment_error (s : Store) (paymentData : PaymentData)
    (env : ProcessPaymentEnv) (msg : String) (hpay : env.paymentOutcome = some msg) :
    processPayment s paymentData env = (s, .error (.upstream msg)) := by
  simp only [processPayment, insertPayment, hpay]

theorem processPayment_of_order_error (s : Store) (paymentData : PaymentData)
    (env : ProcessPaymentEnv) (msg : String) (hpay : env.paymentOutcome = none)
    (hord : env.orderOutcome = some msg) :
    processPayment s paymentData env =
      ({ s with payments := s.payments ++
            [newPaymentRow paymentData (paymentIdOf env.idNow) env.paymentTime] },
        .error (.upstream msg)) := by
  simp only [processPayment, insertPayment, updateOrders, hpay, hord]

theorem processPayment_of_no_order (s : Store) (paymentData : PaymentData)
    (env : ProcessPaymentEnv)
    (hfind : s.orders.find? (fun o => o.order_id = paymentData.order_id) = none)
    (hpay : env.paymentOutcome = none) (hord : env.orderOutcome = none) :
    processPayment s paymentData env =
      ({ tables := s.tables
         orders := ordersAfterUpdate s.orders paymentData.order_id (settleUpdates env)
         payments := s.payments ++
            [newPaymentRow paymentData (paymentIdOf env.idNow) env.paymentTime] },
        .error .typeError) := by
  simp only [processPayment, insertPayment, updateOrders, hpay, hord, head?_updated, hfind,
    Option.map_none', ordersAfterUpdate]

theorem processPayment_of_table_error (s : Store) (paymentData : PaymentData)
    (env : ProcessPaymentEnv) (o : Order) (msg : String)
    (hfind : s.orders.find? (fun o => o.order_id = paymentData.order_id) = some o)
    (hpay : env.paymentOutcome = none) (hord : env.orderOutcome = none)
    (htab : env.tableOutcome = some msg) :
    processPayment s paymentData env =
      ({ tables := s.tables
         orders := ordersAfterUpdate s.orders paymentData.order_id (settleUpdates env)
         payments := s.payments ++
            [newPaymentRow paymentData (paymentIdOf env.idNow) env.paymentTime] },
        .error (.upstream msg)) := by
  simp only [processPayment, insertPayment, updateOrders, hpay, hord, head?_updated, hfind,
    Option.map_some', updateTableStatus, updateTables, htab, ordersAfterUpdate]

/-! ## C8 -/

/-- C8: when `createOrder` is called with a 'pending' order, the order insert
succeeds and the table update fails, the call throws the store's error, the
inserted order is in the store with status 'pending' (the insert is not
rolled back: the orders are the previous ones followed by the new one), and
every table row, with its status and `current_order_id`, is unchanged. -/
theorem createOrder_table_failure_keeps_order (s : Store) (orderData : OrderData)
    (env : CreateOrderEnv) (msg : String) (hpending : orderData.status = "pending")
    (hins : env.insertOutcome = none) (htab : env.tableOutcome = some msg) :
    (createOrder s orderData env).2 = .error (.upstream msg) ∧
    (∃ o ∈ (createOrder s orderData env).1.orders,
      o.order_id = orderIdOf env.idNow ∧ o.status = "pending" ∧
      o.table_no = orderData.table_no ∧ o.items = orderData.items ∧
      o.total_amount = orderData.total_amount) ∧
    (createOrder s orderData env).1.orders =
      s.orders ++ [newOrderRow orderData (orderIdOf env.idNow) env.timestampNow] ∧
    (createOrder s orderData env).1.tables = s.tables := by
  rw [createOrder_of_table_error s orderData env msg hins htab]
  refine ⟨rfl, ⟨newOrderRow orderData (orderIdOf env.idNow) env.timestampNow, by simp, rfl,
    hpending, rfl, rfl, rfl⟩, rfl, rfl⟩

/-- Witness for C8: the order for table "5" when the table update fails. -/
theorem createOrder_table_failure_keeps_order_witness :
    (createOrder storeVacant5 orderDataTable5 envCreateTableFails).2 =
      .error (.upstream "network error") ∧
    (createOrder storeVacant5 orderDataTable5 envCreateTableFails).1.tables =
      storeVacant5.tables :=
  ⟨(createOrder_table_failure_keeps_order storeVacant5 orderDataTable5 envCreateTableFails
      "network error" rfl rfl rfl).1,
   (createOrder_table_failure_keeps_order storeVacant5 orderDataTable5 envCreateTableFails
      "network error" rfl rfl rfl).2.2.2⟩

/-! ## C9 -/

/-- C9: in `processPayment`, if the payment insert succeeds the Payment row is
in the resulting store whatever happens afterwards, and the call throws as
soon as the order update or the table update fails; if the payment insert
fails, the call throws and the store (orders, tables and payments) is left
exactly as it was. -/
theorem processPayment_partial_failure (s : Store) (paymentData : PaymentData)
    (env : ProcessPaymentEnv) :
    (env.paymentOutcome = none →
      newPaymentRow paymentData (paymentIdOf env.idNow) env.paymentTime ∈
        (processPayment s paymentData env).1.payments ∧
      (env.orderOutcome ≠ none ∨ env.tableOutcome ≠ none →
        ∃ e, (processPayment s paymentData env).2 = .error e)) ∧
    (env.paymentOutcome ≠ none →
      (processPayment s paymentData env).1 = s ∧
      ∃ e, (processPayment s paymentData env).2 = .error e) := by
  constructor
  · intro hpay
    cases hord : env.orderOutcome with
    | some msg =>
      rw [processPayment_of_order_error s paymentData env msg hpay hord]
      exact ⟨by simp, fun _ => ⟨_, rfl⟩⟩
    | none =>
      cases hfind : s.orders.find? (fun o => o.order_id = paymentData.order_id) with
      | none =>
        rw [processPayment_of_no_order s paymentData env hfind hpay hord]
        exact ⟨by simp, fun _ => ⟨_, rfl⟩⟩
      | some o =>
        cases htab : env.tableOutcome with
        | some msg =>
          rw [processPayment_of_table_error s paymentData env o msg hfind hpay hord htab]
          exact ⟨by simp, fun _ => ⟨_, rfl⟩⟩
        | none =>
          rw [processPayment_of_ok s paymentData env o hfind hpay hord htab]
          exact ⟨by simp, fun h => by simp at h⟩
  · intro hpay
    cases hp : env.paymentOutcome with
    | none => exact absurd hp hpay
    | some msg =>
      rw [processPayment_of_payment_error s paymentData env msg hp]
      exact ⟨rfl, _, rfl⟩

/-- Witness for C9: the table update fails after the payment insert and the
order update succeeded; the Payment row stays and the call throws. -/
theorem processPayment_partial_failure_witness :
    newPaymentRow (paymentDataOrd1 250) (paymentIdOf envPayTableFails.idNow)
        envPayTableFails.paymentTime ∈
      (processPayment (storeOccupied5 250) (paymentDataOrd1 250) envPayTableFails).1.payments ∧
    ∃ e, (processPayment (storeOccupied5 250) (paymentDataOrd1 250) envPayTableFails).2 =
      .error e :=
  ⟨((processPayment_partial_failure (storeOccupied5 250) (paymentDataOrd1 250)
      envPayTableFails).1 rfl).1,
   ((processPayment_partial_failure (storeOccupied5 250) (paymentDataOrd1 250)
      envPayTableFails).1 rfl).2 (Or.inr (by decide))⟩

/-! ## C10 -/

/-- C10 as stated fails: `updateOrderStatus` with status 'completed' also writes
`completed_at` of the matching order, a field other than the status and the
update timestamp. -/
theorem updateOrderStatus_completed_sets_completed_at :
    (storeOccupied5 250).orders.map (fun o => (o.order_id, o.completed_at)) =
      [("ORD-1", none)] ∧
    (updateOrderStatus (storeOccupied5 250) "ORD-1" "completed" envUpdateOk).1.orders.map
      (fun o => (o.order_id, o.completed_at)) = [("ORD-1", some 1700000300001)] := by
  decide

/-- C10 amended: whatever the store answers, `updateOrderStatus` leaves every
table row and every payment row unchanged, keeps the order rows in place, leaves
every order with another id unchanged, and on a matching order changes nothing
but `status`, `updated_at` and, only when the requested status is 'completed',
`completed_at`. -/
theorem updateOrderStatus_frame (s : Store) (orderId status : String) (env : UpdateOrderEnv) :
    (updateOrderStatus s orderId status env).1.tables = s.tables ∧
    (updateOrderStatus s orderId status env).1.payments = s.payments ∧
    List.Forall₂
      (fun o o1 =>
        (o.order_id ≠ orderId → o1 = o) ∧
        o1.table_no = o.table_no ∧ o1.customer_name = o.customer_name ∧
        o1.items = o.items ∧ o1.total_amount = o.total_amount ∧
        o1.payment_status = o.payment_status ∧ o1.order_id = o.order_id ∧
        o1.timestamp = o.timestamp ∧
        (status ≠ "completed" → o1.completed_at = o.completed_at))
      s.orders (updateOrderStatus s orderId status env).1.orders := by
  cases hout : env.outcome with
  | some msg =>
    rw [updateOrderStatus_of_error s orderId status env msg hout]
    refine ⟨rfl, rfl, ?_⟩
    rw [List.forall₂_same]
    intro o _
    simp
  | none =>
    rw [updateOrderStatus_of_ok s orderId status env hout]
    refine ⟨rfl, rfl, ?_⟩
    simp only [ordersAfterUpdate]
    rw [List.forall₂_map_right_iff, List.forall₂_same]
    intro o _
    by_cases hc : o.order_id = orderId
    · rw [if_pos hc]
      refine ⟨fun h => absurd hc h, rfl, rfl, rfl, rfl, rfl, rfl, rfl, ?_⟩
      intro hst
      simp [applyOrderUpdates, statusUpdates, hst]
    · simp [hc]

/-! ## Helper lemmas: successful calls -/

theorem addTable_isOk {s : Store} {tableData : Table} {outcome : Outcome}
    (h : (addTable s tableData outcome).2.isOk = true) :
    addTable s tableData outcome =
      ({ s with tables := s.tables ++ [tableData] }, .ok (some tableData)) := by
  cases outcome with
  | none => rfl
  | some msg => simp [addTable, insertTable, Except.isOk, Except.toBool] at h

theorem updateTableStatus_isOk {s : Store} {tableNo status : String}
    {orderId : Option String} {now : Nat} {outcome : Outcome}
    (h : (updateTableStatus s tableNo status orderId now outcome).2.isOk = true) :
    (updateTableStatus s tableNo status orderId now outcome).1 =
      { s with tables := tablesAfterUpdate s.tables tableNo status orderId now } := by
  cases outcome with
  | none => rfl
  | some msg => simp [updateTableStatus, updateTables, Except.isOk, Except.toBool] at h

theorem createOrder_isOk {s : Store} {orderData : OrderData} {env : CreateOrderEnv}
    (h : (createOrder s orderData env).2.isOk = true) :
    env.insertOutcome = none ∧ env.tableOutcome = none := by
  cases hins : env.insertOutcome with
  | some msg => simp [createOrder, insertOrder, hins, Except.isOk, Except.toBool] at h
  | none =>
    cases htab : env.tableOutcome with
    | some msg =>
      rw [createOrder_of_table_error s orderData env msg hins htab] at h
      simp [Except.isOk, Except.toBool] at h
    | none => exact ⟨rfl, rfl⟩

theorem updateOrderStatus_isOk {s : Store} {orderId status : String} {env : UpdateOrderEnv}
    (h : (updateOrderStatus s orderId status env).2.isOk = true) : env.outcome = none := by
  cases hout : env.outcome with
  | some msg =>
    rw [updateOrderStatus_of_error s orderId status env msg hout] at h
    simp [Except.isOk, Except.toBool] at h
  | none => rfl

theorem processPayment_isOk {s : Store} {paymentData : PaymentData} {env : ProcessPaymentEnv}
    (h : (processPayment s paymentData env).2.isOk = true) :
    env.paymentOutcome = none ∧ env.orderOutcome = none ∧ env.tableOutcome = none ∧
      ∃ o, s.orders.find? (fun o => o.order_id = paymentData.order_id) = some o := by
  cases hpay : env.paymentOutcome with
  | some msg =>
    rw [processPayment_of_payment_error s paymentData env msg hpay] at h
    simp [Except.isOk, Except.toBool] at h
  | none =>
    cases hord : env.orderOutcome with
    | some msg =>
      rw [processPayment_of_order_error s paymentData env msg hpay hord] at h
      simp [Except.isOk, Except.toBool] at h
    | none =>
      cases hfind : s.orders.find? (fun o => o.order_id = paymentData.order_id) with
      | none =>
        rw [processPayment_of_no_order s paymentData env hfind hpay hord] at h
        simp [Except.isOk, Except.toBool] at h
      | some o =>
        cases htab : env.tableOutcome with
        | some msg =>
          rw [processPayment_of_table_error s paymentData env o msg hfind hpay hord htab] at h
          simp [Except.isOk, Except.toBool] at h
        | none => exact ⟨rfl, rfl, rfl, o, rfl⟩

/-! ## Helper lemmas: consistency -/

theorem consistent_tableInvariant {s : Store} (h : Consistent s) : TableInvariant s := by
  obtain ⟨hT, hO, hL⟩ := h
  constructor
  · intro t ht
    rcases hL t ht with ⟨hocc, o, ho, hcur, hlive, _⟩ | ⟨hnocc, hnone⟩
    · exact ⟨fun _ => ⟨o, ho, hcur, hlive⟩, fun _ => hocc⟩
    · constructor
      · intro hocc
        exact absurd hocc hnocc
      · rintro ⟨o, _, hcur, _⟩
        rw [hnone] at hcur
        exact absurd hcur (by simp)
  · have hp : s.tables.Pairwise (fun t1 t2 => t1.table_no ≠ t2.table_no) := by
      have := hT
      rwa [List.Nodup, List.pairwise_map] at this
    refine hp.imp_of_mem ?_
    intro t1 t2 h1 h2 hne
    by_cases hnone : t1.current_order_id = none
    · exact Or.inl hnone
    · right
      intro heq
      rcases hL t1 h1 with ⟨_, o1, ho1, hcur1, _, hno1⟩ | ⟨_, hn1⟩
      · rcases hL t2 h2 with ⟨_, o2, ho2, hcur2, _, hno2⟩ | ⟨_, hn2⟩
        · have hid : o1.order_id = o2.order_id := by
            rw [hcur1, hcur2] at heq
            exact Option.some.inj heq
          have ho : o1 = o2 := List.inj_on_of_nodup_map hO ho1 ho2 hid
          apply hne
          rw [← hno1, ← hno2, ho]
        · rw [hn2] at heq
          exact hnone heq
      · exact hnone hn1


theorem consistent_addTable {s : Store} (h : Consistent s) {tableData : Table}
    (hst : tableData.status ≠ "occupied") (hcur : tableData.current_order_id = none)
    (hnew : tableData.table_no ∉ s.tables.map (fun t => t.table_no)) :
    Consistent { s with tables := s.tables ++ [tableData] } := by
  obtain ⟨hT, hO, hL⟩ := h
  refine ⟨?_, hO, ?_⟩
  · simp only [List.map_append, List.map_cons, List.map_nil]
    rw [List.nodup_append]
    refine ⟨hT, List.nodup_singleton _, ?_⟩
    intro x hx hx1
    rw [List.mem_singleton] at hx1
    exact hnew (hx1 ▸ hx)
  · intro t ht
    rw [List.mem_append, List.mem_singleton] at ht
    rcases ht with ht | rfl
    · exact hL t ht
    · exact Or.inr ⟨hst, hcur⟩

theorem consistent_createOrder {s : Store} (h : Consistent s) (orderData : OrderData)
    (orderId : String) (timestamp now : Nat) (hst : orderData.status ≠ "completed")
    (hnew : orderId ∉ s.orders.map (fun o => o.order_id)) :
    Consistent
      { tables := tablesAfterUpdate s.tables orderData.table_no "occupied" (some orderId) now
        orders := s.orders ++ [newOrderRow orderData orderId timestamp]
        payments := s.payments } := by
  obtain ⟨hT, hO, hL⟩ := h
  refine ⟨?_, ?_, ?_⟩
  · show (List.map _ (tablesAfterUpdate _ _ _ _ _)).Nodup
    rw [tablesAfterUpdate_table_no]
    exact hT
  · show (List.map _ (s.orders ++ [newOrderRow orderData orderId timestamp])).Nodup
    simp only [List.map_append, List.map_cons, List.map_nil]
    rw [List.nodup_append]
    refine ⟨hO, List.nodup_singleton _, ?_⟩
    intro x hx hx1
    rw [List.mem_singleton] at hx1
    have hx2 : x = orderId := hx1
    exact hnew (hx2 ▸ hx)
  · intro t ht
    obtain ⟨t0, ht0, h0, hcase⟩ := mem_tablesAfterUpdate ht
    rcases hcase with ⟨hmatch, rfl⟩ | ⟨_, rfl⟩
    · left
      refine ⟨rfl, newOrderRow orderData orderId timestamp, ?_, rfl, hst, ?_⟩
      · exact List.mem_append_right _ (List.mem_singleton_self _)
      · exact hmatch.symm
    · rcases hL t ht0 with ⟨hocc, o, ho, hcur, hlive, hno⟩ | hfree
      · exact Or.inl ⟨hocc, o, List.mem_append_left _ ho, hcur, hlive, hno⟩
      · exact Or.inr hfree

theorem consistent_vacate {s : Store} (h : Consistent s) (tableNo status : String)
    (now : Nat) (hst : status ≠ "occupied") :
    Consistent { s with tables := tablesAfterUpdate s.tables tableNo status none now } := by
  obtain ⟨hT, hO, hL⟩ := h
  refine ⟨?_, hO, ?_⟩
  · show (List.map _ (tablesAfterUpdate _ _ _ _ _)).Nodup
    rw [tablesAfterUpdate_table_no]
    exact hT
  · intro t ht
    obtain ⟨t0, ht0, _, hcase⟩ := mem_tablesAfterUpdate ht
    rcases hcase with ⟨_, rfl⟩ | ⟨_, rfl⟩
    · exact Or.inr ⟨hst, rfl⟩
    · exact hL t ht0

theorem consistent_updateOrderStatus {s : Store} (h : Consistent s) (orderId status : String)
    (env : UpdateOrderEnv) (hst : status ≠ "completed") :
    Consistent
      { s with orders := ordersAfterUpdate s.orders orderId (statusUpdates status env) } := by
  obtain ⟨hT, hO, hL⟩ := h
  refine ⟨hT, ?_, ?_⟩
  · show (List.map _ (ordersAfterUpdate _ _ _)).Nodup
    rw [ordersAfterUpdate_order_id]
    exact hO
  · intro t ht
    rcases hL t ht with ⟨hocc, o, ho, hcur, hlive, hno⟩ | hfree
    · left
      refine ⟨hocc, _, mem_ordersAfterUpdate_of_mem orderId (statusUpdates status env) ho, ?_⟩
      by_cases hc : o.order_id = orderId
      · rw [if_pos hc]
        exact ⟨hcur, hst, hno⟩
      · rw [if_neg hc]
        exact ⟨hcur, hlive, hno⟩
    · exact Or.inr hfree

theorem consistent_processPayment {s : Store} (h : Consistent s) (orderId : String)
    (u : OrderUpdates) (now : Nat) (o : Order)
    (hfind : s.orders.find? (fun o => o.order_id = orderId) = some o)
    (payments : List Payment) :
    Consistent
      { tables := tablesAfterUpdate s.tables o.table_no "vacant" none now
        orders := ordersAfterUpdate s.orders orderId u
        payments := payments } := by
  obtain ⟨hT, hO, hL⟩ := h
  have hmem : o ∈ s.orders := List.mem_of_find?_eq_some hfind
  have hid : o.order_id = orderId := by simpa using List.find?_some hfind
  refine ⟨?_, ?_, ?_⟩
  · show (List.map _ (tablesAfterUpdate _ _ _ _ _)).Nodup
    rw [tablesAfterUpdate_table_no]
    exact hT
  · show (List.map _ (ordersAfterUpdate _ _ _)).Nodup
    rw [ordersAfterUpdate_order_id]
    exact hO
  · intro t ht
    obtain ⟨t0, ht0, h0, hcase⟩ := mem_tablesAfterUpdate ht
    rcases hcase with ⟨_, rfl⟩ | ⟨hne, rfl⟩
    · exact Or.inr ⟨by simp [setTableFields], rfl⟩
    · rcases hL t ht0 with ⟨hocc, o1, ho1, hcur, hlive, hno⟩ | hfree
      · left
        have hne1 : o1.order_id ≠ orderId := by
          intro hc
          have : o1 = o := List.inj_on_of_nodup_map hO ho1 hmem (hc.trans hid.symm)
          exact hne (by rw [← hno, this])
        refine ⟨hocc, o1, ?_, hcur, hlive, hno⟩
        have := mem_ordersAfterUpdate_of_mem orderId u ho1
        rwa [if_neg hne1] at this
      · exact Or.inr hfree

theorem lifecycleStep_consistent {s s1 : Store} (hstep : LifecycleStep s s1)
    (h : Consistent s) : Consistent s1 := by
  cases hstep with
  | updateTableStatus tableNo status now outcome hst hok =>
    rw [updateTableStatus_isOk hok]
    exact consistent_vacate h tableNo status now hst
  | addTable tableData outcome hst hcur hnew hok =>
    rw [addTable_isOk hok]
    exact consistent_addTable h hst hcur hnew
  | createOrder orderData env hst hnew hok =>
    obtain ⟨hins, htab⟩ := createOrder_isOk hok
    rw [createOrder_of_ok s orderData env hins htab]
    exact consistent_createOrder h orderData _ _ _ hst hnew
  | updateOrderStatus orderId status env hst hok =>
    rw [updateOrderStatus_of_ok s orderId status env (updateOrderStatus_isOk hok)]
    exact consistent_updateOrderStatus h orderId status env hst
  | processPayment paymentData env hok =>
    obtain ⟨hpay, hord, htab, o, hfind⟩ := processPayment_isOk hok
    rw [processPayment_of_ok s paymentData env o hfind hpay hord htab]
    exact consistent_processPayment h _ _ _ o hfind _

theorem consistent_of_reachable {s0 s : Store} (h0 : Consistent s0)
    (hreach : Relation.ReflTransGen LifecycleStep s0 s) : Consistent s := by
  induction hreach with
  | refl => exact h0
  | tail _ hstep ih => exact lifecycleStep_consistent hstep ih

/-! ## C4 -/

/-- C4 as stated fails.  From consistent stores, successful `restaurantDB` calls
reach states that break the occupancy invariant: (1) a direct
`updateTableStatus("5", 'occupied', null)` leaves table "5" occupied with no
order; (2) `createOrder` followed by `updateOrderStatus(id, 'completed')` leaves
table "5" occupied by a completed order; (3) two `createOrder` calls that read
the same clock value leave tables "5" and "7" referencing the same order id;
(4) `addTable` of a row that is already 'occupied'; (5) `createOrder` of an
order submitted as 'completed'; (6) `addTable` of a second row for table "5"
followed by `createOrder` on "5", after which both rows reference the order. -/
theorem occupancy_invariant_not_preserved :
    (Consistent storeVacant5 ∧ TableInvariant storeVacant5 ∧
      Relation.ReflTransGen Step storeVacant5
        (updateTableStatus storeVacant5 "5" "occupied" none 1700000000001 none).1 ∧
      ¬ TableInvariant
        (updateTableStatus storeVacant5 "5" "occupied" none 1700000000001 none).1) ∧
    (Relation.ReflTransGen Step storeVacant5
        (updateOrderStatus (createOrder storeVacant5 orderDataTable5 envCreateOk).1
          "ORD-1700000000000" "completed" envUpdateOk).1 ∧
      ¬ TableInvariant
        (updateOrderStatus (createOrder storeVacant5 orderDataTable5 envCreateOk).1
          "ORD-1700000000000" "completed" envUpdateOk).1) ∧
    (Consistent storeTwoTables ∧ TableInvariant storeTwoTables ∧
      Relation.ReflTransGen Step storeTwoTables
        (createOrder (createOrder storeTwoTables orderDataTable5 envCreateOk).1
          orderDataTable7 envCreateOk).1 ∧
      ¬ TableInvariant
        (createOrder (createOrder storeTwoTables orderDataTable5 envCreateOk).1
          orderDataTable7 envCreateOk).1) ∧
    (Relation.ReflTransGen Step storeVacant5
        (addTable storeVacant5 tableOccupiedNoOrder none).1 ∧
      ¬ TableInvariant (addTable storeVacant5 tableOccupiedNoOrder none).1) ∧
    (Relation.ReflTransGen Step storeVacant5
        (createOrder storeVacant5 orderDataCompleted envCreateOk).1 ∧
      ¬ TableInvariant (createOrder storeVacant5 orderDataCompleted envCreateOk).1) ∧
    (Relation.ReflTransGen Step storeVacant5
        (createOrder (addTable storeVacant5 tableVacant5Again none).1 orderDataTable5
          envCreateOk).1 ∧
      ¬ TableInvariant
        (createOrder (addTable storeVacant5 tableVacant5Again none).1 orderDataTable5
          envCreateOk).1) := by
  refine ⟨⟨by decide, by decide, ?_, by decide⟩, ⟨?_, by decide⟩,
    ⟨by decide, by decide, ?_, by decide⟩, ⟨?_, by decide⟩, ⟨?_, by decide⟩,
    ⟨?_, by decide⟩⟩
  · exact Relation.ReflTransGen.single
      (Step.updateTableStatus storeVacant5 "5" "occupied" none 1700000000001 none (by decide))
  · exact Relation.ReflTransGen.tail
      (Relation.ReflTransGen.single
        (Step.createOrder storeVacant5 orderDataTable5 envCreateOk (by decide)))
      (Step.updateOrderStatus _ "ORD-1700000000000" "completed" envUpdateOk (by decide))
  · exact Relation.ReflTransGen.tail
      (Relation.ReflTransGen.single
        (Step.createOrder storeTwoTables orderDataTable5 envCreateOk (by decide)))
      (Step.createOrder _ orderDataTable7 envCreateOk (by decide))
  · exact Relation.ReflTransGen.single
      (Step.addTable storeVacant5 tableOccupiedNoOrder none (by decide))
  · exact Relation.ReflTransGen.single
      (Step.createOrder storeVacant5 orderDataCompleted envCreateOk (by decide))
  · exact Relation.ReflTransGen.tail
      (Relation.ReflTransGen.single
        (Step.addTable storeVacant5 tableVacant5Again none (by decide)))
      (Step.createOrder _ orderDataTable5 envCreateOk (by decide))

/-- C4 amended: in every state reachable from a consistent store (unique table
numbers and order ids, each table either occupied by a live order placed on it
or unoccupied with a null reference) by successful `addTable` calls for a new
unoccupied table, `updateTableStatus` calls that vacate, `createOrder` calls
with a status other than 'completed' and an unused order id,
`updateOrderStatus` calls with a status other than 'completed', and
`processPayment` calls, each table is 'occupied' if and only if
its `current_order_id` is non-null and references an order that is not
'completed', and no two tables reference the same order. -/
theorem occupancy_invariant_lifecycle (s0 s : Store) (h0 : Consistent s0)
    (hreach : Relation.ReflTransGen LifecycleStep s0 s) :
    (∀ t ∈ s.tables, t.status = "occupied" ↔
      ∃ o ∈ s.orders, t.current_order_id = some o.order_id ∧ o.status ≠ "completed") ∧
    s.tables.Pairwise
      (fun t1 t2 => t1.current_order_id = none ∨ t1.current_order_id ≠ t2.current_order_id) ∧
    TableInvariant s ∧ Consistent s :=
  have hc : Consistent s := consistent_of_reachable h0 hreach
  ⟨(consistent_tableInvariant hc).1, (consistent_tableInvariant hc).2,
    consistent_tableInvariant hc, hc⟩

/-- Witness for C4 amended: from the store with the vacant table "5", place an
order on it, mark the order ready, settle it, then add table "9". -/
theorem occupancy_invariant_lifecycle_witness :
    Consistent storeVacant5 ∧
    TableInvariant
      (addTable
        (processPayment
          (updateOrderStatus (createOrder storeVacant5 orderDataTable5 envCreateOk).1
            "ORD-1700000000000" "ready" envUpdateOk).1
          { order_id := "ORD-1700000000000", amount := 250, method := "cash",
            cashier := "System" } envPayOk).1
        tableVacant9 none).1 :=
  ⟨by decide,
    (occupancy_invariant_lifecycle storeVacant5 _ (by decide)
      (Relation.ReflTransGen.tail
        (Relation.ReflTransGen.tail
          (Relation.ReflTransGen.tail
            (Relation.ReflTransGen.single
              (LifecycleStep.createOrder storeVacant5 orderDataTable5 envCreateOk
                (by decide) (by decide) (by decide)))
            (LifecycleStep.updateOrderStatus _ "ORD-1700000000000" "ready" envUpdateOk
              (by decide) (by decide)))
          (LifecycleStep.processPayment _
            { order_id := "ORD-1700000000000", amount := 250, method := "cash",
              cashier := "System" } envPayOk (by decide)))
        (LifecycleStep.addTable _ tableVacant9 none (by decide) (by decide) (by decide)
          (by decide)))).2.2.1⟩

theorem ordersAfterUpdate_of_no_match (orders : List Order) (orderId : String)
    (u : OrderUpdates) (h : orders.find? (fun o => o.order_id = orderId) = none) :
    ordersAfterUpdate orders orderId u = orders := by
  rw [List.find?_eq_none] at h
  unfold ordersAfterUpdate
  conv_rhs => rw [← List.map_id orders]
  apply List.map_congr_left
  intro o ho
  have : ¬ o.order_id = orderId := by simpa using h o ho
  simp [this]

theorem forget_ordersAfterUpdate_twice (orders : List Order) (orderId status : String)
    (env1 env2 : UpdateOrderEnv) (hst : status ≠ "completed") :
    (ordersAfterUpdate (ordersAfterUpdate orders orderId (statusUpdates status env1)) orderId
        (statusUpdates status env2)).map (fun o => { o with updated_at := none }) =
      (ordersAfterUpdate orders orderId (statusUpdates status env1)).map
        (fun o => { o with updated_at := none }) := by
  simp only [ordersAfterUpdate, List.map_map]
  apply List.map_congr_left
  intro o _
  by_cases hc : o.order_id = orderId
  · simp [hc, applyOrderUpdates, statusUpdates, hst]
  · simp [hc]

/-! ## C11 -/

/-- C11: for an order in status 'pending', when the store write succeeds
`updateOrderStatus(orderId, 'ready')` returns the order with status 'ready' and
every order with that id then has status 'ready' (`markOrderReady` leaves that
same store); repeating the call, whatever the store answers the second time,
leaves the store equal to the store after the first call up to `updated_at`. -/
theorem updateOrderStatus_ready_idempotent (s : Store) (orderId : String)
    (env1 env2 : UpdateOrderEnv) (o : Order)
    (hfind : s.orders.find? (fun o => o.order_id = orderId) = some o)
    (_hpending : o.status = "pending") (hok : env1.outcome = none) :
    (∃ o1, (updateOrderStatus s orderId "ready" env1).2 = .ok (some o1) ∧
      o1.order_id = orderId ∧ o1.status = "ready") ∧
    (∀ o1 ∈ (updateOrderStatus s orderId "ready" env1).1.orders,
      o1.order_id = orderId → o1.status = "ready") ∧
    (markOrderReady s orderId env1).1 = (updateOrderStatus s orderId "ready" env1).1 ∧
    forgetUpdatedAt
        (updateOrderStatus (updateOrderStatus s orderId "ready" env1).1 orderId "ready"
          env2).1 =
      forgetUpdatedAt (updateOrderStatus s orderId "ready" env1).1 := by
  have hid : o.order_id = orderId := by simpa using List.find?_some hfind
  have h1 := updateOrderStatus_of_ok s orderId "ready" env1 hok
  refine ⟨?_, ?_, ?_, ?_⟩
  · rw [h1, hfind]
    exact ⟨_, rfl, hid, rfl⟩
  · rw [h1]
    intro o1 ho1 hid1
    obtain ⟨o0, _, _, _, hcase⟩ := mem_ordersAfterUpdate ho1
    rcases hcase with ⟨_, rfl⟩ | ⟨hne, rfl⟩
    · simp [applyOrderUpdates, statusUpdates]
    · exact absurd hid1 hne
  · simp only [markOrderReady, h1]
  · cases hout : env2.outcome with
    | some msg => rw [updateOrderStatus_of_error _ orderId "ready" env2 msg hout]
    | none =>
      rw [updateOrderStatus_of_ok _ orderId "ready" env2 hout, h1]
      simp only [forgetUpdatedAt]
      rw [forget_ordersAfterUpdate_twice s.orders orderId "ready" env1 env2 (by decide)]

/-- Witness for C11: the pending order "ORD-1" on table "5" marked ready twice. -/
theorem updateOrderStatus_ready_idempotent_witness :
    (∃ o1, (updateOrderStatus (storeOccupied5 250) "ORD-1" "ready" envUpdateOk).2 =
        .ok (some o1) ∧ o1.order_id = "ORD-1" ∧ o1.status = "ready") ∧
    forgetUpdatedAt
        (updateOrderStatus (updateOrderStatus (storeOccupied5 250) "ORD-1" "ready"
          envUpdateOk).1 "ORD-1" "ready" envUpdateLater).1 =
      forgetUpdatedAt (updateOrderStatus (storeOccupied5 250) "ORD-1" "ready" envUpdateOk).1 :=
  ⟨(updateOrderStatus_ready_idempotent (storeOccupied5 250) "ORD-1" envUpdateOk envUpdateLater
      (orderRow "ORD-1" "5" 250 "pending" "pending") (by decide) rfl rfl).1,
   (updateOrderStatus_ready_idempotent (storeOccupied5 250) "ORD-1" envUpdateOk envUpdateLater
      (orderRow "ORD-1" "5" 250 "pending" "pending") (by decide) rfl rfl).2.2.2⟩

/-! ## C12 -/

/-- C12 as stated fails: with no order "ORD-404" in the store,
`updateOrderStatus("ORD-404", 'ready')` returns normally (with `undefined`) and
signals nothing. -/
theorem updateOrderStatus_unknown_returns :
    (storeOccupied5 250).orders.find? (fun o => o.order_id = "ORD-404") = none ∧
    (updateOrderStatus (storeOccupied5 250) "ORD-404" "ready" envUpdateOk).2 = .ok none ∧
    (updateOrderStatus (storeOccupied5 250) "ORD-404" "ready" envUpdateOk).1 =
      storeOccupied5 250 := by
  decide

/-- C12 amended: for an `orderId` that matches no order in the store,
`updateOrderStatus` signals no NotFound: when the store request succeeds it
returns normally with no order (`data[0]` is `undefined`), and in every case
the store is left unchanged; the only error it can throw is the one the store
reports. -/
theorem updateOrderStatus_unknown_no_error (s : Store) (orderId status : String)
    (env : UpdateOrderEnv)
    (hfind : s.orders.find? (fun o => o.order_id = orderId) = none) :
    (updateOrderStatus s orderId status env).1 = s ∧
    (env.outcome = none → (updateOrderStatus s orderId status env).2 = .ok none) ∧
    (∀ msg, env.outcome = some msg →
      (updateOrderStatus s orderId status env).2 = .error (.upstream msg)) := by
  cases hout : env.outcome with
  | some msg =>
    rw [updateOrderStatus_of_error s orderId status env msg hout]
    refine ⟨rfl, fun h => by simp at h, ?_⟩
    intro m hm
    rw [Option.some.inj hm]
  | none =>
    rw [updateOrderStatus_of_ok s orderId status env hout, hfind,
      ordersAfterUpdate_of_no_match _ _ _ hfind]
    exact ⟨rfl, fun _ => rfl, fun m hm => by simp at hm⟩

/-- Witness for C12 amended: the unknown id "ORD-404". -/
theorem updateOrderStatus_unknown_no_error_witness :
    (updateOrderStatus (storeOccupied5 250) "ORD-404" "ready" envUpdateOk).1 =
      storeOccupied5 250 ∧
    (updateOrderStatus (storeOccupied5 250) "ORD-404" "ready" envUpdateOk).2 = .ok none :=
  ⟨(updateOrderStatus_unknown_no_error (storeOccupied5 250) "ORD-404" "ready" envUpdateOk
      (by decide)).1,
   (updateOrderStatus_unknown_no_error (storeOccupied5 250) "ORD-404" "ready" envUpdateOk
      (by decide)).2.1 rfl⟩

/-! ## C13 -/

/-- C13: when no line item is selected, `sendOrderToKitchen` builds no
`createOrder` call, shows the error notification 'Please select at least one
item', and leaves the store (orders, tables, payments) exactly as it was,
whatever the store would have answered. -/
theorem sendOrderToKitchen_empty_rejected (config : Config) (h : config.selectedItems = []) :
    sendOrderToKitchen_request config = none ∧
    ∀ s env, sendOrderToKitchen config s env =
      (s, { message := "Please select at least one item", type := "error" }) := by
  have hreq : sendOrderToKitchen_request config = none := by
    simp [sendOrderToKitchen_request, objectValues_length, h]
  refine ⟨hreq, ?_⟩
  intro s env
  simp only [sendOrderToKitchen, hreq]

/-- Witness for C13: the empty selection on table "5" against the store with
the vacant table "5". -/
theorem sendOrderToKitchen_empty_rejected_witness :
    sendOrderToKitchen_request configEmpty = none ∧
    sendOrderToKitchen configEmpty storeVacant5 envCreateOk =
      (storeVacant5, { message := "Please select at least one item", type := "error" }) :=
  ⟨(sendOrderToKitchen_empty_rejected configEmpty rfl).1,
   (sendOrderToKitchen_empty_rejected configEmpty rfl).2 storeVacant5 envCreateOk⟩

/-! ## Helper lemmas: the order form -/

theorem quantitiesOk_objectSet {obj : List (String × LineItem)} (h : QuantitiesOk obj)
    (key : String) (value : LineItem) (hv : ∃ n : ℤ, 1 ≤ n ∧ value.quantity = (n : ℚ)) :
    QuantitiesOk (objectSet obj key value) := by
  intro e he
  unfold objectSet at he
  split at he
  · rw [List.mem_map] at he
    obtain ⟨e0, he0, rfl⟩ := he
    by_cases hc : e0.1 = key
    · simpa [hc] using hv
    · simpa [hc] using h e0 he0
  · rw [List.mem_append, List.mem_singleton] at he
    rcases he with he | rfl
    · exact h e he
    · exact hv

theorem quantitiesOk_objectDelete {obj : List (String × LineItem)} (h : QuantitiesOk obj)
    (key : String) : QuantitiesOk (objectDelete obj key) := by
  intro e he
  exact h e (List.mem_of_mem_filter he)

theorem quantitiesOk_updateItemQuantity {form : OrderForm}
    (h : QuantitiesOk form.config.selectedItems) (itemId : String) (change : ℤ) :
    QuantitiesOk (updateItemQuantity form itemId change).config.selectedItems := by
  unfold updateItemQuantity
  split
  · exact h
  · split
    · exact h
    · dsimp only
      split
      · rename_i hpos
        refine quantitiesOk_objectSet h _ _ ⟨_, ?_, rfl⟩
        omega
      · exact quantitiesOk_objectDelete h _

theorem quantitiesOk_applyAction {form : OrderForm}
    (h : QuantitiesOk form.config.selectedItems) (action : FormAction) :
    QuantitiesOk (applyAction form action).config.selectedItems := by
  cases action with
  | click itemId change => exact quantitiesOk_updateItemQuantity h itemId change
  | refresh menu => exact h

theorem quantitiesOk_runActions (actions : List FormAction) {form : OrderForm}
    (h : QuantitiesOk form.config.selectedItems) :
    QuantitiesOk (runActions form actions).config.selectedItems := by
  induction actions generalizing form with
  | nil => exact h
  | cons a rest ih => exact ih (quantitiesOk_applyAction h a)

/-! ## C14 -/

/-- C14: starting from the empty selection set by `openCreateOrderModal`, after
any sequence of `updateItemQuantity` calls with an integer change (in particular
+1 or -1), interleaved with any menu refreshes, every entry of
`config.selectedItems` has an integer quantity of at least 1, and so has every
line item that `sendOrderToKitchen` then submits. -/
theorem selectedItems_quantity_ge_one (menu : List MenuItem) (tableNo : String)
    (actions : List FormAction) :
    (∀ e ∈ (runActions (openCreateOrderModal menu tableNo) actions).config.selectedItems,
      ∃ n : ℤ, 1 ≤ n ∧ e.2.quantity = (n : ℚ)) ∧
    ∀ orderData,
      sendOrderToKitchen_request (runActions (openCreateOrderModal menu tableNo) actions).config =
        some orderData →
      ∀ l ∈ orderData.items, 1 ≤ l.quantity ∧ ∃ n : ℤ, 1 ≤ n ∧ l.quantity = (n : ℚ) := by
  have hinv : QuantitiesOk
      (runActions (openCreateOrderModal menu tableNo) actions).config.selectedItems :=
    quantitiesOk_runActions actions (fun e he => by simp [openCreateOrderModal] at he)
  refine ⟨hinv, ?_⟩
  intro orderData hreq l hl
  have hitems : orderData.items =
      objectValues (runActions (openCreateOrderModal menu tableNo) actions).config.selectedItems := by
    unfold sendOrderToKitchen_request at hreq
    dsimp only at hreq
    split at hreq
    · exact absurd hreq (by simp)
    · rw [← Option.some.inj hreq]
  rw [hitems, mem_objectValues] at hl
  obtain ⟨e, he, rfl⟩ := hl
  obtain ⟨n, hn, hq⟩ := hinv e he
  refine ⟨?_, n, hn, hq⟩
  rw [hq]
  exact_mod_cast hn

/-- Witness for C14: two clicks of "+" on ITEM-1, one "+" and two "-" on
ITEM-2, with a menu refresh in between; the selection holds ITEM-1 alone, with
the integer quantity 2. -/
theorem selectedItems_quantity_ge_one_witness :
    (runActions (openCreateOrderModal menuThree "5") clicksTable5).config.selectedItems =
      [("ITEM-1", { id := "ITEM-1", name := "Dal", price := 100, quantity := 2 })] ∧
    ∃ n : ℤ, 1 ≤ n ∧
      (("ITEM-1", { id := "ITEM-1", name := "Dal", price := 100, quantity := 2 }) :
        String × LineItem).2.quantity = (n : ℚ) :=
  ⟨by decide,
    (selectedItems_quantity_ge_one menuThree "5" clicksTable5).1
      ("ITEM-1", { id := "ITEM-1", name := "Dal", price := 100, quantity := 2 })
      (by decide)⟩

/-! ## C15 -/

/-- C15: `completePayment(orderId, method)`, in both front ends.  If the order is
found in the cached order list, the payment operation is called with the order
reference `orderId` and with the amount recorded as that order's
`total_amount` (main.js: the store reached is the one `processPayment` leaves
for that argument, whether or not the receipt step then throws); if it is not
found, no payment operation is issued, nothing is shown and the store is
untouched. -/
theorem completePayment_sends_order_total (orders : List Order) (orderId method : String) :
    (∀ order, orders.find? (fun o => o.order_id = orderId) = some order →
      (∃ paymentData, completePayment_request orders orderId method = some paymentData ∧
        paymentData.amount = order.total_amount ∧ paymentData.order_id = orderId ∧
        paymentData.method = method ∧
        ∀ s env receiptThrows, (completePayment orders s orderId method env receiptThrows).1 =
          (processPayment s paymentData env).1) ∧
      (∃ params, Script.completePayment_request orders orderId method =
          some ("processPayment", params) ∧
        params.amount = order.total_amount ∧ params.orderId = orderId ∧
        params.method = method)) ∧
    (orders.find? (fun o => o.order_id = orderId) = none →
      completePayment_request orders orderId method = none ∧
      Script.completePayment_request orders orderId method = none ∧
      ∀ s env receiptThrows,
        completePayment orders s orderId method env receiptThrows = (s, [])) := by
  constructor
  · intro order hfind
    have hreq : completePayment_request orders orderId method =
        some { order_id := orderId, amount := order.total_amount, method := method,
               cashier := "System" } := by
      simp only [completePayment_request, hfind]
    refine ⟨⟨_, hreq, rfl, rfl, rfl, ?_⟩,
      ⟨{ orderId := orderId, amount := order.total_amount, method := method,
         cashier := "Staff" }, ?_, rfl, rfl, rfl⟩⟩
    · intro s env receiptThrows
      simp only [completePayment, hreq]
      split <;> simp_all
    · simp only [Script.completePayment_request, hfind]
  · intro hfind
    have hreq : completePayment_request orders orderId method = none := by
      simp only [completePayment_request, hfind]
    refine ⟨hreq, ?_, ?_⟩
    · simp only [Script.completePayment_request, hfind]
    · intro s env receiptThrows
      simp only [completePayment, hreq]

/-- Witness for C15: order "ORD-1" (total 250) is in the cache and is settled
with amount 250; "ORD-404" is not and nothing is sent. -/
theorem completePayment_sends_order_total_witness :
    (∃ paymentData, completePayment_request cachedOrders "ORD-1" "cash" = some paymentData ∧
      paymentData.amount = 250 ∧ paymentData.order_id = "ORD-1") ∧
    completePayment_request cachedOrders "ORD-404" "cash" = none :=
  ⟨(((completePayment_sends_order_total cachedOrders "ORD-1" "cash").1
      (orderRow "ORD-1" "5" 250 "pending" "pending") (by decide)).1).imp
      (fun _ h => ⟨h.1, h.2.1, h.2.2.1⟩),
   ((completePayment_sends_order_total cachedOrders "ORD-404" "cash").2 (by decide)).1⟩

/-! ## Helper lemmas: the order rows after each method -/

theorem ordersAfterUpdate_fixed (orders : List Order) (orderId : String) (u : OrderUpdates) :
    (ordersAfterUpdate orders orderId u).map
        (fun o => (o.order_id, o.total_amount, o.items)) =
      orders.map (fun o => (o.order_id, o.total_amount, o.items)) := by
  simp only [ordersAfterUpdate, List.map_map]
  apply List.map_congr_left
  intro o _
  by_cases hc : o.order_id = orderId <;> simp [hc, applyOrderUpdates]

theorem processPayment_orders (s : Store) (paymentData : PaymentData)
    (env : ProcessPaymentEnv) :
    (processPayment s paymentData env).1.orders = s.orders ∨
    (processPayment s paymentData env).1.orders =
      ordersAfterUpdate s.orders paymentData.order_id (settleUpdates env) := by
  cases hpay : env.paymentOutcome with
  | some msg =>
    rw [processPayment_of_payment_error s paymentData env msg hpay]
    exact Or.inl rfl
  | none =>
    cases hord : env.orderOutcome with
    | some msg =>
      rw [processPayment_of_order_error s paymentData env msg hpay hord]
      exact Or.inl rfl
    | none =>
      cases hfind : s.orders.find? (fun o => o.order_id = paymentData.order_id) with
      | none =>
        rw [processPayment_of_no_order s paymentData env hfind hpay hord]
        exact Or.inr rfl
      | some o =>
        cases htab : env.tableOutcome with
        | some msg =>
          rw [processPayment_of_table_error s paymentData env o msg hfind hpay hord htab]
          exact Or.inr rfl
        | none =>
          rw [processPayment_of_ok s paymentData env o hfind hpay hord htab]
          exact Or.inr rfl

theorem updateOrderStatus_orders (s : Store) (orderId status : String)
    (env : UpdateOrderEnv) :
    (updateOrderStatus s orderId status env).1.orders = s.orders ∨
    (updateOrderStatus s orderId status env).1.orders =
      ordersAfterUpdate s.orders orderId (statusUpdates status env) := by
  cases hout : env.outcome with
  | some msg =>
    rw [updateOrderStatus_of_error s orderId status env msg hout]
    exact Or.inl rfl
  | none =>
    rw [updateOrderStatus_of_ok s orderId status env hout]
    exact Or.inr rfl

theorem updateTableStatus_orders (s : Store) (tableNo status : String)
    (orderId : Option String) (now : Nat) (outcome : Outcome) :
    (updateTableStatus s tableNo status orderId now outcome).1.orders = s.orders ∧
    (updateTableStatus s tableNo status orderId now outcome).1.payments = s.payments := by
  cases outcome <;> exact ⟨rfl, rfl⟩

/-! ## C16 -/

/-- C16: whatever the store answers, `updateOrderStatus`, `processPayment` and
`updateTableStatus` leave the order rows in place and leave the `total_amount`
and the `items` of every order as they were. -/
theorem total_and_items_fixed (s : Store) :
    (∀ orderId status env,
      (updateOrderStatus s orderId status env).1.orders.map
          (fun o => (o.order_id, o.total_amount, o.items)) =
        s.orders.map (fun o => (o.order_id, o.total_amount, o.items))) ∧
    (∀ paymentData env,
      (processPayment s paymentData env).1.orders.map
          (fun o => (o.order_id, o.total_amount, o.items)) =
        s.orders.map (fun o => (o.order_id, o.total_amount, o.items))) ∧
    (∀ tableNo status orderId now outcome,
      (updateTableStatus s tableNo status orderId now outcome).1.orders.map
          (fun o => (o.order_id, o.total_amount, o.items)) =
        s.orders.map (fun o => (o.order_id, o.total_amount, o.items))) := by
  refine ⟨?_, ?_, ?_⟩
  · intro orderId status env
    rcases updateOrderStatus_orders s orderId status env with h | h
    · rw [h]
    · rw [h, ordersAfterUpdate_fixed]
  · intro paymentData env
    rcases processPayment_orders s paymentData env with h | h
    · rw [h]
    · rw [h, ordersAfterUpdate_fixed]
  · intro tableNo status orderId now outcome
    rw [(updateTableStatus_orders s tableNo status orderId now outcome).1]

/-- Example for C16: settling order "ORD-1" (total 250) changes its status and
leaves its total at 250. -/
theorem total_and_items_fixed_example :
    (processPayment (storeOccupied5 250) (paymentDataOrd1 250) envPayOk).1.orders.map
      (fun o => (o.order_id, o.status, o.total_amount, o.items)) =
      [("ORD-1", "completed", 250, [])] := by
  decide

/-! ## Helper lemmas: decimal identifiers -/

theorem digitChar_value (d : Nat) (h : d < 10) : (Nat.digitChar d).toNat - 48 = d := by
  interval_cases d <;> rfl

theorem toDigitsCore_append (fuel n : Nat) (ds : List Char) :
    Nat.toDigitsCore 10 fuel n ds = Nat.toDigitsCore 10 fuel n [] ++ ds := by
  induction fuel generalizing n ds with
  | zero => rfl
  | succ fuel ih =>
    simp only [Nat.toDigitsCore]
    split
    · rfl
    · rw [ih (n / 10) (Nat.digitChar (n % 10) :: ds), ih (n / 10) [Nat.digitChar (n % 10)]]
      simp

theorem decodeDigits_append_singleton (xs : List Char) (c : Char) :
    decodeDigits (xs ++ [c]) = 10 * decodeDigits xs + (c.toNat - 48) := by
  simp [decodeDigits, List.foldl_append]

theorem decodeDigits_toDigitsCore (fuel n : Nat) (h : n < fuel) :
    decodeDigits (Nat.toDigitsCore 10 fuel n []) = n := by
  induction fuel generalizing n with
  | zero => omega
  | succ fuel ih =>
    simp only [Nat.toDigitsCore]
    split
    · rename_i hz
      have hlt : n < 10 := by omega
      simp only [decodeDigits, List.foldl_cons, List.foldl_nil]
      rw [digitChar_value _ (Nat.mod_lt _ (by decide))]
      omega
    · rename_i hz
      rw [toDigitsCore_append, decodeDigits_append_singleton,
        ih (n / 10) (by omega), digitChar_value _ (Nat.mod_lt _ (by decide))]
      omega

theorem decodeDigits_repr (n : Nat) : decodeDigits (Nat.repr n).data = n := by
  simp only [Nat.repr, Nat.toDigits, List.asString]
  exact decodeDigits_toDigitsCore (n + 1) n (by omega)

theorem orderIdOf_injective (a b : Nat) (h : orderIdOf a = orderIdOf b) : a = b := by
  have hdata := congrArg String.data h
  simp only [orderIdOf, String.data_append, List.append_cancel_left_eq] at hdata
  have hrepr : (Nat.repr a).data = (Nat.repr b).data := hdata
  rw [← decodeDigits_repr a, ← decodeDigits_repr b, hrepr]

/-! ## Helper lemmas: `createOrder` for every store answer -/

theorem createOrder_of_insert_error (s : Store) (orderData : OrderData) (env : CreateOrderEnv)
    (msg : String) (hins : env.insertOutcome = some msg) :
    createOrder s orderData env = (s, .error (.upstream msg)) := by
  simp only [createOrder, insertOrder, hins]

theorem createOrder_orders_of_insert_ok (s : Store) (orderData : OrderData)
    (env : CreateOrderEnv) (hins : env.insertOutcome = none) :
    (createOrder s orderData env).1.orders =
      s.orders ++ [newOrderRow orderData (orderIdOf env.idNow) env.timestampNow] := by
  cases htab : env.tableOutcome with
  | some msg => rw [createOrder_of_table_error s orderData env msg hins htab]
  | none => rw [createOrder_of_ok s orderData env hins htab]

theorem createOrder_payments (s : Store) (orderData : OrderData) (env : CreateOrderEnv) :
    (createOrder s orderData env).1.payments = s.payments := by
  cases hins : env.insertOutcome with
  | some msg => rw [createOrder_of_insert_error s orderData env msg hins]
  | none =>
    cases htab : env.tableOutcome with
    | some msg => rw [createOrder_of_table_error s orderData env msg hins htab]
    | none => rw [createOrder_of_ok s orderData env hins htab]

theorem sendOrderToKitchen_store (config : Config) (s : Store) (env : CreateOrderEnv) :
    (sendOrderToKitchen config s env).1 =
      match sendOrderToKitchen_request config with
      | none => s
      | some orderData => (createOrder s orderData env).1 := by
  unfold sendOrderToKitchen
  split
  · rfl
  · split <;> simp_all

/-! ## C17 -/

/-- C17: `sendOrderToKitchen` either leaves the order rows as they were or appends
exactly one row, and that row has status 'pending' and payment_status
'pending'; with a non-empty selection and a successful insert the row is
appended, under the generated order id. -/
theorem sendOrderToKitchen_inserts_pending (config : Config) (s : Store)
    (env : CreateOrderEnv) :
    ((sendOrderToKitchen config s env).1.orders = s.orders ∨
      ∃ o, (sendOrderToKitchen config s env).1.orders = s.orders ++ [o] ∧
        o.status = "pending" ∧ o.payment_status = "pending") ∧
    (config.selectedItems ≠ [] → env.insertOutcome = none →
      ∃ o, (sendOrderToKitchen config s env).1.orders = s.orders ++ [o] ∧
        o.status = "pending" ∧ o.payment_status = "pending" ∧
        o.order_id = orderIdOf env.idNow ∧ o.items = objectValues config.selectedItems) := by
  rw [sendOrderToKitchen_store]
  by_cases hsel : config.selectedItems = []
  · have hreq : sendOrderToKitchen_request config = none := by
      simp [sendOrderToKitchen_request, objectValues_length, hsel]
    rw [hreq]
    exact ⟨Or.inl rfl, fun h => absurd hsel h⟩
  · have hlen : ¬ (objectValues config.selectedItems).length = 0 := by
      rw [objectValues_length]
      simpa using hsel
    have hreq : sendOrderToKitchen_request config =
        some { table_no := config.selectedTable, customer_name := "Customer",
               items := objectValues config.selectedItems,
               total_amount := orderTotal (objectValues config.selectedItems),
               status := "pending", payment_status := "pending" } := by
      simp only [sendOrderToKitchen_request, hlen, if_false]
    rw [hreq]
    dsimp only
    cases hins : env.insertOutcome with
    | some msg =>
      rw [createOrder_of_insert_error _ _ env msg hins]
      exact ⟨Or.inl rfl, fun _ h => by simp at h⟩
    | none =>
      rw [createOrder_orders_of_insert_ok _ _ env hins]
      exact ⟨Or.inr ⟨_, rfl, rfl, rfl⟩, fun _ _ => ⟨_, rfl, rfl, rfl, rfl, rfl⟩⟩

/-- Witness for C17: the order for table "5" is inserted as 'pending' / 'pending'. -/
theorem sendOrderToKitchen_inserts_pending_witness :
    ∃ o, (sendOrderToKitchen configTable5 storeVacant5 envCreateOk).1.orders =
        storeVacant5.orders ++ [o] ∧
      o.status = "pending" ∧ o.payment_status = "pending" ∧
      o.order_id = orderIdOf envCreateOk.idNow ∧
      o.items = objectValues configTable5.selectedItems :=
  (sendOrderToKitchen_inserts_pending configTable5 storeVacant5 envCreateOk).2
    (by decide) rfl

/-! ## C18 -/

/-- C18 as stated fails: table "5" is occupied by the pending order "ORD-1";
`createOrder` on table "5" returns normally and the table's `current_order_id`
is overwritten with the new order's id, while "ORD-1" stays in the store. -/
theorem createOrder_overwrites_occupied :
    (storeOccupied5 250).tables.map (fun t => (t.table_no, t.status, t.current_order_id)) =
      [("5", "occupied", some "ORD-1")] ∧
    (storeOccupied5 250).orders.map (fun o => (o.order_id, o.status)) =
      [("ORD-1", "pending")] ∧
    (createOrder (storeOccupied5 250) orderDataTable5 envCreateSecond).2.isOk = true ∧
    (createOrder (storeOccupied5 250) orderDataTable5 envCreateSecond).1.tables.map
      (fun t => (t.table_no, t.status, t.current_order_id)) =
      [("5", "occupied", some "ORD-1700000050000")] ∧
    (createOrder (storeOccupied5 250) orderDataTable5 envCreateSecond).1.orders.map
      (fun o => (o.order_id, o.status)) =
      [("ORD-1", "pending"), ("ORD-1700000050000", "pending")] := by
  decide

/-- C18 amended: `createOrder` reads no table before writing.  For a table that
is already 'occupied' by a live order, when both store writes succeed
`createOrder` on that table returns the new order, every row of that table
number ends with `current_order_id` equal to the new order's id, the earlier
order is still in the store, unchanged, and the table no longer references it
unless the new order was given the earlier order's id. -/
theorem createOrder_no_occupancy_check (s : Store) (orderData : OrderData)
    (env : CreateOrderEnv) (t : Table) (o : Order)
    (ht : t ∈ s.tables) (hno : t.table_no = orderData.table_no)
    (_hocc : t.status = "occupied") (_hcur : t.current_order_id = some o.order_id)
    (ho : o ∈ s.orders) (_hlive : o.status ≠ "completed")
    (hins : env.insertOutcome = none) (htab : env.tableOutcome = none) :
    (∃ order, (createOrder s orderData env).2 = .ok (some order) ∧
      order.order_id = orderIdOf env.idNow) ∧
    (∃ t1 ∈ (createOrder s orderData env).1.tables, t1.table_no = t.table_no) ∧
    (∀ t1 ∈ (createOrder s orderData env).1.tables, t1.table_no = t.table_no →
      t1.status = "occupied" ∧ t1.current_order_id = some (orderIdOf env.idNow)) ∧
    o ∈ (createOrder s orderData env).1.orders ∧
    (orderIdOf env.idNow ≠ o.order_id →
      ∀ t1 ∈ (createOrder s orderData env).1.tables, t1.table_no = t.table_no →
        t1.current_order_id ≠ some o.order_id) := by
  rw [createOrder_of_ok s orderData env hins htab]
  have hrows : ∀ t1 ∈ tablesAfterUpdate s.tables orderData.table_no "occupied"
      (some (orderIdOf env.idNow)) env.tableNow, t1.table_no = t.table_no →
      t1.status = "occupied" ∧ t1.current_order_id = some (orderIdOf env.idNow) := by
    intro t1 ht1 hno1
    obtain ⟨t0, _, h0, hcase⟩ := mem_tablesAfterUpdate ht1
    rcases hcase with ⟨_, rfl⟩ | ⟨hne, rfl⟩
    · exact ⟨rfl, rfl⟩
    · exact absurd (hno1.trans hno) hne
  refine ⟨⟨_, rfl, rfl⟩, ?_, hrows, List.mem_append_left _ ho, ?_⟩
  · refine ⟨setTableFields "occupied" (some (orderIdOf env.idNow)) env.tableNow t, ?_, rfl⟩
    simp only [tablesAfterUpdate, List.mem_map]
    exact ⟨t, ht, by rw [if_pos hno]⟩
  · intro hid t1 ht1 hno1 hcur
    rw [(hrows t1 ht1 hno1).2] at hcur
    exact hid (Option.some.inj hcur)

/-- Witness for C18 amended: a second order on the occupied table "5". -/
theorem createOrder_no_occupancy_check_witness :
    (∃ order, (createOrder (storeOccupied5 250) orderDataTable5 envCreateSecond).2 =
        .ok (some order) ∧ order.order_id = orderIdOf envCreateSecond.idNow) ∧
    orderRow "ORD-1" "5" 250 "pending" "pending" ∈
      (createOrder (storeOccupied5 250) orderDataTable5 envCreateSecond).1.orders ∧
    (createOrder (storeOccupied5 250) orderDataTable5 envCreateSecond).1.tables.map
      (fun t => (t.table_no, t.current_order_id)) = [("5", some "ORD-1700000050000")] :=
  ⟨(createOrder_no_occupancy_check (storeOccupied5 250) orderDataTable5 envCreateSecond
      { table_no := "5", capacity := 4, status := "occupied",
        current_order_id := some "ORD-1", updated_at := none }
      (orderRow "ORD-1" "5" 250 "pending" "pending")
      (by decide) rfl rfl rfl (by decide) (by decide) rfl rfl).1,
   (createOrder_no_occupancy_check (storeOccupied5 250) orderDataTable5 envCreateSecond
      { table_no := "5", capacity := 4, status := "occupied",
        current_order_id := some "ORD-1", updated_at := none }
      (orderRow "ORD-1" "5" 250 "pending" "pending")
      (by decide) rfl rfl rfl (by decide) (by decide) rfl rfl).2.2.2.1,
   by decide⟩

/-! ## Helper lemmas: the payment rows after each method -/

theorem addTable_payments (s : Store) (tableData : Table) (outcome : Outcome) :
    (addTable s tableData outcome).1.payments = s.payments := by
  cases outcome <;> rfl

theorem updateOrderStatus_payments (s : Store) (orderId status : String)
    (env : UpdateOrderEnv) : (updateOrderStatus s orderId status env).1.payments = s.payments := by
  cases hout : env.outcome with
  | some msg => rw [updateOrderStatus_of_error s orderId status env msg hout]
  | none => rw [updateOrderStatus_of_ok s orderId status env hout]

theorem processPayment_payments (s : Store) (paymentData : PaymentData)
    (env : ProcessPaymentEnv) :
    (processPayment s paymentData env).1.payments = s.payments ∨
    (processPayment s paymentData env).1.payments =
      s.payments ++ [newPaymentRow paymentData (paymentIdOf env.idNow) env.paymentTime] := by
  cases hpay : env.paymentOutcome with
  | some msg =>
    rw [processPayment_of_payment_error s paymentData env msg hpay]
    exact Or.inl rfl
  | none =>
    cases hord : env.orderOutcome with
    | some msg =>
      rw [processPayment_of_order_error s paymentData env msg hpay hord]
      exact Or.inr rfl
    | none =>
      cases hfind : s.orders.find? (fun o => o.order_id = paymentData.order_id) with
      | none =>
        rw [processPayment_of_no_order s paymentData env hfind hpay hord]
        exact Or.inr rfl
      | some o =>
        cases htab : env.tableOutcome with
        | some msg =>
          rw [processPayment_of_table_error s paymentData env o msg hfind hpay hord htab]
          exact Or.inr rfl
        | none =>
          rw [processPayment_of_ok s paymentData env o hfind hpay hord htab]
          exact Or.inr rfl

theorem call_payments {s s1 : Store} (h : Call s s1) :
    ∃ extra, s1.payments = s.payments ++ extra := by
  cases h with
  | addTable tableData outcome => exact ⟨[], by rw [addTable_payments, List.append_nil]⟩
  | updateTableStatus tableNo status orderId now outcome =>
    exact ⟨[], by rw [(updateTableStatus_orders s tableNo status orderId now outcome).2,
      List.append_nil]⟩
  | createOrder orderData env => exact ⟨[], by rw [createOrder_payments, List.append_nil]⟩
  | updateOrderStatus orderId status env =>
    exact ⟨[], by rw [updateOrderStatus_payments, List.append_nil]⟩
  | processPayment paymentData env =>
    rcases processPayment_payments s paymentData env with h | h
    · exact ⟨[], by rw [h, List.append_nil]⟩
    · exact ⟨_, h⟩

/-! ## C19 -/

/-- C19: after any sequence of `restaurantDB` calls (`addTable`,
`updateTableStatus`, `createOrder`, `updateOrderStatus`, `processPayment`, with
any arguments and whether they return or throw) the payment rows are the
previous payment rows, in place and unchanged, followed by the rows appended
since; so every Payment in the store before is in the store after. -/
theorem payments_append_only (s s1 : Store) (h : Relation.ReflTransGen Call s s1) :
    (∃ extra, s1.payments = s.payments ++ extra) ∧ ∀ p ∈ s.payments, p ∈ s1.payments := by
  have hpre : ∃ extra, s1.payments = s.payments ++ extra := by
    induction h with
    | refl => exact ⟨[], (List.append_nil _).symm⟩
    | tail _ hstep ih =>
      obtain ⟨e1, h1⟩ := ih
      obtain ⟨e2, h2⟩ := call_payments hstep
      exact ⟨e1 ++ e2, by rw [h2, h1, List.append_assoc]⟩
  refine ⟨hpre, ?_⟩
  intro p hp
  obtain ⟨extra, he⟩ := hpre
  rw [he]
  exact List.mem_append_left _ hp

/-- Witness for C19: after settling "ORD-1" (one Payment), a second settlement
and a status change keep that Payment first among the payment rows. -/
theorem payments_append_only_witness :
    ∃ extra,
      (updateOrderStatus
        (processPayment (processPayment (storeOccupied5 250) (paymentDataOrd1 250) envPayOk).1
          (paymentDataOrd1 250) envPayOkLater).1 "ORD-1" "ready" envUpdateOk).1.payments =
      (processPayment (storeOccupied5 250) (paymentDataOrd1 250) envPayOk).1.payments ++ extra :=
  (payments_append_only _ _
    (Relation.ReflTransGen.tail
      (Relation.ReflTransGen.single
        (Call.processPayment
          (processPayment (storeOccupied5 250) (paymentDataOrd1 250) envPayOk).1
          (paymentDataOrd1 250) envPayOkLater))
      (Call.updateOrderStatus _ "ORD-1" "ready" envUpdateOk))).1

/-! ## C20 -/

/-- C20 as stated fails: two `createOrder` calls that read the same clock value
generate the same `order_id`, and the store then holds two orders with that
id. -/
theorem createOrder_same_clock_same_id :
    orderIdOf envCreateOk.idNow = "ORD-1700000000000" ∧
    (orderIds storeTwoTables).Nodup ∧
    (createOrder storeTwoTables orderDataTable5 envCreateOk).2.isOk = true ∧
    (createOrder (createOrder storeTwoTables orderDataTable5 envCreateOk).1 orderDataTable7
      envCreateOk).2.isOk = true ∧
    orderIds (createOrder (createOrder storeTwoTables orderDataTable5 envCreateOk).1
      orderDataTable7 envCreateOk).1 = ["ORD-1700000000000", "ORD-1700000000000"] ∧
    ¬ (orderIds (createOrder (createOrder storeTwoTables orderDataTable5 envCreateOk).1
      orderDataTable7 envCreateOk).1).Nodup := by
  decide

/-- C20 amended: the generated order ids of two `createOrder` calls are different
exactly when the two clock readings are different; and a `createOrder` call,
whatever the store answers, keeps the order ids of the store pairwise distinct
provided the id of its clock reading is not yet in the store. -/
theorem orderIds_distinct_iff_clock_distinct (s : Store) (orderData : OrderData)
    (env : CreateOrderEnv) :
    (∀ a b : Nat, orderIdOf a ≠ orderIdOf b ↔ a ≠ b) ∧
    ((orderIds s).Nodup → orderIdOf env.idNow ∉ orderIds s →
      (orderIds (createOrder s orderData env).1).Nodup) := by
  constructor
  · intro a b
    exact ⟨fun h hab => h (by rw [hab]), fun h hid => h (orderIdOf_injective a b hid)⟩
  · intro hnodup hfresh
    cases hins : env.insertOutcome with
    | some msg =>
      rw [createOrder_of_insert_error s orderData env msg hins]
      exact hnodup
    | none =>
      simp only [orderIds] at hnodup hfresh ⊢
      rw [createOrder_orders_of_insert_ok s orderData env hins]
      simp only [List.map_append, List.map_cons, List.map_nil]
      rw [List.nodup_append]
      refine ⟨hnodup, List.nodup_singleton _, ?_⟩
      intro x hx hx1
      rw [List.mem_singleton] at hx1
      have hx2 : x = orderIdOf env.idNow := hx1
      exact hfresh (hx2 ▸ hx)

/-- Witness for C20 amended: a second order placed under a later clock reading
gets a new id and the ids stay distinct. -/
theorem orderIds_distinct_iff_clock_distinct_witness :
    orderIdOf envCreateOk.idNow ≠ orderIdOf envCreateSecond.idNow ∧
    (orderIds (createOrder (createOrder storeTwoTables orderDataTable5 envCreateOk).1
      orderDataTable7 envCreateSecond).1).Nodup :=
  ⟨((orderIds_distinct_iff_clock_distinct storeTwoTables orderDataTable5 envCreateOk).1
      envCreateOk.idNow envCreateSecond.idNow).2 (by decide),
   (orderIds_distinct_iff_clock_distinct
      (createOrder storeTwoTables orderDataTable5 envCreateOk).1 orderDataTable7
      envCreateSecond).2 (by decide) (by decide)⟩

/-! ## C21 -/

/-- C21: the update object of `updateOrderStatus` carries `completed_at` only
together with status 'completed', and the one of `processPayment` carries both;
so, whatever the store answers, an order row whose `completed_at` was changed
by either method has status 'completed' afterwards, and `updateOrderStatus`
with a status other than 'completed' leaves every `completed_at` as it was. -/
theorem completed_at_only_on_completion (s : Store) :
    (∀ status env, (statusUpdates status env).completed_at ≠ none →
      (statusUpdates status env).status = some "completed") ∧
    (∀ env, (settleUpdates env).completed_at ≠ none ∧
      (settleUpdates env).status = some "completed") ∧
    (∀ orderId status env,
      List.Forall₂ (fun o o1 => o1.completed_at ≠ o.completed_at → o1.status = "completed")
        s.orders (updateOrderStatus s orderId status env).1.orders) ∧
    (∀ paymentData env,
      List.Forall₂ (fun o o1 => o1.completed_at ≠ o.completed_at → o1.status = "completed")
        s.orders (processPayment s paymentData env).1.orders) ∧
    (∀ orderId status env, status ≠ "completed" →
      (updateOrderStatus s orderId status env).1.orders.map
          (fun o => (o.order_id, o.completed_at)) =
        s.orders.map (fun o => (o.order_id, o.completed_at))) := by
  refine ⟨?_, ?_, ?_, ?_, ?_⟩
  · intro status env h
    by_cases hc : status = "completed"
    · simp [statusUpdates, hc]
    · simp [statusUpdates, hc] at h
  · intro env
    exact ⟨by simp [settleUpdates], rfl⟩
  · intro orderId status env
    rcases updateOrderStatus_orders s orderId status env with h | h
    · rw [h, List.forall₂_same]
      intro o _ hne
      exact absurd rfl hne
    · rw [h, ordersAfterUpdate, List.forall₂_map_right_iff, List.forall₂_same]
      intro o _ hne
      by_cases hid : o.order_id = orderId
      · rw [if_pos hid] at hne ⊢
        by_cases hc : status = "completed"
        · simp [applyOrderUpdates, statusUpdates, hc]
        · simp [applyOrderUpdates, statusUpdates, hc] at hne
      · rw [if_neg hid] at hne
        exact absurd rfl hne
  · intro paymentData env
    rcases processPayment_orders s paymentData env with h | h
    · rw [h, List.forall₂_same]
      intro o _ hne
      exact absurd rfl hne
    · rw [h, ordersAfterUpdate, List.forall₂_map_right_iff, List.forall₂_same]
      intro o _ hne
      by_cases hid : o.order_id = paymentData.order_id
      · rw [if_pos hid]
        simp [applyOrderUpdates, settleUpdates]
      · rw [if_neg hid] at hne
        exact absurd rfl hne
  · intro orderId status env hst
    rcases updateOrderStatus_orders s orderId status env with h | h
    · rw [h]
    · rw [h, ordersAfterUpdate, List.map_map]
      apply List.map_congr_left
      intro o _
      by_cases hid : o.order_id = orderId
      · simp [hid, applyOrderUpdates, statusUpdates, hst]
      · simp [hid]

/-- Witness for C21: marking the pending order "ORD-1" ready leaves its
`completed_at` empty; settling it sets `completed_at` and status 'completed'. -/
theorem completed_at_only_on_completion_witness :
    (updateOrderStatus (storeOccupied5 250) "ORD-1" "ready" envUpdateOk).1.orders.map
        (fun o => (o.order_id, o.completed_at)) =
      (storeOccupied5 250).orders.map (fun o => (o.order_id, o.completed_at)) ∧
    (processPayment (storeOccupied5 250) (paymentDataOrd1 250) envPayOk).1.orders.map
        (fun o => (o.status, o.completed_at)) = [("completed", some 1700000100001)] :=
  ⟨(completed_at_only_on_completion (storeOccupied5 250)).2.2.2.2 "ORD-1" "ready" envUpdateOk
      (by decide),
   by decide⟩

/-! ## C22 -/

/-- C22 as stated fails: with name "Tea", category "Drinks" and the entered price
-5, `addMenuItem` (main.js) passes a menu item with price -5 to the store and
the row is inserted; and the non-negative price 0 is rejected. -/
theorem addMenuItem_accepts_negative_price :
    Main.addMenuItem_request "Tea" "Drinks" (some (-5)) "" =
      some { item_name := "Tea", category := "Drinks", price := -5, description := "",
             kitchen_station := "Main Kitchen", prep_time := 15, available := true } ∧
    (Main.addMenuItem [] "Tea" "Drinks" (some (-5)) "" 1700000000000 none).1.map
      (fun row => (row.item_id, row.data.price)) = [("ITEM-1700000000000", -5)] ∧
    Main.addMenuItem_request "Tea" "Drinks" (some 0) "" = none := by
  decide

/-- C22 amended: every menu item that `addMenuItem` (main.js) passes to the store
carries the entered price, which is a number other than 0, with a non-empty name
and category; a non-numeric price (and likewise the price 0) is rejected with
the error 'Please fill all required fields' and no store write; a negative
price entered with a name and a category is passed on. -/
theorem addMenuItem_price_nonzero (name category description : String) (price : Option ℚ) :
    (∀ itemData, Main.addMenuItem_request name category price description = some itemData →
      price = some itemData.price ∧ itemData.price ≠ 0 ∧
      itemData.item_name ≠ "" ∧ itemData.category ≠ "") ∧
    (price = none ∨ price = some 0 →
      Main.addMenuItem_request name category price description = none ∧
      ∀ menu now outcome,
        Main.addMenuItem menu name category price description now outcome =
          (menu, { message := "Please fill all required fields", type := "error" })) ∧
    (∀ p, price = some p → p < 0 → name ≠ "" → category ≠ "" →
      ∃ itemData, Main.addMenuItem_request name category price description = some itemData ∧
        itemData.price = p) := by
  refine ⟨?_, ?_, ?_⟩
  · intro itemData h
    cases price with
    | none => simp [Main.addMenuItem_request] at h
    | some p =>
      simp only [Main.addMenuItem_request] at h
      split at h
      · exact absurd h (by simp)
      · rename_i hc
        rw [not_or, not_or] at hc
        rw [← Option.some.inj h]
        exact ⟨rfl, hc.2.2, hc.1, hc.2.1⟩
  · intro h
    have hreq : Main.addMenuItem_request name category price description = none := by
      rcases h with h | h
      · simp [Main.addMenuItem_request, h]
      · simp [Main.addMenuItem_request, h]
    refine ⟨hreq, ?_⟩
    intro menu now outcome
    simp only [Main.addMenuItem, hreq]
  · intro p hp hneg hname hcat
    have hp0 : p ≠ 0 := ne_of_lt hneg
    refine ⟨{ item_name := name, category := category, price := p,
              description := description, kitchen_station := "Main Kitchen",
              prep_time := 15, available := true }, ?_, rfl⟩
    simp only [hp, Main.addMenuItem_request, hname, hcat, hp0, or_self, if_false]

/-- Witness for C22 amended: a non-numeric price is rejected without a write. -/
theorem addMenuItem_price_nonzero_witness :
    Main.addMenuItem_request "Tea" "Drinks" none "" = none ∧
    Main.addMenuItem [] "Tea" "Drinks" none "" 1700000000000 none =
      ([], { message := "Please fill all required fields", type := "error" }) :=
  ⟨((addMenuItem_price_nonzero "Tea" "Drinks" "" none).2.1 (Or.inl rfl)).1,
   ((addMenuItem_price_nonzero "Tea" "Drinks" "" none).2.1 (Or.inl rfl)).2 [] 1700000000000 none⟩

/-! ## C23 -/

/-- C23: `syncToGoogleSheets` (main.js) returns normally for every completion of
`restaurantDB.syncToGoogleSheets`, and calls it not at all when no webhook is
configured.  So `loadAllData` does the same whatever the mirror call did: when
the three reads succeed it shows no error, stores the loaded lists, re-renders
the tables view and each active view; and with no webhook it makes no mirror
call. -/
theorem mirror_failure_nonfatal (inp : LoadInputs) :
    (∀ webhook mirror, (syncToGoogleSheets webhook mirror).1 = .ok ()) ∧
    (∀ mirror, (syncToGoogleSheets "" mirror).2 = 0) ∧
    (∀ tables menu orders,
      inp.tables = .ok tables → inp.menu = .ok menu → inp.orders = .ok orders →
        (loadAllData inp).notification = none ∧
        (loadAllData inp).cache = some (tables, menu, orders) ∧
        (loadAllData inp).tablesShown = true ∧
        (loadAllData inp).menuShown = inp.menuActive ∧
        (loadAllData inp).kitchenShown.isSome = inp.kitchenActive ∧
        (loadAllData inp).checkoutShown = inp.checkoutActive) ∧
    (∀ mirror, loadAllData { inp with mirror := mirror } = loadAllData inp) ∧
    (inp.webhook = "" → (loadAllData inp).mirrorCalls = 0) := by
  have hsync : ∀ webhook mirror, syncToGoogleSheets webhook mirror =
      (.ok (), if webhook = "" then 0 else 1) := by
    intro webhook mirror
    unfold syncToGoogleSheets
    by_cases hw : webhook = ""
    · simp [hw]
    · cases mirror <;> simp [hw]
  refine ⟨?_, ?_, ?_, ?_, ?_⟩
  · intro webhook mirror
    rw [hsync]
  · intro mirror
    rw [hsync]
    rfl
  · intro tables menu orders ht hm ho
    unfold loadAllData
    rw [ht, hm, ho]
    by_cases hw : inp.webhook = ""
    · cases hk : inp.kitchenActive <;> simp [hw, hk]
    · cases hk : inp.kitchenActive <;> simp [hw, hk, hsync]
  · intro mirror
    unfold loadAllData
    simp only [hsync]
  · intro hw
    unfold loadAllData
    split
    · simp [hw]
    · rfl

/-- Witness for C23: the reads succeed and the mirror call fails; no error is
shown and the loaded lists are stored. -/
theorem mirror_failure_nonfatal_witness :
    (loadAllData loadInputsMirrorFails).notification = none ∧
    (loadAllData loadInputsMirrorFails).cache =
      some ((storeOccupied5 250).tables, menuThree, cachedOrders) ∧
    (loadAllData loadInputsMirrorFails).mirrorCalls = 1 :=
  ⟨((mirror_failure_nonfatal loadInputsMirrorFails).2.2.1 _ _ _ rfl rfl rfl).1,
   ((mirror_failure_nonfatal loadInputsMirrorFails).2.2.1 _ _ _ rfl rfl rfl).2.1,
   by decide⟩

/-! ## C25 -/

/-- C25: `transferTable(tableNo)` (script.js) hands the `transferTable` action to
`callAPI` only when a target was entered, the cached table with that `table_no`
exists and its `current_order_id` is non-empty, and then with `orderId` equal to
that `current_order_id`, `fromTable = tableNo` and `toTable` the entered target.
With no target entered it returns silently; with an unknown table or no active
order it shows 'No active order on this table' and issues nothing. -/
theorem transferTable_precondition (tables : List Table) (tableNo : String)
    (newTable : Option String) :
    (∀ action params, Script.transferTable tables tableNo newTable = .command action params →
      action = "transferTable" ∧ params.fromTable = tableNo ∧
      newTable = some params.toTable ∧ params.toTable ≠ "" ∧ params.orderId ≠ "" ∧
      ∃ table, tables.find? (fun t => t.table_no = tableNo) = some table ∧
        table.current_order_id = some params.orderId) ∧
    (newTable = none ∨ newTable = some "" →
      Script.transferTable tables tableNo newTable = .silent) ∧
    (∀ target, newTable = some target → target ≠ "" →
      (tables.find? (fun t => t.table_no = tableNo) = none ∨
        ∃ table, tables.find? (fun t => t.table_no = tableNo) = some table ∧
          (table.current_order_id = none ∨ table.current_order_id = some "")) →
      Script.transferTable tables tableNo newTable =
        .rejected { message := "No active order on this table", type := "error" }) ∧
    (∀ target table orderId, newTable = some target → target ≠ "" →
      tables.find? (fun t => t.table_no = tableNo) = some table →
      table.current_order_id = some orderId → orderId ≠ "" →
      Script.transferTable tables tableNo newTable =
        .command "transferTable"
          { orderId := orderId, fromTable := tableNo, toTable := target }) := by
  refine ⟨?_, ?_, ?_, ?_⟩
  · intro action params h
    unfold Script.transferTable at h
    split at h
    · simp at h
    · rename_i target
      split at h
      · simp at h
      · rename_i htarget
        split at h
        · simp at h
        · rename_i table hfind
          split at h
          · simp at h
          · rename_i orderId hcur
            split at h
            · simp at h
            · rename_i hid
              simp only [Script.TransferOutcome.command.injEq] at h
              obtain ⟨rfl, rfl⟩ := h
              exact ⟨rfl, rfl, rfl, htarget, hid, table, hfind, hcur⟩
  · intro h
    rcases h with h | h <;> simp [Script.transferTable, h]
  · intro target hnew htarget h
    rcases h with h | ⟨table, hfind, hcur | hcur⟩
    · simp [Script.transferTable, hnew, htarget, h]
    · simp [Script.transferTable, hnew, htarget, hfind, hcur]
    · simp [Script.transferTable, hnew, htarget, hfind, hcur]
  · intro target table orderId hnew htarget hfind hcur hid
    simp [Script.transferTable, hnew, htarget, hfind, hcur, hid]

/-- Witness for C25: table "5" holds "ORD-1" and is transferred to "7"; the
unknown table "9" issues nothing. -/
theorem transferTable_precondition_witness :
    Script.transferTable (storeOccupied5 250).tables "5" (some "7") =
      .command "transferTable" { orderId := "ORD-1", fromTable := "5", toTable := "7" } ∧
    Script.transferTable (storeOccupied5 250).tables "9" (some "7") =
      .rejected { message := "No active order on this table", type := "error" } :=
  ⟨(transferTable_precondition (storeOccupied5 250).tables "5" (some "7")).2.2.2 "7"
      { table_no := "5", capacity := 4, status := "occupied",
        current_order_id := some "ORD-1", updated_at := none }
      "ORD-1" rfl (by decide) (by decide) rfl (by decide),
   (transferTable_precondition (storeOccupied5 250).tables "9" (some "7")).2.2.1 "7" rfl
      (by decide) (Or.inl (by decide))⟩

/-! ## C26 -/

theorem fdiv_eq_floor (a : ℤ) (k : ℕ) : Int.fdiv a (k : ℤ) = ⌊(a : ℚ) / (k : ℚ)⌋ := by
  rw [Rat.floor_intCast_div_natCast, Int.fdiv_eq_ediv a (Int.natCast_nonneg k)]

/-- The whole minutes in `d` milliseconds: floor(d / 60000). -/
theorem minutes_eq_floor (d : ℤ) : Int.fdiv d 60000 = ⌊(d : ℚ) / 60000⌋ := by
  have := fdiv_eq_floor d 60000
  simpa using this

theorem hours_eq_floor (m : ℤ) : Int.fdiv m 60 = ⌊(m : ℚ) / 60⌋ := by
  have := fdiv_eq_floor m 60
  simpa using this

theorem days_eq_floor (h : ℤ) : Int.fdiv h 24 = ⌊(h : ℚ) / 24⌋ := by
  have := fdiv_eq_floor h 24
  simpa using this

theorem elapsedMinutes_eq (date now : ℤ) :
    elapsedMinutes date now = Int.fdiv (now - date) 60000 :=
  (minutes_eq_floor _).symm

theorem elapsedHours_eq (date now : ℤ) :
    elapsedHours date now = Int.fdiv (Int.fdiv (now - date) 60000) 60 := by
  unfold elapsedHours
  rw [elapsedMinutes_eq, hours_eq_floor]

theorem elapsedDays_eq (date now : ℤ) :
    elapsedDays date now = Int.fdiv (Int.fdiv (Int.fdiv (now - date) 60000) 60) 24 := by
  unfold elapsedDays
  rw [elapsedHours_eq, days_eq_floor]

/-- C26: `getTimeAgo` in terms of m = floor(d / 60000), h = floor(m / 60) and
D = floor(h / 24) for d = now − timestamp: 'just now' when the timestamp is
absent or m < 1 (a timestamp in the future included); 'm min ago' when
1 ≤ m < 60; 'h hour ago' / 'h hours ago' when 1 ≤ h < 24; 'D day ago' /
'D days ago' otherwise; the "s" is there exactly when the number exceeds 1. -/
theorem getTimeAgo_cases (date now : ℤ) :
    getTimeAgo none now = "just now" ∧
    (elapsedMinutes date now < 1 → getTimeAgo (some date) now = "just now") ∧
    (now < date → getTimeAgo (some date) now = "just now") ∧
    (1 ≤ elapsedMinutes date now → elapsedMinutes date now < 60 →
      getTimeAgo (some date) now = toString (elapsedMinutes date now) ++ " min ago") ∧
    (1 ≤ elapsedHours date now → elapsedHours date now < 24 →
      getTimeAgo (some date) now =
        toString (elapsedHours date now) ++ " hour" ++ pluralS (elapsedHours date now) ++
          " ago") ∧
    (24 ≤ elapsedHours date now →
      getTimeAgo (some date) now =
        toString (elapsedDays date now) ++ " day" ++ pluralS (elapsedDays date now) ++
          " ago") ∧
    (∀ n : ℤ, (pluralS n = "s" ↔ 1 < n) ∧ (pluralS n = "" ↔ ¬ 1 < n)) := by
  rw [elapsedDays_eq, elapsedHours_eq, elapsedMinutes_eq]
  have e60 : ∀ a : ℤ, Int.fdiv a 60 = a / 60 := fun a => Int.fdiv_eq_ediv a (by decide)
  have e24 : ∀ a : ℤ, Int.fdiv a 24 = a / 24 := fun a => Int.fdiv_eq_ediv a (by decide)
  have e60000 : ∀ a : ℤ, Int.fdiv a 60000 = a / 60000 := fun a => Int.fdiv_eq_ediv a (by decide)
  refine ⟨rfl, ?_, ?_, ?_, ?_, ?_, ?_⟩
  · intro hm
    simp only [getTimeAgo, hm, if_true]
  · intro hlt
    have hm : Int.fdiv (now - date) 60000 < 1 := by
      rw [e60000]
      omega
    simp only [getTimeAgo, hm, if_true]
  · intro h1 h60
    have hn : ¬ Int.fdiv (now - date) 60000 < 1 := by omega
    simp only [getTimeAgo, hn, h60, if_true, if_false]
  · intro h1 h24
    have hm60 : ¬ Int.fdiv (now - date) 60000 < 60 := by
      rw [e60] at h1
      omega
    have hn : ¬ Int.fdiv (now - date) 60000 < 1 := by omega
    simp only [getTimeAgo, hn, hm60, h24, if_true, if_false, pluralS]
  · intro h24
    have hh : ¬ Int.fdiv (Int.fdiv (now - date) 60000) 60 < 24 := by omega
    have hm60 : ¬ Int.fdiv (now - date) 60000 < 60 := by
      rw [e60] at h24
      omega
    have hn : ¬ Int.fdiv (now - date) 60000 < 1 := by omega
    simp only [getTimeAgo, hn, hm60, hh, if_false, pluralS]
  · intro n
    unfold pluralS
    by_cases h : n > 1
    · simp [h]
    · simp [h]

/-- Witness for C26: 45 seconds, 5 minutes, 1 hour, 3 hours, 1 day and 2 days
after the timestamp, and 1 minute before it. -/
theorem getTimeAgo_cases_witness :
    getTimeAgo (some 1700000000000) 1700000045000 = "just now" ∧
    getTimeAgo (some 1700000000000) 1700000300000 = "5 min ago" ∧
    getTimeAgo (some 1700000000000) 1700003600000 = "1 hour ago" ∧
    getTimeAgo (some 1700000000000) 1700010800000 = "3 hours ago" ∧
    getTimeAgo (some 1700000000000) 1700086400000 = "1 day ago" ∧
    getTimeAgo (some 1700000000000) 1700172800000 = "2 days ago" ∧
    getTimeAgo (some 1700000000000) 1699999940000 = "just now" :=
  ⟨by decide, by decide, by decide, by decide, by decide, by decide,
    (getTimeAgo_cases 1700000000000 1699999940000).2.2.1 (by decide)⟩

/-! ## Helper lemmas: one click on the order form -/

theorem lookup_setQtyInput (inputs : List (String × ℤ)) (itemId : String) (v v1 : ℤ)
    (h : inputs.lookup itemId = some v) :
    (setQtyInput inputs itemId v1).lookup itemId = some v1 := by
  induction inputs with
  | nil => simp at h
  | cons e rest ih =>
    obtain ⟨k, w⟩ := e
    by_cases hk : k = itemId
    · simp [setQtyInput, hk, List.lookup]
    · have hk1 : (itemId == k) = false := by
        simp only [beq_eq_false_iff_ne, ne_eq]
        exact fun h1 => hk h1.symm
      have hrest : rest.lookup itemId = some v := by
        simpa [List.lookup, hk1] using h
      simp [setQtyInput, hk, List.lookup, hk1, ih hrest]

theorem mem_keys_objectSet (obj : List (String × LineItem)) (key : String) (value : LineItem) :
    key ∈ (objectSet obj key value).map Prod.fst ∧
    ∀ e ∈ objectSet obj key value, e.1 = key → e.2 = value := by
  unfold objectSet
  split
  · rename_i hany
    rw [List.any_eq_true] at hany
    obtain ⟨e0, he0, hk⟩ := hany
    have hk0 : e0.1 = key := by simpa using hk
    constructor
    · rw [List.mem_map]
      refine ⟨(key, value), ?_, rfl⟩
      rw [List.mem_map]
      exact ⟨e0, he0, by simp [hk0]⟩
    · intro e he hek
      rw [List.mem_map] at he
      obtain ⟨e1, _, rfl⟩ := he
      by_cases h1 : e1.1 = key
      · simp [h1]
      · simp [h1] at hek
  · rename_i hany
    constructor
    · simp
    · intro e he hek
      rw [List.mem_append, List.mem_singleton] at he
      rcases he with he | rfl
      · exfalso
        apply hany
        rw [List.any_eq_true]
        exact ⟨e, he, by simp [hek]⟩
      · rfl

theorem not_mem_keys_objectDelete (obj : List (String × LineItem)) (key : String) :
    key ∉ (objectDelete obj key).map Prod.fst := by
  intro h
  rw [List.mem_map] at h
  obtain ⟨e, he, hk⟩ := h
  have := (List.mem_filter.1 he).2
  simp [hk] at this

theorem updateItemQuantity_of_item (form : OrderForm) (itemId : String) (change q : ℤ)
    (item : MenuItem) (hinput : form.qtyInputs.lookup itemId = some q)
    (hmenu : form.menu.find? (fun m => m.item_id = itemId) = some item) :
    updateItemQuantity form itemId change =
      { config :=
          { selectedTable := form.config.selectedTable
            selectedItems :=
              if max 0 (q + change) > 0 then
                objectSet form.config.selectedItems itemId
                  { id := itemId, name := item.item_name, price := item.price,
                    quantity := ((max 0 (q + change) : ℤ) : ℚ) }
              else objectDelete form.config.selectedItems itemId }
        menu := form.menu
        qtyInputs := setQtyInput form.qtyInputs itemId (max 0 (q + change)) } := by
  unfold updateItemQuantity
  rw [hinput, hmenu]
  dsimp only
  split <;> rfl

/-! ## C27 -/

/-- C27: for a menu item whose counter shows q ≥ 0, `updateItemQuantity(id, +1)`
followed by `updateItemQuantity(id, -1)` brings the counter back to q; after any
single call the counter shows max(0, q + change), the item is in
`config.selectedItems` exactly when that number is greater than 0, and then with
that quantity; a decrement at 0 leaves the counter at 0 and the item absent. -/
theorem updateItemQuantity_round_trip (form : OrderForm) (itemId : String) (q : ℤ)
    (item : MenuItem) (hinput : form.qtyInputs.lookup itemId = some q) (hq : 0 ≤ q)
    (hmenu : form.menu.find? (fun m => m.item_id = itemId) = some item) :
    (updateItemQuantity (updateItemQuantity form itemId 1) itemId (-1)).qtyInputs.lookup
      itemId = some q ∧
    (itemId ∈ (updateItemQuantity (updateItemQuantity form itemId 1) itemId
        (-1)).config.selectedItems.map Prod.fst ↔ 0 < q) ∧
    (∀ change,
      (updateItemQuantity form itemId change).qtyInputs.lookup itemId =
        some (max 0 (q + change)) ∧
      (itemId ∈ (updateItemQuantity form itemId change).config.selectedItems.map Prod.fst ↔
        0 < max 0 (q + change)) ∧
      ∀ e ∈ (updateItemQuantity form itemId change).config.selectedItems, e.1 = itemId →
        e.2.quantity = ((max 0 (q + change) : ℤ) : ℚ)) ∧
    (q = 0 →
      (updateItemQuantity form itemId (-1)).qtyInputs.lookup itemId = some 0 ∧
      itemId ∉ (updateItemQuantity form itemId (-1)).config.selectedItems.map Prod.fst) := by
  have hone : ∀ (f : OrderForm) (v change : ℤ),
      f.qtyInputs.lookup itemId = some v →
      f.menu.find? (fun m => m.item_id = itemId) = some item →
      (updateItemQuantity f itemId change).qtyInputs.lookup itemId =
        some (max 0 (v + change)) ∧
      (updateItemQuantity f itemId change).menu = f.menu ∧
      (itemId ∈ (updateItemQuantity f itemId change).config.selectedItems.map Prod.fst ↔
        0 < max 0 (v + change)) ∧
      ∀ e ∈ (updateItemQuantity f itemId change).config.selectedItems, e.1 = itemId →
        e.2.quantity = ((max 0 (v + change) : ℤ) : ℚ) := by
    intro f v change hv hm
    rw [updateItemQuantity_of_item f itemId change v item hv hm]
    refine ⟨lookup_setQtyInput _ _ _ _ hv, rfl, ?_, ?_⟩
    · by_cases hpos : max 0 (v + change) > 0
      · rw [if_pos hpos]
        exact ⟨fun _ => hpos, fun _ => (mem_keys_objectSet _ _ _).1⟩
      · rw [if_neg hpos]
        exact ⟨fun h => absurd h (not_mem_keys_objectDelete _ _), fun h => absurd h hpos⟩
    · intro e he hek
      by_cases hpos : max 0 (v + change) > 0
      · rw [if_pos hpos] at he
        rw [(mem_keys_objectSet _ _ _).2 e he hek]
      · rw [if_neg hpos] at he
        exfalso
        apply not_mem_keys_objectDelete f.config.selectedItems itemId
        rw [List.mem_map]
        exact ⟨e, he, hek⟩
  obtain ⟨h1, hm1, _, _⟩ := hone form q 1 hinput hmenu
  have hmenu1 : (updateItemQuantity form itemId 1).menu.find?
      (fun m => m.item_id = itemId) = some item := by rw [hm1, hmenu]
  obtain ⟨h2, _, hk2, _⟩ := hone (updateItemQuantity form itemId 1) _ (-1) h1 hmenu1
  have hback : max 0 (max 0 (q + 1) + -1) = q := by omega
  rw [hback] at h2 hk2
  refine ⟨h2, hk2, ?_, ?_⟩
  · intro change
    obtain ⟨ha, _, hb, hc⟩ := hone form q change hinput hmenu
    exact ⟨ha, hb, hc⟩
  · intro hq0
    obtain ⟨ha, _, hb, _⟩ := hone form q (-1) hinput hmenu
    have hz : max 0 (q + -1) = 0 := by omega
    rw [hz] at ha hb
    exact ⟨ha, fun h => absurd (hb.1 h) (by decide)⟩

/-- Witness for C27: ITEM-1 shows 2; "+" then "-" shows 2 again and the item
stays selected. -/
theorem updateItemQuantity_round_trip_witness :
    (updateItemQuantity (updateItemQuantity formItem1Twice "ITEM-1" 1) "ITEM-1"
      (-1)).qtyInputs.lookup "ITEM-1" = some 2 ∧
    ("ITEM-1" ∈ (updateItemQuantity (updateItemQuantity formItem1Twice "ITEM-1" 1) "ITEM-1"
      (-1)).config.selectedItems.map Prod.fst ↔ (0 : ℤ) < 2) :=
  ⟨(updateItemQuantity_round_trip formItem1Twice "ITEM-1" 2
      { item_id := "ITEM-1", item_name := "Dal", category := "Main", price := 100,
        description := "", available := true }
      (by decide) (by decide) (by decide)).1,
   (updateItemQuantity_round_trip formItem1Twice "ITEM-1" 2
      { item_id := "ITEM-1", item_name := "Dal", category := "Main", price := 100,
        description := "", available := true }
      (by decide) (by decide) (by decide)).2.1⟩

/-! ## C28 -/

/-- C28: for a `paymentData` whose `order_id` matches no order, when the payment
insert and the order update succeed, `processPayment` appends the Payment row,
then throws the `TypeError` of reading `order[0].table_no`; no table row and no
order row is changed, whatever the table update would have answered. -/
theorem processPayment_unknown_order (s : Store) (paymentData : PaymentData)
    (env : ProcessPaymentEnv)
    (hfind : s.orders.find? (fun o => o.order_id = paymentData.order_id) = none)
    (hpay : env.paymentOutcome = none) (hord : env.orderOutcome = none) :
    (processPayment s paymentData env).2 = .error .typeError ∧
    (processPayment s paymentData env).1.payments =
      s.payments ++ [newPaymentRow paymentData (paymentIdOf env.idNow) env.paymentTime] ∧
    (processPayment s paymentData env).1.tables = s.tables ∧
    (processPayment s paymentData env).1.orders = s.orders := by
  rw [processPayment_of_no_order s paymentData env hfind hpay hord]
  exact ⟨rfl, rfl, rfl, ordersAfterUpdate_of_no_match _ _ _ hfind⟩

/-- Witness for C28: settling the unknown order "ORD-404" against the store with
table "5" occupied by "ORD-1". -/
theorem processPayment_unknown_order_witness :
    (processPayment (storeOccupied5 250) paymentDataUnknown envPayOk).2 = .error .typeError ∧
    (processPayment (storeOccupied5 250) paymentDataUnknown envPayOk).1.payments.map
      (fun p => (p.order_id, p.amount)) = [("ORD-404", 250)] ∧
    (processPayment (storeOccupied5 250) paymentDataUnknown envPayOk).1.tables =
      (storeOccupied5 250).tables :=
  ⟨(processPayment_unknown_order (storeOccupied5 250) paymentDataUnknown envPayOk
      (by decide) rfl rfl).1,
   by decide,
   (processPayment_unknown_order (storeOccupied5 250) paymentDataUnknown envPayOk
      (by decide) rfl rfl).2.2.1⟩

/-! ## C29 -/

theorem substring0_orderIdOf (a : Nat) :
    displayedOrderNumber (orderIdOf a) = "ORD-" ++ substring0 (toString a) 4 := by
  apply String.ext
  have h4 : "ORD-".data = ['O', 'R', 'D', '-'] := rfl
  simp only [displayedOrderNumber, substring0, orderIdOf, String.data_append, h4]
  rfl

/-- C29: the displayed order number `order_id.substring(0, 8)` of an order created
at clock value `a` is 'ORD-' followed by the first four decimal digits of `a`;
so two orders whose clock values share their first four digits show the same
number, although their `order_id`s differ whenever the clock values differ. -/
theorem displayedOrderNumber_first_four_digits (a b : Nat) :
    displayedOrderNumber (orderIdOf a) = "ORD-" ++ substring0 (toString a) 4 ∧
    (substring0 (toString a) 4 = substring0 (toString b) 4 →
      displayedOrderNumber (orderIdOf a) = displayedOrderNumber (orderIdOf b)) ∧
    (a ≠ b → orderIdOf a ≠ orderIdOf b) := by
  refine ⟨substring0_orderIdOf a, ?_, ?_⟩
  · intro h
    rw [substring0_orderIdOf a, substring0_orderIdOf b, h]
  · intro hab hid
    exact hab (orderIdOf_injective a b hid)

/-- Witness for C29: two orders created 999 999 999 ms apart have different ids
and both are shown as 'ORD-1700'. -/
theorem displayedOrderNumber_first_four_digits_witness :
    displayedOrderNumber (orderIdOf 1700000000000) = "ORD-1700" ∧
    displayedOrderNumber (orderIdOf 1700999999999) = "ORD-1700" ∧
    orderIdOf 1700000000000 ≠ orderIdOf 1700999999999 ∧
    displayedOrderNumber (orderIdOf 1700000000000) =
      displayedOrderNumber (orderIdOf 1700999999999) :=
  ⟨by decide, by decide,
   (displayedOrderNumber_first_four_digits 1700000000000 1700999999999).2.2 (by decide),
   (displayedOrderNumber_first_four_digits 1700000000000 1700999999999).2.1 (by decide)⟩

/-! ## C30 -/

/-- C30, the code at the failing input: the refresh succeeds with the kitchen tab
active and the loaded list holds the pending order "ORD-1"; `loadAllData` calls
`displayKitchenOrders()` without the list, so the kitchen view renders no order,
while `loadKitchenOrders` on the same list renders "ORD-1". -/
theorem loadAllData_kitchen_view_empty :
    (loadAllData loadInputsKitchen).notification = none ∧
    (loadAllData loadInputsKitchen).cache =
      some ((storeOccupied5 250).tables, menuThree, cachedOrders) ∧
    cachedOrders.filter (fun o => o.status = "pending" ∨ o.status = "ready") =
      [orderRow "ORD-1" "5" 250 "pending" "pending"] ∧
    (loadAllData loadInputsKitchen).kitchenShown = some [] ∧
    loadKitchenOrders cachedOrders = [orderRow "ORD-1" "5" 250 "pending" "pending"] := by
  decide

/-- The kitchen view after any successful refresh with the kitchen tab active
lists no order at all, whatever was loaded. -/
theorem loadAllData_kitchen_view_always_empty (inp : LoadInputs) (tables : List Table)
    (menu : List MenuItem) (orders : List Order) (ht : inp.tables = .ok tables)
    (hm : inp.menu = .ok menu) (ho : inp.orders = .ok orders)
    (hk : inp.kitchenActive = true) :
    (loadAllData inp).kitchenShown = some [] := by
  unfold loadAllData
  rw [ht, hm, ho]
  by_cases hw : inp.webhook = ""
  · simp [hw, hk, displayKitchenOrders]
  · cases hmir : inp.mirror <;> simp [hw, hk, displayKitchenOrders, syncToGoogleSheets, hmir]

/-! ## Helper lemmas: the spreadsheet mirror -/

theorem getLastRow_le_length (rows : List Row) : getLastRow rows ≤ rows.length := by
  induction rows with
  | nil => simp [getLastRow]
  | cons row rest ih =>
    simp only [getLastRow, List.length_cons]
    split
    · omega
    · split <;> omega

theorem no_content_after_last_row (rows : List Row) (j : Nat) (hj : j < rows.length)
    (hlast : getLastRow rows ≤ j) : rowHasContent (rows.get ⟨j, hj⟩) = false := by
  induction rows generalizing j with
  | nil => simp at hj
  | cons row rest ih =>
    simp only [getLastRow] at hlast
    cases j with
    | zero =>
      split at hlast
      · omega
      · split at hlast
        · omega
        · rename_i hc
          simpa using hc
    | succ k =>
      have hk : k < rest.length := by simpa using hj
      have hrest : getLastRow rest ≤ k := by
        split at hlast
        · omega
        · omega
      simpa using ih k hk hrest

theorem clearCells_no_content (n : Nat) (row : Row) (h : row.length ≤ n) :
    rowHasContent (clearCells n row) = false := by
  have hdrop : row.drop n = [] := List.drop_eq_nil_of_le h
  simp [clearCells, hdrop, rowHasContent, Cell.isEmpty]

theorem clearContent_length (rows : List Row) (firstRow numRows n : Nat) :
    (clearContent rows firstRow numRows n).length = rows.length := by
  simp [clearContent]

theorem clearContent_get (rows : List Row) (firstRow numRows n j : Nat) (hj : j < rows.length) :
    (clearContent rows firstRow numRows n)[j]? =
      some (if firstRow ≤ j + 1 ∧ j + 1 < firstRow + numRows then clearCells n rows[j]
            else rows[j]) := by
  simp [clearContent, List.getElem?_map, List.getElem?_enum, hj]

theorem clearCells_length (n : Nat) (row : Row) : (clearCells n row).length = row.length := by
  simp [clearCells]
  omega

theorem cleared_rows_below_header (rows : List Row) (n : Nat)
    (hwidth : ∀ row ∈ rows, row.length ≤ n) (hlast : 2 ≤ getLastRow rows) :
    (clearContent rows 2 (getLastRow rows - 1) n).head? = rows.head? ∧
    ∀ r ∈ (clearContent rows 2 (getLastRow rows - 1) n).drop 1,
      rowHasContent r = false ∧ r.length ≤ n := by
  constructor
  · cases rows with
    | nil => rfl
    | cons row rest =>
      have h0 := clearContent_get (row :: rest) 2 (getLastRow (row :: rest) - 1) n 0
        (by simp)
      rw [List.head?_eq_getElem?, h0]
      simp
  · intro r hr
    obtain ⟨j, hj, hjr⟩ := List.getElem_of_mem hr
    have hlen : j + 1 < rows.length := by
      have hj1 : j < (List.drop 1 (clearContent rows 2 (getLastRow rows - 1) n)).length := hj
      rw [List.length_drop, clearContent_length] at hj1
      omega
    have hget : (clearContent rows 2 (getLastRow rows - 1) n)[j + 1]? = some r := by
      have h1 : (List.drop 1 (clearContent rows 2 (getLastRow rows - 1) n))[j]? = some r := by
        rw [List.getElem?_eq_getElem hj, hjr]
      rw [List.getElem?_drop] at h1
      rwa [Nat.add_comm] at h1
    rw [clearContent_get rows 2 (getLastRow rows - 1) n (j + 1) hlen] at hget
    have hr1 := Option.some.inj hget
    by_cases hc : 2 ≤ j + 1 + 1 ∧ j + 1 + 1 < 2 + (getLastRow rows - 1)
    · rw [if_pos hc] at hr1
      rw [← hr1]
      have hw : rows[j + 1].length ≤ n := hwidth _ (List.getElem_mem _)
      exact ⟨clearCells_no_content n _ hw, by rw [clearCells_length]; exact hw⟩
    · rw [if_neg hc] at hr1
      rw [← hr1]
      have hbeyond : getLastRow rows ≤ j + 1 := by omega
      exact ⟨no_content_after_last_row rows (j + 1) hlen hbeyond,
        hwidth _ (List.getElem_mem _)⟩

theorem overwriteRows_values (olds values : List Row) (n : Nat)
    (hold : ∀ r ∈ olds, r.length ≤ n) (hval : ∀ v ∈ values, v.length = n) :
    (overwriteRows olds values).take values.length = values ∧
    ∀ r ∈ (overwriteRows olds values).drop values.length, r ∈ olds := by
  induction values generalizing olds with
  | nil =>
    cases olds <;> simp [overwriteRows]
  | cons v vs ih =>
    have hvs : ∀ w ∈ vs, w.length = n := fun w hw => hval w (List.mem_cons_of_mem _ hw)
    cases olds with
    | nil =>
      obtain ⟨h1, h2⟩ := ih [] (fun r hr => by simp at hr) hvs
      simp only [overwriteRows, List.length_cons, List.take_succ_cons, List.drop_succ_cons]
      exact ⟨by rw [h1], h2⟩
    | cons o os =>
      obtain ⟨h1, h2⟩ := ih os (fun r hr => hold r (List.mem_cons_of_mem _ hr)) hvs
      have hdrop : o.drop v.length = [] := by
        apply List.drop_eq_nil_of_le
        rw [hval v (List.mem_cons_self _ _)]
        exact hold o (List.mem_cons_self _ _)
      simp only [overwriteRows, List.length_cons, List.take_succ_cons, List.drop_succ_cons,
        hdrop, List.append_nil]
      exact ⟨by rw [h1], fun r hr => List.mem_cons_of_mem _ (h2 r hr)⟩

theorem setValues_below_header (row : Row) (rest values : List Row) :
    setValues (row :: rest) 2 values = row :: overwriteRows rest values := by
  simp [setValues]

theorem getSheetByName_putSheet (ss : Spreadsheet) (name : String) (sheet : Sheet)
    (rows : List Row) (hfind : getSheetByName ss name = some sheet) :
    getSheetByName (putSheet ss { name := name, rows := rows }) name =
      some { name := name, rows := rows } := by
  unfold getSheetByName at hfind ⊢
  unfold putSheet
  induction ss with
  | nil => simp at hfind
  | cons sh rest ih =>
    by_cases hc : sh.name = name
    · simp [List.find?_cons, hc]
    · have hrest : rest.find? (fun s => decide (s.name = name)) = some sheet := by
        simpa [List.find?_cons, hc] using hfind
      have := ih hrest
      simp only [List.map_cons, List.find?_cons, hc, if_false, decide_False]
      simpa using this

/-- Where the mirror cannot write: with the sheet missing, or present without a
data row (last row with content below 2), the shared body throws at
`getRange(2, 1, 0, n)` before anything is written below the header. -/
theorem syncSheet_throws_without_data_rows (ss : Spreadsheet) (name : String) (header : Row)
    (values : List Row) :
    (getSheetByName ss name = none →
      syncSheet ss name header values =
        (ss ++ [{ name := name, rows := [header] }],
          .error "Exception: The number of rows in the range must be at least 1.")) ∧
    (∀ sheet, getSheetByName ss name = some sheet → getLastRow sheet.rows < 2 →
      syncSheet ss name header values =
        (ss, .error "Exception: The number of rows in the range must be at least 1.")) := by
  constructor
  · intro hnone
    have hlast : getLastRow [header] < 2 := by
      have := getLastRow_le_length [header]
      simp at this
      omega
    simp only [syncSheet, hnone, hlast, if_true]
  · intro sheet hfind hlast
    simp only [syncSheet, hfind, hlast, if_true]

/-- Where the mirror does write: when the sheet exists with at least one data row
and holds nothing outside the header's columns, the shared body returns
normally, keeps row 1, puts the snapshot rows in order from row 2 on, and leaves
no content in any row after them. -/
theorem syncSheet_replaces_data_rows (ss : Spreadsheet) (name : String) (header : Row)
    (values : List Row) (sheet : Sheet) (hfind : getSheetByName ss name = some sheet)
    (hlast : 2 ≤ getLastRow sheet.rows)
    (hwidth : ∀ row ∈ sheet.rows, row.length ≤ header.length)
    (hvalues : ∀ v ∈ values, v.length = header.length) :
    (syncSheet ss name header values).2 = .ok () ∧
    ∃ rows, getSheetByName (syncSheet ss name header values).1 name =
        some { name := name, rows := rows } ∧
      rows.head? = sheet.rows.head? ∧
      (rows.drop 1).take values.length = values ∧
      ∀ r ∈ (rows.drop 1).drop values.length, rowHasContent r = false := by
  have hnot : ¬ getLastRow sheet.rows < 2 := by omega
  obtain ⟨hhead, htail⟩ := cleared_rows_below_header sheet.rows header.length hwidth hlast
  by_cases hv : values.length > 0
  · simp only [syncSheet, hfind, hnot, if_false, hv, if_true]
    refine ⟨trivial, _, getSheetByName_putSheet ss name sheet _ hfind, ?_⟩
    cases hcl : clearContent sheet.rows 2 (getLastRow sheet.rows - 1) header.length with
    | nil =>
      have := clearContent_length sheet.rows 2 (getLastRow sheet.rows - 1) header.length
      rw [hcl] at this
      have := getLastRow_le_length sheet.rows
      simp at *
      omega
    | cons row rest =>
      rw [hcl] at hhead htail
      rw [setValues_below_header]
      obtain ⟨h1, h2⟩ := overwriteRows_values rest values header.length
        (fun r hr => (htail r (by simpa using hr)).2) hvalues
      refine ⟨by simpa using hhead, by simpa using h1, ?_⟩
      intro r hr
      exact (htail r (by simpa using h2 r (by simpa using hr))).1
  · have hnil : values = [] := by
      cases values with
      | nil => rfl
      | cons v vs => simp at hv
    simp only [syncSheet, hfind, hnot, if_false, hv]
    refine ⟨trivial, _, getSheetByName_putSheet ss name sheet _ hfind, hhead, by simp [hnil], ?_⟩
    intro r hr
    rw [hnil] at hr
    exact (htail r (by simpa using hr)).1

/-! ## C24 -/

/-- C24, the code at the failing inputs: with no sheet 'Tables', and with a sheet
'Tables' holding only its header row, `syncTables` for a snapshot of one table
throws at `getRange(2, 1, 0, 6)`; the sheet then holds the header and no data
row, and `doPost` answers `success: false`.  With three table rows already in
the sheet the same snapshot replaces them. -/
theorem syncTables_fails_without_data_rows :
    snapshotOneTable.tables.map tableRow =
      [[.text "5", .number 4, .text "vacant", .blank, .text "2023-11-14T22:13:20.000Z",
        .blank]] ∧
    syncTables [] snapshotOneTable.tables =
      ([{ name := "Tables", rows := [tablesHeader] }],
        .error "Exception: The number of rows in the range must be at least 1.") ∧
    syncTables spreadsheetHeaderOnly snapshotOneTable.tables =
      (spreadsheetHeaderOnly,
        .error "Exception: The number of rows in the range must be at least 1.") ∧
    (syncTables spreadsheetHeaderOnly snapshotOneTable.tables).1.map
      (fun sheet => dataRows sheet.rows) = [[]] ∧
    (doPost [] "sync" snapshotOneTable).2 =
      { success := false,
        message := "Exception: The number of rows in the range must be at least 1." } ∧
    (syncTables spreadsheetThreeTables snapshotOneTable.tables).2 = .ok () ∧
    (syncTables spreadsheetThreeTables snapshotOneTable.tables).1.map
      (fun sheet => dataRows sheet.rows) = [snapshotOneTable.tables.map tableRow] := by
  decide

end Restaurant
